import Mathlib

/-!
# DHCPv6 client device (wicked, `dhcp6/device.c`)

The embeddings of `src/wireless.c`, `src/dbus-xml.c` and `src/process.c`
follow in namespaces of their own, each with its conventions; the theorems
about them come after those about the DHCPv6 device.

A shallow embedding of the device handling code of the DHCPv6 supplicant:
the retransmission engine, message initialisation and the acquire path.

Conventions of the embedding.

* C `unsigned long` values are natural numbers; arithmetic that can wrap is
  reduced modulo `ULONG_SIZE` (LP64: `2 ^ 64`).
* The `long` arithmetic of the uptime is reduced by `long_wrap` to the range of
  `long` (two's complement, 64 bits).
* A C function that mutates `*dev` returns the new device next to its return
  value.  Datagrams handed to `sendto` are collected in a list.
* Code of the repository that is called from `device.c` but lives in other
  translation units (the message builder, the socket layer, the timing table,
  the jitter helper, the DUID helpers) is supplied through the record `Env`,
  one value per call, or modelled from the specification where it says what
  the helper does.
* A null pointer dereference is undefined behaviour in C; such executions are
  represented by `none`.
-/

namespace Dhcp6

/-! ## System constants -/

/-- Width of `unsigned long` (LP64). -/
def ULONG_SIZE : Nat := 2 ^ 64

/-- Address family `AF_INET6` (Linux). -/
def AF_INET6 : Nat := 10

/-- Address family `AF_INET` (Linux). -/
def AF_INET : Nat := 2

/-- Flag `MSG_DONTROUTE` of `sendto` (Linux). -/
def MSG_DONTROUTE : Nat := 4

/-! ## DHCPv6 protocol constants

The header `dhcp6/protocol.h` is not part of the sources at hand; the message
type numbers are those of RFC 3315, section 24.2. -/

/-- Message type Solicit. -/
def NI_DHCP6_SOLICIT : Nat := 1
/-- Message type Advertise. -/
def NI_DHCP6_ADVERTISE : Nat := 2
/-- Message type Request. -/
def NI_DHCP6_REQUEST : Nat := 3
/-- Message type Confirm. -/
def NI_DHCP6_CONFIRM : Nat := 4
/-- Message type Renew. -/
def NI_DHCP6_RENEW : Nat := 5
/-- Message type Rebind. -/
def NI_DHCP6_REBIND : Nat := 6
/-- Message type Reply. -/
def NI_DHCP6_REPLY : Nat := 7
/-- Message type Release. -/
def NI_DHCP6_RELEASE : Nat := 8
/-- Message type Decline. -/
def NI_DHCP6_DECLINE : Nat := 9
/-- Message type Reconfigure. -/
def NI_DHCP6_RECONFIGURE : Nat := 10
/-- Message type Info-request. -/
def NI_DHCP6_INFO_REQUEST : Nat := 11

/-- Modelled from the spec: the macro `NI_DHCP6_XID_MASK` of the absent header
`dhcp6/protocol.h`; the transaction id is a 24-bit field. -/
def NI_DHCP6_XID_MASK : Nat := 0xffffff

/-- Modelled from the spec: the macro `NI_DHCP6_SERVER_PORT` of the absent
header `dhcp6/protocol.h`; the destination port is 547. -/
def NI_DHCP6_SERVER_PORT : Nat := 547

/-- Modelled from the spec: the macro `NI_DHCP6_ALL_RAGENTS` of the absent
header `dhcp6/protocol.h`, the textual address `FF02::1:2`, given here as the
sixteen bytes `inet_pton` produces for it. -/
def NI_DHCP6_ALL_RAGENTS : List Nat :=
  [0xff, 0x02, 0, 0, 0, 0, 0, 0, 0, 0, 0, 0, 0, 0x01, 0, 0x02]

/-! ## Data model -/

/-- The C `struct timeval`. -/
structure Timeval where
  tv_sec : Int
  tv_usec : Int
deriving DecidableEq, Repr

/-- The macro `timerisset` of `<sys/time.h>`. -/
def timerisset (t : Timeval) : Bool :=
  t.tv_sec != 0 || t.tv_usec != 0

/-- Timing parameters of a message exchange (`dev->retrans.params`). -/
structure ni_dhcp6_timing_t where
  delay : Nat
  timeout : Nat
  max_jitter : Nat
  max_timeout : Nat
  max_retransmits : Nat
  max_duration : Nat
  pos_jitter : Bool
deriving DecidableEq, Repr

/-- Retransmission state of a device (`dev->retrans`). -/
structure ni_dhcp6_retrans_t where
  start : Timeval
  deadline : Timeval
  timeout : Nat
  params : ni_dhcp6_timing_t
deriving DecidableEq, Repr

/-- The `sockaddr_in6` view of `ni_sockaddr_t`.  `sin6_port` holds the two
bytes of the port as they lie in memory; `pad` stands for the bytes of the
union that follow the `sockaddr_in6` member. -/
structure ni_sockaddr_t where
  sin6_family : Nat
  sin6_port : List Nat
  sin6_flowinfo : Nat
  sin6_addr : List Nat
  sin6_scope_id : Nat
  pad : List Nat
deriving DecidableEq, Repr

/-- Hardware address (`ni_hwaddr_t`): `len` is the length of `data`. -/
structure ni_hwaddr_t where
  type_ : Nat
  data : List Nat
deriving DecidableEq, Repr

/-- Link information (`ni_linkinfo_t`), as far as the device code uses it. -/
structure ni_linkinfo_t where
  type_ : Nat
  ifindex : Nat
  ifflags : Nat
  alias_ : Option String
  arp_type : Nat
  hwaddr : ni_hwaddr_t
deriving DecidableEq, Repr

/-- The vendor class of a config: enterprise number and strings. -/
structure ni_dhcp6_vendor_class_t where
  en : Nat
  data : List String
deriving DecidableEq, Repr

/-- The vendor options of a config: enterprise number and name/value pairs. -/
structure ni_dhcp6_vendor_opts_t where
  en : Nat
  data : List (String × String)
deriving DecidableEq, Repr

/-- The request handed to `ni_dhcp6_acquire` (`ni_dhcp6_request_t`).  The
`hostname` is the list of the bytes of the C string, `none` for a null
pointer. -/
structure ni_dhcp6_request_t where
  uuid : List Nat
  update : Nat
  info_only : Bool
  rapid_commit : Bool
  clientid : Option String
  hostname : Option (List Nat)
deriving DecidableEq, Repr

/-- The config derived from a request (`ni_dhcp6_config_t`).  A
`ni_opaque_t` is the list of its `len` data bytes; the `hostname` is the list
of the bytes of the array before the first zero byte. -/
structure ni_dhcp6_config_t where
  uuid : List Nat
  update : Nat
  info_only : Bool
  rapid_commit : Bool
  client_duid : List Nat
  hostname : List Nat
  user_class : List String
  vendor_class : ni_dhcp6_vendor_class_t
  vendor_opts : ni_dhcp6_vendor_opts_t
deriving DecidableEq, Repr

/-- The part of a lease (`ni_addrconf_lease_t`) the device code reads:
`lease->dhcp6.server_unicast`. -/
structure ni_addrconf_lease_t where
  server_unicast : List Nat
deriving DecidableEq, Repr

/-- FSM states; only `NI_DHCP6_STATE_INIT` is named in `device.c`. -/
def NI_DHCP6_STATE_INIT : Nat := 0

/-- The FSM part of a device: state and the armed timer, if any (the timer is
represented by the timeout in milliseconds it was armed with). -/
structure ni_dhcp6_fsm_t where
  state : Nat
  timer : Option Nat
deriving DecidableEq, Repr

/-- The device handle `ni_dhcp6_device_t`.  `sock` is the descriptor of the
open socket, `message` the bytes between head and tail of `dev->message`. -/
structure ni_dhcp6_device_t where
  ifname : Option String
  link : ni_linkinfo_t
  users : Nat
  start_time : Timeval
  fsm : ni_dhcp6_fsm_t
  sock : Option Nat
  xid : Nat
  message : List Nat
  server_addr : ni_sockaddr_t
  client_addr : ni_sockaddr_t
  tx_counter : Nat
  tx_delay : Int
  retrans : ni_dhcp6_retrans_t
  config : Option ni_dhcp6_config_t
  request : Option ni_dhcp6_request_t
  lease : Option ni_addrconf_lease_t
deriving DecidableEq, Repr

/-- One call of `sendto`: descriptor, datagram, flags and destination. -/
structure Sendto where
  fd : Nat
  data : List Nat
  flags : Nat
  dest : ni_sockaddr_t
deriving DecidableEq, Repr

/-- An address of an interface (`ni_address_t`): family, the `IFA_F_*` flags
the kernel reports for it, and the local address. -/
structure ni_address_t where
  family : Nat
  flags : Nat := 0
  local_addr : ni_sockaddr_t
deriving DecidableEq, Repr

/-- The DHCPv6 part of the global configuration
(`ni_global.config->addrconf.dhcp6`). -/
structure ni_config_dhcp6 where
  default_duid : Option String
  user_class_data : List String
  vendor_class_en : Nat
  vendor_class_data : List String
  vendor_opts_en : Nat
  vendor_opts_data : List (Option String × String)
  ignore_servers : List String
  lease_time : Nat
deriving DecidableEq, Repr

/-- What one call into the device code receives from the rest of the program
and from the system.

* `now`: the value `ni_timer_get_time` stores.
* `rand`, `fuel`: the successive results of `random()`, and a bound on the
  number of draws followed.
* `jitter lo hi`: the value the jitter helper draws inside the timeout helper
  when it is given the bounds `lo` (downwards) and `hi` (upwards).
* `delay_jitter lo hi`: the value the jitter helper draws for the initial
  delay, in `ni_dhcp6_device_transmit_arm_delay`.  A call of a device function
  makes at most one draw of each kind, and the two are independent.
* `socket_open`: `ni_dhcp6_socket_open`, its return value and the socket the
  device holds afterwards.
* `build_message`: `ni_dhcp6_build_message`, its return value and the bytes
  in the buffer afterwards.
* `set_message_timing`: `ni_dhcp6_set_message_timing`, its return value and
  the timing parameters afterwards.
* `sendto`: the return value of `sendto`.
* `netdev_addrs`: the addresses of the interface with a given index, `none`
  when there is no global state handle or no such interface.
* `netdev_arp_types`: the ARP hardware types of the known interfaces, in the
  order of `ni_netconfig_devlist`.
* `duid_parse_hex`, `load_duid`, `duid_init_llt`, `duid_init_uuid`,
  `uuid_generate`: the DUID helpers of `dhcp6/duid.c` and the UUID generator;
  each takes the DUID it is handed and yields its return value and the DUID
  afterwards.
* `hostname_size`: `sizeof(config->hostname)`.
* `PACKAGE_NAME`, `PACKAGE_VERSION`: the macros of `config.h`, when defined.
* `config`: the DHCPv6 part of the global configuration. -/
structure Env where
  now : Timeval
  rand : Nat → Nat
  fuel : Nat
  jitter : Nat → Nat → Int
  delay_jitter : Nat → Nat → Int
  socket_open : ni_dhcp6_device_t → Int × Option Nat
  build_message : ni_dhcp6_device_t → Nat → Option ni_addrconf_lease_t → Int × List Nat
  set_message_timing : Nat → ni_dhcp6_timing_t → Bool × ni_dhcp6_timing_t
  sendto : Sendto → Int
  netdev_addrs : Nat → Option (List ni_address_t)
  netdev_arp_types : List Nat
  duid_parse_hex : List Nat → String → Int × List Nat
  load_duid : List Nat → Int × List Nat
  duid_init_llt : List Nat → Nat → List Nat → Bool × List Nat
  uuid_generate : List Nat
  duid_init_uuid : List Nat → List Nat → List Nat
  hostname_size : Nat
  PACKAGE_NAME : Option String
  PACKAGE_VERSION : Option String
  config : ni_config_dhcp6

/-! ## Helpers that live outside `device.c` -/

/-- Modelled from the spec: the jitter an exchange may be given.  The helper
`ni_dhcp6_timeout_jitter` (absent, `dhcp6/protocol.c`) draws a value between
`-lo` and `+hi`, the bounds it is handed.  Whether it can draw a bound itself
is not settled by `device.c`; both bounds are allowed here. -/
def JitterInBounds (lo hi : Nat) (j : Int) : Prop :=
  -(lo : Int) ≤ j ∧ j ≤ (hi : Int)

instance (lo hi : Nat) (j : Int) : Decidable (JitterInBounds lo hi j) := by
  unfold JitterInBounds; infer_instance

/-- Modelled from the spec: `ni_dhcp6_timeout_jitter` (absent,
`dhcp6/protocol.c`) returns the jitter drawn for the given bounds; `draw` is
the draw this call makes. -/
def ni_dhcp6_timeout_jitter (draw : Nat → Nat → Int) (lo hi : Nat) : Int :=
  draw lo hi

/-- Addition of milliseconds to a `struct timeval`, normalised. -/
def timeval_add_msec (t : Timeval) (msec : Nat) : Timeval :=
  let usec := t.tv_usec + ((msec % 1000 : Nat) : Int) * 1000
  { tv_sec := t.tv_sec + ((msec / 1000 : Nat) : Int) + usec / 1000000,
    tv_usec := usec % 1000000 }

/-- Modelled from the spec: `ni_dhcp6_timeout_arm_msec` (absent,
`dhcp6/protocol.c`).  It adds the drawn jitter to the timeout
(`RT = base + RAND·base`), sets the deadline to the current time plus the
result and returns the result, an `unsigned long`. -/
def ni_dhcp6_timeout_arm_msec (env : Env) (timeout lo hi : Nat) : Nat × Timeval :=
  let rt := Int.toNat (((timeout : Int) + ni_dhcp6_timeout_jitter env.jitter lo hi) % (ULONG_SIZE : Int))
  (rt, timeval_add_msec env.now rt)

/-- Modelled from the spec: `ni_dhcp6_fsm_set_timeout_msec` (absent,
`dhcp6/fsm.c`).  A device holds one timer; arming it replaces the previous
one. -/
def ni_dhcp6_fsm_set_timeout_msec (dev : ni_dhcp6_device_t) (msec : Nat) : ni_dhcp6_device_t :=
  { dev with fsm := { dev.fsm with timer := some msec } }

/-- The macro `IN6_IS_ADDR_MULTICAST` of `<netinet/in.h>`. -/
def IN6_IS_ADDR_MULTICAST (a : List Nat) : Bool :=
  a.getD 0 0 == 0xff

/-- The macro `IN6_IS_ADDR_LINKLOCAL` of `<netinet/in.h>`. -/
def IN6_IS_ADDR_LINKLOCAL (a : List Nat) : Bool :=
  a.getD 0 0 == 0xfe && (a.getD 1 0 &&& 0xc0) == 0x80

/-- The function `htons`, as the two bytes of its result in memory. -/
def htons (x : Nat) : List Nat :=
  [x / 256 % 256, x % 256]

/-! ## The retransmission engine (`device.c`, lines 378-544) -/

/-- The all-zero `struct timeval`. -/
def Timeval.zero : Timeval := { tv_sec := 0, tv_usec := 0 }

/-- The all-zero retransmission state, as `memset` leaves it. -/
def ni_dhcp6_retrans_t.zero : ni_dhcp6_retrans_t :=
  { start := Timeval.zero, deadline := Timeval.zero, timeout := 0,
    params := { delay := 0, timeout := 0, max_jitter := 0, max_timeout := 0,
                max_retransmits := 0, max_duration := 0, pos_jitter := false } }

/-- The function `ni_dhcp6_device_retransmit_disarm`: `memset(&dev->retrans, 0, ...)`. -/
def ni_dhcp6_device_retransmit_disarm (dev : ni_dhcp6_device_t) : ni_dhcp6_device_t :=
  { dev with retrans := ni_dhcp6_retrans_t.zero }

/-- The function `ni_dhcp6_device_retransmit_advance`. -/
def ni_dhcp6_device_retransmit_advance (env : Env) (dev : ni_dhcp6_device_t) :
    Bool × ni_dhcp6_device_t :=
  if dev.retrans.params.max_retransmits != 0
      && decide (dev.tx_counter ≥ dev.retrans.params.max_retransmits) then
    (false, dev)
  else if timerisset dev.retrans.deadline then
    let doubled := (dev.retrans.timeout * 2) % ULONG_SIZE
    let base :=
      if dev.retrans.params.max_timeout != 0
          && decide (doubled > dev.retrans.params.max_timeout) then
        dev.retrans.params.max_timeout
      else doubled
    let armed := ni_dhcp6_timeout_arm_msec env base
      dev.retrans.params.max_jitter dev.retrans.params.max_jitter
    (true, { dev with retrans := { dev.retrans with timeout := armed.1, deadline := armed.2 } })
  else
    (false, dev)

/-- The function `ni_dhcp6_device_transmit`: the return value and the datagrams sent.
`none` stands for the dereference of a null `dev->sock`. -/
def ni_dhcp6_device_transmit (env : Env) (dev : ni_dhcp6_device_t) :
    Option (Int × List Sendto) :=
  if dev.message.length == 0 then
    some (-1, [])
  else
    match dev.sock with
    | none => none
    | some fd =>
      let flags :=
        if IN6_IS_ADDR_MULTICAST dev.server_addr.sin6_addr
            || IN6_IS_ADDR_LINKLOCAL dev.server_addr.sin6_addr then MSG_DONTROUTE else 0
      let pkt : Sendto := { fd := fd, data := dev.message, flags := flags, dest := dev.server_addr }
      let rv := env.sendto pkt
      if rv < 0 then some (-1, [pkt])
      else if rv = (dev.message.length : Int) then some (0, [pkt])
      else some (-1, [pkt])

/-- The function `ni_dhcp6_device_retransmit`: return value, device afterwards and the
datagrams sent.  `none` stands for the dereference of a null `dev->config`
or `dev->sock`. -/
def ni_dhcp6_device_retransmit (env : Env) (dev : ni_dhcp6_device_t) :
    Option (Int × ni_dhcp6_device_t × List Sendto) :=
  let adv := ni_dhcp6_device_retransmit_advance env dev
  if !adv.1 then
    some (-1, ni_dhcp6_device_retransmit_disarm adv.2, [])
  else
    let dev1 := adv.2
    match dev1.config with
    | none => none
    | some config =>
      let built :=
        if config.info_only then env.build_message dev1 NI_DHCP6_INFO_REQUEST none
        else env.build_message dev1 NI_DHCP6_SOLICIT dev1.lease
      let dev2 := { dev1 with message := built.2 }
      if built.1 != 0 then some (built.1, dev2, [])
      else
        match ni_dhcp6_device_transmit env dev2 with
        | none => none
        | some (rv, sent) =>
          if rv != 0 then some (rv, dev2, sent)
          else some (-1, dev2, sent)

/-- The function `ni_dhcp6_device_transmit_arm_delay`. -/
def ni_dhcp6_device_transmit_arm_delay (env : Env) (dev : ni_dhcp6_device_t) :
    Bool × ni_dhcp6_device_t :=
  let dev1 := { dev with tx_counter := 0, tx_delay := (dev.retrans.params.delay : Int) }
  if dev1.tx_delay != 0 then
    let jitter := ni_dhcp6_timeout_jitter env.delay_jitter dev1.retrans.params.max_jitter
      dev1.retrans.params.max_jitter
    let dev2 := { dev1 with tx_delay := dev1.tx_delay + jitter }
    if dev2.tx_delay != 0 then
      (true, ni_dhcp6_fsm_set_timeout_msec dev2 (Int.toNat (dev2.tx_delay % (ULONG_SIZE : Int))))
    else (false, dev2)
  else (false, dev1)

/-- The function `ni_dhcp6_device_retransmit_arm`. -/
def ni_dhcp6_device_retransmit_arm (env : Env) (dev : ni_dhcp6_device_t) : ni_dhcp6_device_t :=
  let dev1 := { dev with tx_delay := 0 }
  let dev2 := { dev1 with retrans := { dev1.retrans with start := env.now } }
  let armed :=
    if !(decide (dev2.tx_counter > 1)) && dev2.retrans.params.pos_jitter then
      ni_dhcp6_timeout_arm_msec env dev2.retrans.params.timeout 0 dev2.retrans.params.max_jitter
    else
      ni_dhcp6_timeout_arm_msec env dev2.retrans.params.timeout
        dev2.retrans.params.max_jitter dev2.retrans.params.max_jitter
  let dev3 := { dev2 with retrans := { dev2.retrans with deadline := armed.2, timeout := armed.1 } }
  if dev3.retrans.params.max_duration != 0 then
    ni_dhcp6_fsm_set_timeout_msec dev3 dev3.retrans.params.max_duration
  else dev3

/-! ## Message initialisation (`device.c`, lines 862-989) -/

/-- The function `ni_dhcp6_device_alloc_buffer`: room is ensured and the buffer cleared. -/
def ni_dhcp6_device_alloc_buffer (dev : ni_dhcp6_device_t) : ni_dhcp6_device_t :=
  { dev with message := [] }

/-- The function `ni_dhcp6_device_can_send_unicast`: the rules are compiled out
(`#if 0`), what is left is `return FALSE`. -/
def ni_dhcp6_device_can_send_unicast (_dev : ni_dhcp6_device_t) (_msg_code : Nat)
    (_lease : Option ni_addrconf_lease_t) : Bool :=
  false

/-- The loop `while (dev->dhcp6.xid == 0) dev->dhcp6.xid = random() & MASK`,
reading the draws `rand i`, `rand (i+1)`, ...; `none` when the loop has not
ended after `fuel` draws. -/
def xid_loop (rand : Nat → Nat) : Nat → Nat → Nat → Option Nat
  | fuel, i, xid =>
    if xid != 0 then some xid
    else
      match fuel with
      | 0 => none
      | fuel + 1 => xid_loop rand fuel (i + 1) (rand i &&& NI_DHCP6_XID_MASK)

/-- The function `ni_dhcp6_init_message`.  `none` when the transaction id loop does not
end within the draws followed (or a null lease is dereferenced).  The call
of `inet_pton` on the constant `NI_DHCP6_ALL_RAGENTS` yields its bytes. -/
def ni_dhcp6_init_message (env : Env) (dev : ni_dhcp6_device_t) (msg_code : Nat)
    (lease : Option ni_addrconf_lease_t) : Option (Int × ni_dhcp6_device_t) :=
  let opened := env.socket_open dev
  let dev1 := { dev with sock := opened.2 }
  if opened.1 < 0 then
    some (1, dev1)
  else
    match xid_loop env.rand env.fuel 0 dev1.xid with
    | none => none
    | some xid =>
      let dev2 := ni_dhcp6_device_alloc_buffer { dev1 with xid := xid }
      let built := env.build_message dev2 msg_code lease
      let dev3 := { dev2 with message := built.2 }
      if built.1 < 0 then
        some (-1, dev3)
      else
        let zeroed : ni_sockaddr_t :=
          { sin6_family := 0, sin6_port := [0, 0], sin6_flowinfo := 0,
            sin6_addr := List.replicate 16 0, sin6_scope_id := 0,
            pad := List.replicate dev3.server_addr.pad.length 0 }
        let sa : ni_sockaddr_t :=
          { zeroed with sin6_family := AF_INET6, sin6_port := htons NI_DHCP6_SERVER_PORT,
                        sin6_scope_id := dev3.link.ifindex }
        let dest : Option (List Nat) :=
          if ni_dhcp6_device_can_send_unicast dev3 msg_code lease then
            lease.map (fun l => l.server_unicast)
          else some NI_DHCP6_ALL_RAGENTS
        match dest with
        | none => none
        | some addr =>
          let dev4 := { dev3 with server_addr := { sa with sin6_addr := addr } }
          let timing := env.set_message_timing msg_code dev4.retrans.params
          let dev5 := { dev4 with retrans := { dev4.retrans with params := timing.2 } }
          if !timing.1 then some (-1, dev5) else some (0, dev5)

/-! ## Device handles (`device.c`, lines 104-134) -/

/-- Bytes of `ni_sockaddr_t` behind its `sockaddr_in6` member: the union holds
a `struct sockaddr_storage` (128 bytes), `struct sockaddr_in6` has 28. -/
def NI_SOCKADDR_PAD : Nat := 100

/-- A zeroed `ni_sockaddr_t`, as `xcalloc` yields it. -/
def ni_sockaddr_t.zero : ni_sockaddr_t :=
  { sin6_family := 0, sin6_port := [0, 0], sin6_flowinfo := 0,
    sin6_addr := List.replicate 16 0, sin6_scope_id := 0,
    pad := List.replicate NI_SOCKADDR_PAD 0 }

/-- The function `ni_dhcp6_device_new`: the new device and the list of active devices with
the device appended. -/
def ni_dhcp6_device_new (env : Env) (active : List ni_dhcp6_device_t) (ifname : Option String)
    (link : ni_linkinfo_t) : ni_dhcp6_device_t × List ni_dhcp6_device_t :=
  let dev : ni_dhcp6_device_t :=
    { ifname := ifname,
      link := { type_ := link.type_, ifindex := link.ifindex, ifflags := link.ifflags,
                alias_ := link.alias_, arp_type := link.arp_type, hwaddr := link.hwaddr },
      users := 1,
      start_time := env.now,
      fsm := { state := NI_DHCP6_STATE_INIT, timer := none },
      sock := none,
      xid := 0,
      message := [],
      server_addr := ni_sockaddr_t.zero,
      client_addr := ni_sockaddr_t.zero,
      tx_counter := 0,
      tx_delay := 0,
      retrans := ni_dhcp6_retrans_t.zero,
      config := none,
      request := none,
      lease := none }
  (dev, active ++ [dev])

/-! ## Refresh, DUID and configuration (`device.c`, lines 345-376, 546-610,
1045-1104) -/

/-- The function `ni_dhcp6_device_refresh`. -/
def ni_dhcp6_device_refresh (env : Env) (dev : ni_dhcp6_device_t) : Int × ni_dhcp6_device_t :=
  match env.netdev_addrs dev.link.ifindex with
  | none => (-1, dev)
  | some addrs =>
    match addrs.find? (fun addr => addr.family == AF_INET6
        && IN6_IS_ADDR_LINKLOCAL addr.local_addr.sin6_addr) with
    | some addr => (0, { dev with client_addr := addr.local_addr })
    | none => (-1, dev)

/-- The function `ni_string_empty`: a null or empty string. -/
def ni_string_empty (s : Option String) : Bool :=
  match s with
  | none => true
  | some str => str.isEmpty

/-- The function `ni_dhcp6_config_default_duid`, called with a non-null `duid`: the string
returned and the DUID afterwards. -/
def ni_dhcp6_config_default_duid (env : Env) (duid : List Nat) : Option String × List Nat :=
  match env.config.default_duid with
  | none => (none, duid)
  | some str =>
    if str.isEmpty then (none, duid)
    else
      let parsed := env.duid_parse_hex duid str
      if parsed.1 = 0 then (none, parsed.2) else (some str, parsed.2)

/-- ARP hardware type of Ethernet (`<net/if_arp.h>`). -/
def ARPHRD_ETHER : Nat := 1
/-- ARP hardware type of IEEE 802 networks (`<net/if_arp.h>`). -/
def ARPHRD_IEEE802 : Nat := 6
/-- ARP hardware type of InfiniBand (`<net/if_arp.h>`). -/
def ARPHRD_INFINIBAND : Nat := 32

/-- The loop of `ni_dhcp6_generate_duid` over the known interfaces: `some` DUID
when an iteration returned from the function. -/
def ni_dhcp6_generate_duid_scan (env : Env) (dev : ni_dhcp6_device_t) :
    List Nat → List Nat → Option (List Nat) × List Nat
  | [], duid => (none, duid)
  | arp_type :: rest, duid =>
    if arp_type == ARPHRD_ETHER || arp_type == ARPHRD_IEEE802
        || arp_type == ARPHRD_INFINIBAND then
      if dev.link.hwaddr.data.length != 0 then
        let llt := env.duid_init_llt duid dev.link.arp_type dev.link.hwaddr.data
        if llt.1 then (some llt.2, llt.2)
        else ni_dhcp6_generate_duid_scan env dev rest llt.2
      else ni_dhcp6_generate_duid_scan env dev rest duid
    else ni_dhcp6_generate_duid_scan env dev rest duid

/-- The function `ni_dhcp6_generate_duid`: the DUID afterwards. -/
def ni_dhcp6_generate_duid (env : Env) (duid : List Nat) (dev : ni_dhcp6_device_t) : List Nat :=
  let first : Bool × List Nat :=
    if dev.link.hwaddr.data.length != 0 then
      env.duid_init_llt duid dev.link.arp_type dev.link.hwaddr.data
    else (false, duid)
  if first.1 then first.2
  else
    match ni_dhcp6_generate_duid_scan env dev env.netdev_arp_types first.2 with
    | (some found, _) => found
    | (none, duid1) => env.duid_init_uuid duid1 env.uuid_generate

/-- The function `ni_dhcp6_init_duid`: the return value, the DUID afterwards and the DUIDs
handed to `ni_dhcp6_save_duid`. -/
def ni_dhcp6_init_duid (env : Env) (duid : List Nat) (dev : ni_dhcp6_device_t)
    (preferred : Option String) : Bool × List Nat × List (List Nat) :=
  let duid1 :=
    match preferred with
    | some str => (env.duid_parse_hex duid str).2
    | none => duid
  let duid2 := if duid1.length == 0 then (ni_dhcp6_config_default_duid env duid1).2 else duid1
  let loaded : Bool × List Nat :=
    if duid2.length == 0 then
      let l := env.load_duid duid2
      (if l.1 = 0 then false else true, l.2)
    else (true, duid2)
  let save := loaded.1
  let duid3 := loaded.2
  let duid4 := if duid3.length == 0 then ni_dhcp6_generate_duid env duid3 dev else duid3
  let saved := if duid4.length != 0 && save then [duid4] else []
  (decide (duid4.length > 0), duid4, saved)

/-- Default package name (`NI_DHCP6_PACKAGE_NAME`). -/
def NI_DHCP6_PACKAGE_NAME (env : Env) : String :=
  match env.PACKAGE_NAME with
  | none => "wicked-dhcp6"
  | some name => name ++ "-dhcp6"

/-- Default package version (`NI_DHCP6_PACKAGE_VERSION`). -/
def NI_DHCP6_PACKAGE_VERSION (env : Env) : String :=
  match env.PACKAGE_VERSION with
  | none => "0.0.0"
  | some version => version

/-- Default vendor enterprise number (`NI_DHCP6_VENDOR_ENTERPRISE_NUMBER`). -/
def NI_DHCP6_VENDOR_ENTERPRISE_NUMBER : Nat := 7075

/-- Default vendor class string (`NI_DHCP6_VENDOR_VERSION_STRING`). -/
def NI_DHCP6_VENDOR_VERSION_STRING (env : Env) : String :=
  NI_DHCP6_PACKAGE_NAME env ++ "/" ++ NI_DHCP6_PACKAGE_VERSION env

/-- The function `ni_dhcp6_config_vendor_class`: the return value, and the
enterprise number and strings written to the output arguments (`vclass_data`
is the array on entry; `ni_string_array_copy` and `ni_string_array_destroy`
discard it). -/
def ni_dhcp6_config_vendor_class (env : Env) (vclass_data : List String) :
    Int × Nat × List String :=
  let _ := vclass_data
  if env.config.vendor_class_en != 0 then
    (0, env.config.vendor_class_en, env.config.vendor_class_data)
  else
    (0, NI_DHCP6_VENDOR_ENTERPRISE_NUMBER, [] ++ [NI_DHCP6_VENDOR_VERSION_STRING env])

/-- The function `ni_var_array_set`: replace the value of an existing name or append. -/
def ni_var_array_set : List (String × String) → String → String → List (String × String)
  | [], name, value => [(name, value)]
  | (n, v) :: rest, name, value =>
    if n == name then (n, value) :: rest else (n, v) :: ni_var_array_set rest name value

/-- The function `ni_dhcp6_config_vendor_opts`: enterprise number and variables written to
the output arguments. -/
def ni_dhcp6_config_vendor_opts (env : Env) (vopts_data : List (String × String)) :
    Nat × List (String × String) :=
  let _ := vopts_data
  if env.config.vendor_opts_en != 0 then
    (env.config.vendor_opts_en,
      env.config.vendor_opts_data.foldl
        (fun acc var => if ni_string_empty var.1 then acc
          else ni_var_array_set acc (var.1.getD "") var.2) [])
  else (env.config.vendor_opts_en, [])

/-- The function `ni_dhcp6_device_set_config`. -/
def ni_dhcp6_device_set_config (dev : ni_dhcp6_device_t) (config : Option ni_dhcp6_config_t) :
    ni_dhcp6_device_t :=
  { dev with config := config }

/-- The function `ni_dhcp6_device_set_request`. -/
def ni_dhcp6_device_set_request (dev : ni_dhcp6_device_t) (request : Option ni_dhcp6_request_t) :
    ni_dhcp6_device_t :=
  { dev with request := request }

/-! ## Acquire (`device.c`, lines 612-678) -/

/-- What a call of `ni_dhcp6_acquire` leaves behind: return value, device,
datagrams sent and DUIDs saved. -/
structure AcquireResult where
  rv : Int
  dev : ni_dhcp6_device_t
  sent : List Sendto
  saved : List (List Nat)
deriving DecidableEq, Repr

/-- The function `ni_dhcp6_acquire`.  `none` as for `ni_dhcp6_init_message` and
`ni_dhcp6_device_transmit`. -/
def ni_dhcp6_acquire (env : Env) (dev : ni_dhcp6_device_t) (info : ni_dhcp6_request_t) :
    Option AcquireResult :=
  let refreshed := ni_dhcp6_device_refresh env dev
  let dev1 := refreshed.2
  if refreshed.1 < 0 then
    some { rv := refreshed.1, dev := dev1, sent := [], saved := [] }
  else
    let duid := ni_dhcp6_init_duid env [] dev1 info.clientid
    if !duid.1 then
      some { rv := -1, dev := dev1, sent := [], saved := duid.2.2 }
    else
      let vclass := ni_dhcp6_config_vendor_class env []
      let vopts := ni_dhcp6_config_vendor_opts env []
      let config : ni_dhcp6_config_t :=
        { uuid := info.uuid,
          update := info.update,
          info_only := info.info_only,
          rapid_commit := info.rapid_commit,
          client_duid := duid.2.1,
          hostname :=
            match info.hostname with
            | some name => name.take (env.hostname_size - 1)
            | none => [],
          user_class := [],
          vendor_class := { en := vclass.2.1, data := vclass.2.2 },
          vendor_opts := { en := vopts.1, data := vopts.2 } }
      let dev2 := ni_dhcp6_device_set_config dev1 (some config)
      let msg_code := if config.info_only then NI_DHCP6_INFO_REQUEST else NI_DHCP6_SOLICIT
      match ni_dhcp6_init_message env dev2 msg_code none with
      | none => none
      | some (rv, dev3) =>
        if rv != 0 then
          some { rv := rv, dev := dev3, sent := [], saved := duid.2.2 }
        else
          let delayed := ni_dhcp6_device_transmit_arm_delay env dev3
          if delayed.1 then
            some { rv := 0, dev := delayed.2, sent := [], saved := duid.2.2 }
          else
            match ni_dhcp6_device_transmit env delayed.2 with
            | none => none
            | some (rv1, sent) =>
              if rv1 != 0 then
                some { rv := rv1, dev := delayed.2, sent := sent, saved := duid.2.2 }
              else
                some { rv := rv1, dev := ni_dhcp6_device_retransmit_arm env delayed.2,
                       sent := sent, saved := duid.2.2 }

/-! ## Uptime and IAID (`device.c`, lines 266-307) -/

/-- Width of `unsigned int`. -/
def UINT_SIZE : Nat := 2 ^ 32

/-- The macro `timercmp(a, b, >)` of `<sys/time.h>`. -/
def timercmp_gt (a b : Timeval) : Bool :=
  if a.tv_sec == b.tv_sec then decide (a.tv_usec > b.tv_usec) else decide (a.tv_sec > b.tv_sec)

/-- A value computed in `long` (LP64): the result of the machine, which keeps
the low 64 bits and reads them in two's complement.  Within
`-2 ^ 63 ≤ x < 2 ^ 63` it is `x`. -/
def long_wrap (x : Int) : Int :=
  (x + 2 ^ 63) % 2 ^ 64 - 2 ^ 63

/-- The macro `timersub` of `<sys/time.h>`; the members of a `struct timeval`
are `long`. -/
def timersub (a b : Timeval) : Timeval :=
  let sec := long_wrap (a.tv_sec - b.tv_sec)
  let usec := long_wrap (a.tv_usec - b.tv_usec)
  if usec < 0 then { tv_sec := long_wrap (sec - 1), tv_usec := long_wrap (usec + 1000000) }
  else { tv_sec := sec, tv_usec := usec }

/-- The function `ni_dhcp6_device_uptime`.  The local `uptime` is a `long`:
the product and the sum are computed in `long`; the division is the
truncating division of C; the clamp is compared as a `long`, and the value
returned is converted to `unsigned int`. -/
def ni_dhcp6_device_uptime (env : Env) (dev : ni_dhcp6_device_t) (clamp : Nat) : Nat :=
  let uptime : Int :=
    if timerisset dev.start_time && timercmp_gt env.now dev.start_time then
      let delta := timersub env.now dev.start_time
      long_wrap (delta.tv_sec * 100 + Int.tdiv delta.tv_usec 10000)
    else 0
  Int.toNat ((if uptime < (clamp : Int) then uptime else (clamp : Int)) % (UINT_SIZE : Int))

/-- The bytes of a C string: the UTF-8 encoding of its characters. -/
def string_bytes (s : String) : List Nat :=
  s.toList.flatMap (fun c => (String.utf8EncodeChar c).map UInt8.toNat)

/-- The function `ni_string_len`: the length in bytes, 0 for a null string. -/
def ni_string_len (s : Option String) : Nat :=
  match s with
  | none => 0
  | some str => (string_bytes str).length

/-- The four bytes of a `uint32_t` as they lie in memory, in the byte order of
the host. -/
def uint32_bytes (big_endian : Bool) (x : Nat) : List Nat :=
  if big_endian then [x / 16777216 % 256, x / 65536 % 256, x / 256 % 256, x % 256]
  else [x % 256, x / 256 % 256, x / 65536 % 256, x / 16777216 % 256]

/-- Bytewise exclusive or, the `^=` of two `uint32_t` seen as their bytes. -/
def xor_bytes (a b : List Nat) : List Nat :=
  List.zipWith (fun x y => x ^^^ y) a b

/-- The function `ni_dhcp6_device_iaid`: the return value and the four bytes
of `*iaid` afterwards.  `tmp` stands for the four bytes the uninitialised
local `tmp` holds on entry, `big_endian` for the byte order of the host. -/
def ni_dhcp6_device_iaid (big_endian : Bool) (tmp : List Nat) (dev : ni_dhcp6_device_t) :
    Int × List Nat :=
  let iaid : List Nat := [0, 0, 0, 0]
  if dev.link.hwaddr.data.length > 4 then
    let off := dev.link.hwaddr.data.length - 4
    (0, (dev.link.hwaddr.data.drop off).take 4)
  else
    let len := ni_string_len dev.ifname
    if len != 0 then
      let copied := ((dev.ifname.map string_bytes).getD []).take (len % 4)
      let tmp1 := copied ++ tmp.drop (len % 4)
      let iaid1 := xor_bytes iaid tmp1
      let iaid2 := xor_bytes iaid1 (uint32_bytes big_endian (dev.link.ifindex % UINT_SIZE))
      (0, iaid2)
    else (-1, iaid)

/-- Microseconds of a `struct timeval`. -/
def timeval_usec (t : Timeval) : Int :=
  t.tv_sec * 1000000 + t.tv_usec

/-- A `struct timeval` as the clock delivers it: `0 ≤ tv_usec < 1000000`. -/
def timeval_normal (t : Timeval) : Prop :=
  0 ≤ t.tv_usec ∧ t.tv_usec < 1000000

instance (t : Timeval) : Decidable (timeval_normal t) := by
  unfold timeval_normal; infer_instance

/-- The elapsed time in the words of the specification: the time from `start`
to `now` in hundredths of a second, rounded down. -/
def elapsed_hundredths (now start : Timeval) : Int :=
  (timeval_usec now - timeval_usec start) / 10000

/-- What the first step of `ni_dhcp6_init_duid` leaves in an empty DUID: the
result of parsing the preferred hex string when one is given. -/
def init_duid_preferred (env : Env) (preferred : Option String) : List Nat :=
  match preferred with
  | some str => (env.duid_parse_hex [] str).2
  | none => []

/-! ## The list of active devices, reference counts and cleanup (`device.c`,
lines 136-228, 330-343, 809-838)

The global `ni_dhcp6_active` is the list of the devices in the order of their
`next` pointers.  A pointer to an active device is its position in the list. -/

/-- The function `ni_dhcp6_device_by_index`. -/
def ni_dhcp6_device_by_index (active : List ni_dhcp6_device_t) (ifindex : Nat) :
    Option ni_dhcp6_device_t :=
  active.find? (fun dev => dev.link.ifindex == ifindex)

/-- The function `ni_dhcp6_device_get`; `none` when `ni_assert(dev->users)`
fails. -/
def ni_dhcp6_device_get (dev : ni_dhcp6_device_t) : Option ni_dhcp6_device_t :=
  if dev.users == 0 then none
  else some { dev with users := (dev.users + 1) % UINT_SIZE }

/-- A device after cleanup, with the sockets handed to `ni_socket_close` and
the timers handed to `ni_timer_cancel`. -/
structure Teardown where
  dev : ni_dhcp6_device_t
  closed : List Nat
  cancelled : List Nat
deriving DecidableEq, Repr

/-- The function `ni_dhcp6_device_close`. -/
def ni_dhcp6_device_close (dev : ni_dhcp6_device_t) : Teardown :=
  let closed := match dev.sock with
    | some sock => [sock]
    | none => []
  let dev1 := { dev with sock := none }
  match dev1.fsm.timer with
  | some timer =>
    { dev := { dev1 with fsm := { dev1.fsm with timer := none } },
      closed := closed, cancelled := [timer] }
  | none => { dev := dev1, closed := closed, cancelled := [] }

/-- The function `ni_dhcp6_device_stop`. -/
def ni_dhcp6_device_stop (dev : ni_dhcp6_device_t) : Teardown :=
  let closed := ni_dhcp6_device_close dev
  { closed with
    dev := ni_dhcp6_device_set_request (ni_dhcp6_device_set_config closed.dev none) none }

/-- What `ni_dhcp6_device_put` and `ni_dhcp6_device_free` leave behind: the
list of active devices, the sockets closed, the timers cancelled, and the
device as it was when its memory was released, if it was. -/
structure PutResult where
  active : List ni_dhcp6_device_t
  closed : List Nat
  cancelled : List Nat
  freed : Option ni_dhcp6_device_t
deriving DecidableEq, Repr

/-- The function `ni_dhcp6_device_free` for the device at position `k` of the
list; `none` when `k` points to no device or `ni_assert(dev->users == 0)`
fails. -/
def ni_dhcp6_device_free (active : List ni_dhcp6_device_t) (k : Nat) : Option PutResult :=
  match active.get? k with
  | none => none
  | some dev =>
    if dev.users != 0 then none
    else
      let closed := ni_dhcp6_device_close dev
      let dev1 := { closed.dev with ifname := none, link := { closed.dev.link with alias_ := none } }
      let dev2 := ni_dhcp6_device_set_request (ni_dhcp6_device_set_config dev1 none) none
      some { active := active.eraseIdx k, closed := closed.closed,
             cancelled := closed.cancelled, freed := some dev2 }

/-- The function `ni_dhcp6_device_put` for the device at position `k` of the
list; `none` when `k` points to no device or `ni_assert(dev->users)` fails. -/
def ni_dhcp6_device_put (active : List ni_dhcp6_device_t) (k : Nat) : Option PutResult :=
  match active.get? k with
  | none => none
  | some dev =>
    if dev.users == 0 then none
    else
      let dev1 := { dev with users := dev.users - 1 }
      if dev1.users == 0 then ni_dhcp6_device_free (active.set k dev1) k
      else some { active := active.set k dev1, closed := [], cancelled := [], freed := none }

/-- The loop of `ni_dhcp6_restart` from position `k` on: the devices
afterwards and the calls of `ni_dhcp6_acquire` made, each with the device and
the request it was handed and what it left behind.  The call for the device
at position `k` runs in the environment `envs k`; `none` when one of the
calls has no result. -/
def ni_dhcp6_restart_from (envs : Nat → Env) :
    Nat → List ni_dhcp6_device_t →
    Option (List ni_dhcp6_device_t
      × List (ni_dhcp6_device_t × ni_dhcp6_request_t × AcquireResult))
  | _, [] => some ([], [])
  | k, dev :: rest =>
    match dev.request with
    | none =>
      (ni_dhcp6_restart_from envs (k + 1) rest).map (fun r => (dev :: r.1, r.2))
    | some request =>
      match ni_dhcp6_acquire (envs k) dev request with
      | none => none
      | some res =>
        (ni_dhcp6_restart_from envs (k + 1) rest).map
          (fun r => (res.dev :: r.1, (dev, request, res) :: r.2))

/-- The function `ni_dhcp6_restart`. -/
def ni_dhcp6_restart (envs : Nat → Env) (active : List ni_dhcp6_device_t) :
    Option (List ni_dhcp6_device_t
      × List (ni_dhcp6_device_t × ni_dhcp6_request_t × AcquireResult)) :=
  ni_dhcp6_restart_from envs 0 active

/-- The function `ni_dhcp6_release`: its body is compiled out (`#if 0`), what
is left is `return 0`. -/
def ni_dhcp6_release (dev : ni_dhcp6_device_t) (_lease_uuid : Option (List Nat)) :
    Int × ni_dhcp6_device_t :=
  (0, dev)

/-- The function `inet_ntop` for the family `AF_INET`: the first four bytes of
the buffer in dotted decimal. -/
def inet_ntop_AF_INET (addr : List Nat) : String :=
  toString (addr.getD 0 0) ++ "." ++ toString (addr.getD 1 0) ++ "."
    ++ toString (addr.getD 2 0) ++ "." ++ toString (addr.getD 3 0)

/-- The function `ni_dhcp6_config_ignore_server`: the address is printed with
`inet_ntop(AF_INET, ...)` and looked up among the configured strings. -/
def ni_dhcp6_config_ignore_server (env : Env) (addr : List Nat) : Int :=
  if env.config.ignore_servers.contains (inet_ntop_AF_INET addr) then 1 else 0

end Dhcp6

/-!
# Wireless support (wicked, `src/wireless.c`)

The SSID printer and the parser of the information elements of a scan
result.

* Bytes are natural numbers below 256; a C string is the list of its bytes
  without the terminating NUL.
* A reader `ni_buffer_t` is the list of its unread bytes.
* The enumerators of `<wicked/wireless.h>` are not part of the sources at
  hand; they are supplied through the record `WirelessHeader`.
* A failed `ni_assert` and a read past the end of an array are represented
  by `none`.
-/

namespace Wireless

/-! ## Printing an SSID (`wireless.c`, lines 829-855) -/

/-- The type `ni_wireless_ssid_t`: the length and the bytes of the array
`data`. -/
structure ni_wireless_ssid_t where
  len : Nat
  data : List Nat
deriving DecidableEq, Repr

/-- The conversion `%03o` of `sprintf`: the octal digits of the value as ASCII
characters, padded with `'0'` to at least three. -/
def sprintf_03o (cc : Nat) : List Nat :=
  let digits := (Nat.toDigits 8 cc).map Char.toNat
  List.replicate (3 - digits.length) 48 ++ digits

/-- The test of the loop body of `ni_wireless_print_ssid`:
`isalnum(cc) || cc == '-' || cc == '_' || cc == ' '`.  The classification
`isalnum` of `<ctype.h>` depends on the locale and is a parameter. -/
def ssid_plain (isalnum : Nat → Bool) (cc : Nat) : Bool :=
  isalnum cc || cc == 45 || cc == 95 || cc == 32

/-- The loop of `ni_wireless_print_ssid` over the bytes still to print: the
bytes written to `result`, a plain byte as itself and any other as a backslash
and `%03o`. -/
def print_ssid_loop (isalnum : Nat → Bool) : List Nat → List Nat
  | [] => []
  | cc :: rest =>
    (if ssid_plain isalnum cc then [cc] else 92 :: sprintf_03o cc)
      ++ print_ssid_loop isalnum rest

/-- The function `ni_wireless_print_ssid`: the string in `result`, without the
NUL that ends it.  `sizeof_data` is `sizeof(ssid->data)`; `none` when
`ni_assert(ssid->len <= sizeof(ssid->data))` fails. -/
def ni_wireless_print_ssid (isalnum : Nat → Bool) (sizeof_data : Nat)
    (ssid : ni_wireless_ssid_t) : Option (List Nat) :=
  if ssid.len ≤ sizeof_data then some (print_ssid_loop isalnum (ssid.data.take ssid.len))
  else none

/-- Reading a printed SSID back: a backslash and three octal digits stand for
one byte, any other byte for itself. -/
def parse_ssid : List Nat → List Nat
  | [] => []
  | [x] => [x]
  | [x, a] => x :: parse_ssid [a]
  | [x, a, b] => x :: parse_ssid [a, b]
  | x :: a :: b :: c :: rest =>
    if x = 92 then ((a - 48) * 64 + (b - 48) * 8 + (c - 48)) :: parse_ssid rest
    else x :: parse_ssid (a :: b :: c :: rest)

/-! ## Kernel values and wicked values (`wireless.c`, lines 30-40, 254-298) -/

/-- The enumerators of `<wicked/wireless.h>` that the parser names. -/
structure WirelessHeader where
  NI_WIRELESS_CIPHER_NONE : Nat
  NI_WIRELESS_CIPHER_PROPRIETARY : Nat
  NI_WIRELESS_CIPHER_WEP40 : Nat
  NI_WIRELESS_CIPHER_TKIP : Nat
  NI_WIRELESS_CIPHER_WRAP : Nat
  NI_WIRELESS_CIPHER_CCMP : Nat
  NI_WIRELESS_CIPHER_WEP104 : Nat
  NI_WIRELESS_KEY_MGMT_NONE : Nat
  NI_WIRELESS_KEY_MGMT_PROPRIETARY : Nat
  NI_WIRELESS_KEY_MGMT_PSK : Nat
  NI_WIRELESS_KEY_MGMT_802_1X : Nat
  NI_WIRELESS_AUTH_WPA1 : Nat
  NI_WIRELESS_AUTH_WPA2 : Nat
deriving DecidableEq, Repr

/-- Cipher suite type `IW_IE_CIPHER_NONE`. -/
def IW_IE_CIPHER_NONE : Int := 0
/-- Cipher suite type `IW_IE_CIPHER_WEP40`. -/
def IW_IE_CIPHER_WEP40 : Int := 1
/-- Cipher suite type `IW_IE_CIPHER_TKIP`. -/
def IW_IE_CIPHER_TKIP : Int := 2
/-- Cipher suite type `IW_IE_CIPHER_WRAP`. -/
def IW_IE_CIPHER_WRAP : Int := 3
/-- Cipher suite type `IW_IE_CIPHER_CCMP`. -/
def IW_IE_CIPHER_CCMP : Int := 4
/-- Cipher suite type `IW_IE_CIPHER_WEP104`. -/
def IW_IE_CIPHER_WEP104 : Int := 5
/-- Key management suite type `IW_IE_KEY_MGMT_NONE`. -/
def IW_IE_KEY_MGMT_NONE : Int := 0
/-- Key management suite type `IW_IE_KEY_MGMT_802_1X`. -/
def IW_IE_KEY_MGMT_802_1X : Int := 1
/-- Key management suite type `IW_IE_KEY_MGMT_PSK`. -/
def IW_IE_KEY_MGMT_PSK : Int := 2

/-- The type `__ni_kernel_map_t`. -/
structure __ni_kernel_map_t where
  kernel_value : Int
  wicked_value : Int
deriving DecidableEq, Repr

/-- The array `__ni_wireless_cipher_map`; its last initialiser `{ -1 }` sets
`kernel_value` and leaves `wicked_value` zero. -/
def __ni_wireless_cipher_map (hdr : WirelessHeader) : List __ni_kernel_map_t :=
  [ { kernel_value := IW_IE_CIPHER_NONE, wicked_value := hdr.NI_WIRELESS_CIPHER_NONE },
    { kernel_value := IW_IE_CIPHER_WEP40, wicked_value := hdr.NI_WIRELESS_CIPHER_WEP40 },
    { kernel_value := IW_IE_CIPHER_TKIP, wicked_value := hdr.NI_WIRELESS_CIPHER_TKIP },
    { kernel_value := IW_IE_CIPHER_CCMP, wicked_value := hdr.NI_WIRELESS_CIPHER_CCMP },
    { kernel_value := IW_IE_CIPHER_WRAP, wicked_value := hdr.NI_WIRELESS_CIPHER_WRAP },
    { kernel_value := IW_IE_CIPHER_WEP104, wicked_value := hdr.NI_WIRELESS_CIPHER_WEP104 },
    { kernel_value := -1, wicked_value := 0 } ]

/-- The array `__ni_wireless_key_mgmt_map`, ended by `{ -1 }` alike. -/
def __ni_wireless_key_mgmt_map (hdr : WirelessHeader) : List __ni_kernel_map_t :=
  [ { kernel_value := IW_IE_KEY_MGMT_NONE, wicked_value := hdr.NI_WIRELESS_KEY_MGMT_NONE },
    { kernel_value := IW_IE_KEY_MGMT_PSK, wicked_value := hdr.NI_WIRELESS_KEY_MGMT_PSK },
    { kernel_value := IW_IE_KEY_MGMT_802_1X, wicked_value := hdr.NI_WIRELESS_KEY_MGMT_802_1X },
    { kernel_value := -1, wicked_value := 0 } ]

/-- The function `__ni_kernel_to_wicked` on the entries of the array from
`map` on; `none` when `map->wicked_value` is read past the last entry. -/
def __ni_kernel_to_wicked : List __ni_kernel_map_t → Int → Option Int
  | [], _ => none
  | entry :: rest, value =>
    if entry.wicked_value ≥ 0 then
      if entry.kernel_value == value then some entry.wicked_value
      else __ni_kernel_to_wicked rest value
    else some (-1)

/-! ## Information elements (`wireless.c`, lines 476-647, 774-818) -/

/-- Modelled from the spec: the function `ni_buffer_get` (absent, `buffer.h`)
on a reader with the unread bytes `bp`: -1 when fewer than `len` bytes are
left, otherwise 0 with the `len` bytes read and the bytes that remain. -/
def ni_buffer_get (bp : List Nat) (len : Nat) : Int × List Nat × List Nat :=
  if bp.length < len then (-1, [], bp) else (0, bp.take len, bp.drop len)

/-- Modelled from the spec: the function `ni_buffer_count` (absent,
`buffer.h`), the number of unread bytes. -/
def ni_buffer_count (bp : List Nat) : Nat :=
  bp.length

/-- The type `ni_wireless_auth_info_t`. -/
structure ni_wireless_auth_info_t where
  mode : Nat
  version : Nat
  group_cipher : Nat
  pairwise_ciphers : Nat
  keymgmt_algos : Nat
deriving DecidableEq, Repr

/-- The type `ni_wireless_network_t`, as far as the parser writes it: the array
`scan_info.supported_auth_modes`. -/
structure ni_wireless_network_t where
  supported_auth_modes : List ni_wireless_auth_info_t
deriving DecidableEq, Repr

/-- The function `ni_wireless_auth_info_new`. -/
def ni_wireless_auth_info_new (hdr : WirelessHeader) (mode version : Nat) :
    ni_wireless_auth_info_t :=
  { mode := mode, version := version,
    group_cipher := hdr.NI_WIRELESS_CIPHER_TKIP,
    pairwise_ciphers := 1 <<< hdr.NI_WIRELESS_CIPHER_TKIP,
    keymgmt_algos := 0 }

/-- The function `ni_wireless_auth_info_add_pairwise_cipher`. -/
def ni_wireless_auth_info_add_pairwise_cipher (auth : ni_wireless_auth_info_t) (cipher : Nat) :
    ni_wireless_auth_info_t :=
  { auth with pairwise_ciphers := auth.pairwise_ciphers ||| (1 <<< cipher) }

/-- The function `ni_wireless_auth_info_add_key_management`. -/
def ni_wireless_auth_info_add_key_management (auth : ni_wireless_auth_info_t) (algo : Nat) :
    ni_wireless_auth_info_t :=
  { auth with keymgmt_algos := auth.keymgmt_algos ||| (1 <<< algo) }

/-- The function `ni_wireless_auth_info_array_append` on the array of the
network. -/
def ni_wireless_auth_info_array_append (net : ni_wireless_network_t)
    (auth : ni_wireless_auth_info_t) : ni_wireless_network_t :=
  { net with supported_auth_modes := net.supported_auth_modes ++ [auth] }

/-- The function `__ni_wireless_process_ie_cipher`: return value, the reader
afterwards and `*result`. -/
def __ni_wireless_process_ie_cipher (hdr : WirelessHeader) (bp : List Nat) (wpa_oui : List Nat)
    (result : Nat) : Option (Int × List Nat × Nat) :=
  let got := ni_buffer_get bp 4
  if got.1 < 0 then some (-1, got.2.2, result)
  else
    let buffer := got.2.1
    if buffer.take 3 == wpa_oui.take 3 then
      match __ni_kernel_to_wicked (__ni_wireless_cipher_map hdr) (buffer.getD 3 0) with
      | none => none
      | some mapped =>
        if mapped ≥ 0 then some (0, got.2.2, mapped.toNat)
        else some (0, got.2.2, hdr.NI_WIRELESS_CIPHER_PROPRIETARY)
    else some (0, got.2.2, hdr.NI_WIRELESS_CIPHER_PROPRIETARY)

/-- The function `__ni_wireless_process_ie_key_mgmt`: return value, the reader
afterwards and `*result`. -/
def __ni_wireless_process_ie_key_mgmt (hdr : WirelessHeader) (bp : List Nat)
    (wpa_oui : List Nat) (result : Nat) : Option (Int × List Nat × Nat) :=
  let got := ni_buffer_get bp 4
  if got.1 < 0 then some (-1, got.2.2, result)
  else
    let buffer := got.2.1
    if buffer.take 3 == wpa_oui.take 3 then
      match __ni_kernel_to_wicked (__ni_wireless_key_mgmt_map hdr) (buffer.getD 3 0) with
      | none => none
      | some mapped =>
        if mapped ≥ 0 then some (0, got.2.2, mapped.toNat)
        else some (0, got.2.2, hdr.NI_WIRELESS_KEY_MGMT_PROPRIETARY)
    else some (0, got.2.2, hdr.NI_WIRELESS_KEY_MGMT_PROPRIETARY)

/-- The function `__ni_buffer_get_le16`: the value, or -1, and the reader
afterwards. -/
def __ni_buffer_get_le16 (bp : List Nat) : Int × List Nat :=
  let got := ni_buffer_get bp 2
  if got.1 < 0 then (-1, got.2.2)
  else (((got.2.1.getD 0 0 ||| (got.2.1.getD 1 0 <<< 8) : Nat) : Int), got.2.2)

/-- The loop over the pairwise ciphers in `__ni_wireless_process_wpa_common`
(`while (count--)`). -/
def pairwise_cipher_loop (hdr : WirelessHeader) (wpa_oui : List Nat) :
    Nat → List Nat → ni_wireless_auth_info_t →
    Option (Int × List Nat × ni_wireless_auth_info_t)
  | 0, bp, auth => some (0, bp, auth)
  | count + 1, bp, auth =>
    match __ni_wireless_process_ie_cipher hdr bp wpa_oui 0 with
    | none => none
    | some (rv, bp1, cipher) =>
      if rv < 0 then some (-1, bp1, auth)
      else pairwise_cipher_loop hdr wpa_oui count bp1
        (ni_wireless_auth_info_add_pairwise_cipher auth cipher)

/-- The loop over the authentication suites in
`__ni_wireless_process_wpa_common`. -/
def key_mgmt_loop (hdr : WirelessHeader) (wpa_oui : List Nat) :
    Nat → List Nat → ni_wireless_auth_info_t →
    Option (Int × List Nat × ni_wireless_auth_info_t)
  | 0, bp, auth => some (0, bp, auth)
  | count + 1, bp, auth =>
    match __ni_wireless_process_ie_key_mgmt hdr bp wpa_oui 0 with
    | none => none
    | some (rv, bp1, algo) =>
      if rv < 0 then some (-1, bp1, auth)
      else key_mgmt_loop hdr wpa_oui count bp1
        (ni_wireless_auth_info_add_key_management auth algo)

/-- The function `__ni_wireless_process_wpa_common`: return value and the
network afterwards.  The entry appended to the array is the one the function
goes on writing. -/
def __ni_wireless_process_wpa_common (hdr : WirelessHeader) (net : ni_wireless_network_t)
    (bp : List Nat) (auth_mode : Nat) (wpa_oui : List Nat) :
    Option (Int × ni_wireless_network_t) :=
  let version := __ni_buffer_get_le16 bp
  if version.1 < 0 then some (-1, net)
  else
    let auth := ni_wireless_auth_info_new hdr auth_mode version.1.toNat
    match __ni_wireless_process_ie_cipher hdr version.2 wpa_oui auth.group_cipher with
    | none => none
    | some (rv, bp1, group_cipher) =>
      if rv < 0 then some (0, ni_wireless_auth_info_array_append net auth)
      else
        let auth1 := { auth with group_cipher := group_cipher }
        let count := __ni_buffer_get_le16 bp1
        if count.1 < 0 then some (0, ni_wireless_auth_info_array_append net auth1)
        else
          let auth2 := { auth1 with pairwise_ciphers := 0 }
          match pairwise_cipher_loop hdr wpa_oui count.1.toNat count.2 auth2 with
          | none => none
          | some (rv1, bp2, auth3) =>
            if rv1 < 0 then some (-1, ni_wireless_auth_info_array_append net auth3)
            else
              let count1 := __ni_buffer_get_le16 bp2
              if count1.1 < 0 then some (0, ni_wireless_auth_info_array_append net auth3)
              else
                match key_mgmt_loop hdr wpa_oui count1.1.toNat count1.2 auth3 with
                | none => none
                | some (rv2, _, auth4) =>
                  if rv2 < 0 then some (-1, ni_wireless_auth_info_array_append net auth4)
                  else some (0, ni_wireless_auth_info_array_append net auth4)

/-- The function `__ni_wireless_process_wpa1` on the payload of an element. -/
def __ni_wireless_process_wpa1 (hdr : WirelessHeader) (net : ni_wireless_network_t)
    (ptr : List Nat) : Option (Int × ni_wireless_network_t) :=
  let wpa1_oui : List Nat := [0x00, 0x50, 0xf2]
  let got := ni_buffer_get ptr 3
  if got.1 < 0 then some (-1, net)
  else if got.2.1 != wpa1_oui then some (0, net)
  else
    let got1 := ni_buffer_get got.2.2 1
    if got1.1 < 0 then some (-1, net)
    else if got1.2.1.getD 0 0 != 0x01 then some (0, net)
    else __ni_wireless_process_wpa_common hdr net got1.2.2 hdr.NI_WIRELESS_AUTH_WPA1 wpa1_oui

/-- The function `__ni_wireless_process_wpa2` on the payload of an element. -/
def __ni_wireless_process_wpa2 (hdr : WirelessHeader) (net : ni_wireless_network_t)
    (ptr : List Nat) : Option (Int × ni_wireless_network_t) :=
  let wpa2_oui : List Nat := [0x00, 0x0f, 0xac]
  __ni_wireless_process_wpa_common hdr net ptr hdr.NI_WIRELESS_AUTH_WPA2 wpa2_oui

/-- The function `__ni_wireless_process_ie` on the bytes `data`: return value
and the network afterwards.  Each round of the loop takes one unit of `fuel`;
`none` when the fuel is used up or a callee has no result. -/
def __ni_wireless_process_ie (hdr : WirelessHeader) :
    Nat → ni_wireless_network_t → List Nat → Option (Int × ni_wireless_network_t)
  | fuel, net, type :: len :: data =>
    match fuel with
    | 0 => none
    | fuel1 + 1 =>
      if ni_buffer_count data < len then some (-1, net)
      else
        let ptr := data.take len
        let data1 := data.drop len
        if type == 0xdd then
          match __ni_wireless_process_wpa1 hdr net ptr with
          | none => none
          | some (rv, net1) =>
            if rv < 0 then some (-1, net1) else __ni_wireless_process_ie hdr fuel1 net1 data1
        else if type == 0x30 then
          match __ni_wireless_process_wpa2 hdr net ptr with
          | none => none
          | some (rv, net1) =>
            if rv < 0 then some (-1, net1) else __ni_wireless_process_ie hdr fuel1 net1 data1
        else __ni_wireless_process_ie hdr fuel1 net data1
  | _, net, _ => some (0, net)

/-! ## Sample values of the wireless code -/

/-- The classification `isalnum` in the "C" locale: the ASCII digits and
letters. -/
def isalnum_C (cc : Nat) : Bool :=
  (48 ≤ cc && cc ≤ 57) || (65 ≤ cc && cc ≤ 90) || (97 ≤ cc && cc ≤ 122)

/-- Size of the array `data` of an SSID (IEEE 802.11: at most 32 bytes). -/
def sampleSsidSize : Nat := 32

/-- An SSID of five bytes, `hi !` and the byte 0xc3, in an array of 32. -/
def sampleSsid : ni_wireless_ssid_t :=
  { len := 5, data := [104, 105, 32, 33, 195] ++ List.replicate 27 0 }

/-- The SSID of the single byte 0x01. -/
def controlSsid : ni_wireless_ssid_t :=
  { len := 1, data := [1] ++ List.replicate 31 0 }

/-- The SSID of the four characters backslash, `0`, `0`, `1`. -/
def backslashSsid : ni_wireless_ssid_t :=
  { len := 4, data := [92, 48, 48, 49] ++ List.replicate 28 0 }

/-- The elements of a buffer, each with its type and payload, as bytes: type,
length, payload. -/
def encode_elements : List (Nat × List Nat) → List Nat
  | [] => []
  | e :: rest => e.1 :: e.2.length :: e.2 ++ encode_elements rest

/-- Enumerators numbered in the order of their names in `wireless.c`. -/
def sampleHeader : WirelessHeader :=
  { NI_WIRELESS_CIPHER_NONE := 0, NI_WIRELESS_CIPHER_PROPRIETARY := 1,
    NI_WIRELESS_CIPHER_WEP40 := 2, NI_WIRELESS_CIPHER_TKIP := 3,
    NI_WIRELESS_CIPHER_WRAP := 4, NI_WIRELESS_CIPHER_CCMP := 5,
    NI_WIRELESS_CIPHER_WEP104 := 6,
    NI_WIRELESS_KEY_MGMT_NONE := 0, NI_WIRELESS_KEY_MGMT_PROPRIETARY := 1,
    NI_WIRELESS_KEY_MGMT_PSK := 3, NI_WIRELESS_KEY_MGMT_802_1X := 4,
    NI_WIRELESS_AUTH_WPA1 := 1, NI_WIRELESS_AUTH_WPA2 := 2 }

end Wireless

/-!
# D-Bus services from the XML schema (wicked, `src/dbus-xml.c`)

* A C string is a `String`; a null `char *` is `none`.
* The linked list of the methods of a schema service is a list, the empty list
  being the null pointer; the method array of a D-Bus service is a list of
  entries, an entry of zero bytes having every member `none`.
* A failed `ni_assert` is represented by `none`.
-/

namespace DBusXml

/-- Type code `DBUS_TYPE_ARRAY` of `<dbus/dbus-protocol.h>`. -/
def DBUS_TYPE_ARRAY : Char := 'a'

/-- Type code `DBUS_TYPE_VARIANT` of `<dbus/dbus-protocol.h>`. -/
def DBUS_TYPE_VARIANT : Char := 'v'

/-- The signature of a dict, `NI_DBUS_DICT_SIGNATURE`: an array of dict
entries from string to variant. -/
def NI_DBUS_DICT_SIGNATURE : String := "a\x7bsv\x7d"

/-- The type `ni_xs_type_t` by its class: a scalar with the type code of its
`ni_xs_scalar_info_t`, an array with its element type, a dict, or any other
class. -/
inductive ni_xs_type_t where
  | scalar (type : Char)
  | array (element_type : ni_xs_type_t)
  | dict
  | other
deriving DecidableEq, Repr

/-- The test `type->class == NI_XS_TYPE_SCALAR`. -/
def ni_xs_type_t.is_scalar : ni_xs_type_t → Bool
  | .scalar _ => true
  | _ => false

/-- The function `__ni_xs_type_to_dbus_signature` for a buffer of `buflen`
bytes: the string written to `sigbuf`, `some none` for the result NULL, `none`
when `ni_assert` fails. -/
def __ni_xs_type_to_dbus_signature : ni_xs_type_t → Nat → Option (Option String)
  | type, buflen =>
    if buflen < 2 then none
    else
      match type with
      | .scalar c => some (some (String.singleton c))
      | .array element_type =>
        let head := if element_type.is_scalar then String.singleton DBUS_TYPE_ARRAY
          else String.singleton DBUS_TYPE_ARRAY ++ String.singleton DBUS_TYPE_VARIANT
        match __ni_xs_type_to_dbus_signature element_type (buflen - head.length) with
        | none => none
        | some none => some none
        | some (some sig) => some (some (head ++ sig))
      | .dict =>
        if buflen < NI_DBUS_DICT_SIGNATURE.length + 1 then none
        else some (some NI_DBUS_DICT_SIGNATURE)
      | .other => some none

/-- An argument of a schema method: name and type. -/
structure ni_xs_name_type_t where
  name : Option String
  type_ : ni_xs_type_t
deriving DecidableEq, Repr

/-- The type `ni_xs_method_t`, without the `next` pointer. -/
structure ni_xs_method_t where
  name : Option String
  arguments : List ni_xs_name_type_t
deriving DecidableEq, Repr

/-- The type `ni_xs_service_t`: the list of its methods. -/
structure ni_xs_service_t where
  methods : List ni_xs_method_t
deriving DecidableEq, Repr

/-- The type `ni_dbus_method_t`. -/
structure ni_dbus_method_t where
  name : Option String
  call_signature : Option String
  handler : Option Nat
  user_data : Option ni_xs_method_t
deriving DecidableEq, Repr

/-- An entry as `xcalloc` leaves it: every member null. -/
def ni_dbus_method_t.zero : ni_dbus_method_t :=
  { name := none, call_signature := none, handler := none, user_data := none }

/-- The type `ni_dbus_service_t`: name and method array. -/
structure ni_dbus_service_t where
  name : Option String
  methods : Option (List ni_dbus_method_t)
deriving DecidableEq, Repr

/-- Size of the buffer `sigbuf` in `ni_dbus_xml_register_methods`. -/
def SIGBUF_SIZE : Nat := 64

/-- The loop over the arguments of one method in
`ni_dbus_xml_register_methods`: the signature in `sigbuf` afterwards,
`some none` when an argument has no signature, `none` when `ni_assert`
fails. -/
def build_signature : List ni_xs_name_type_t → String → Option (Option String)
  | [], sigbuf => some (some sigbuf)
  | arg :: rest, sigbuf =>
    let k := sigbuf.length
    match __ni_xs_type_to_dbus_signature arg.type_ (SIGBUF_SIZE - k) with
    | none => none
    | some none => some none
    | some (some sig) => build_signature rest (sigbuf ++ sig)

/-- The test for a private method: `xs_method->name == 0 ||
xs_method->name[0] == '_'`. -/
def is_private (xs_method : ni_xs_method_t) : Bool :=
  match xs_method.name with
  | none => true
  | some name => name.data.head? == some '_'

/-- The second loop of `ni_dbus_xml_register_methods` from the schema method
`xs_method` on, `method` pointing to the entry `idx` of the array: return
value and the array afterwards. -/
def register_methods_loop :
    List ni_xs_method_t → Nat → List ni_dbus_method_t → Option (Int × List ni_dbus_method_t)
  | [], _, method_array => some (0, method_array)
  | xs_method :: rest, idx, method_array =>
    if is_private xs_method then register_methods_loop rest (idx + 1) method_array
    else
      match build_signature xs_method.arguments "" with
      | none => none
      | some none => some (-1, method_array)
      | some (some sigbuf) =>
        register_methods_loop rest (idx + 1)
          (method_array.set idx
            { name := xs_method.name, call_signature := some sigbuf,
              handler := none, user_data := some xs_method })

/-- The function `ni_dbus_xml_register_methods`: return value and the service
afterwards. -/
def ni_dbus_xml_register_methods (service : ni_dbus_service_t) (xs_service : ni_xs_service_t) :
    Option (Int × ni_dbus_service_t) :=
  if xs_service.methods.isEmpty then some (0, service)
  else
    let nmethods := xs_service.methods.length
    let method_array := List.replicate (nmethods + 1) ni_dbus_method_t.zero
    match register_methods_loop xs_service.methods 0 method_array with
    | none => none
    | some (rv, method_array1) => some (rv, { service with methods := some method_array1 })

/-- The methods a reader of the array finds: the entries before the first one
with a null name, which ends the array. -/
def visible_methods (service : ni_dbus_service_t) : List ni_dbus_method_t :=
  match service.methods with
  | none => []
  | some method_array => method_array.takeWhile (fun method => method.name.isSome)

/-! ## Sample values of the schema code -/

/-- A service without methods yet. -/
def sampleService : ni_dbus_service_t :=
  { name := some "com.suse.Wicked.Interface", methods := none }

/-- A private method, as the comment in the code names one. -/
def newlinkMethod : ni_xs_method_t :=
  { name := some "__newlink", arguments := [] }

/-- A public method with a string and an array of bytes as arguments. -/
def linkUpMethod : ni_xs_method_t :=
  { name := some "linkUp",
    arguments := [{ name := some "device", type_ := .scalar 's' },
                  { name := some "options", type_ := .array (.scalar 'y') }] }

/-- A public method with a dict as argument. -/
def configureMethod : ni_xs_method_t :=
  { name := some "configure", arguments := [{ name := some "config", type_ := .dict }] }

/-- The entry of the method array at the position of a schema method after a
successful registration: null for a private method, otherwise name, signature
and the schema method. -/
def method_entry (xs_method : ni_xs_method_t) : ni_dbus_method_t :=
  if is_private xs_method then ni_dbus_method_t.zero
  else
    { name := xs_method.name,
      call_signature := (build_signature xs_method.arguments "").join,
      handler := none, user_data := some xs_method }

/-- A method whose argument is of a class without D-Bus signature. -/
def brokenMethod : ni_xs_method_t :=
  { name := some "broken", arguments := [{ name := some "arg", type_ := .other }] }

/-- A schema service that lists a private method first. -/
def sampleSchema : ni_xs_service_t :=
  { methods := [newlinkMethod, linkUpMethod, configureMethod] }

end DBusXml

/-!
# Subprocesses (wicked, `src/process.c`)

A C string is the list of its characters; a string array is the list of its
strings.
-/

namespace Process

/-- The test of the loop in `__ni_process_setenv`:
`!strncmp(oldvar, name, namelen) && oldvar[namelen] == '='`. -/
def setenv_matches (oldvar name : List Char) : Bool :=
  oldvar.take name.length == name && oldvar.get? name.length == some '='

/-- The function `__ni_process_setenv`: the array afterwards.  The new string
is `name`, `=` and `value`; it takes the place of the first entry that
matches, or is appended. -/
def __ni_process_setenv : List (List Char) → List Char → List Char → List (List Char)
  | [], name, value => [name ++ '=' :: value]
  | oldvar :: rest, name, value =>
    if setenv_matches oldvar name then (name ++ '=' :: value) :: rest
    else oldvar :: __ni_process_setenv rest name value

/-- The variable an entry sets: the characters before its first `=`, if it
has one. -/
def var_name (entry : List Char) : Option (List Char) :=
  if '=' ∈ entry then some (entry.takeWhile (fun c => c != '=')) else none

/-- No two entries of the list set the same variable. -/
def NoDuplicates (env : List (List Char)) : Prop :=
  (env.filterMap var_name).Nodup

instance (env : List (List Char)) : Decidable (NoDuplicates env) := by
  unfold NoDuplicates; infer_instance

/-- An environment of two variables. -/
def sampleEnviron : List (List Char) :=
  ["PATH=/sbin:/bin".toList, "LANG=C".toList]

end Process

namespace Dhcp6

/-! ## Sample values

Concrete devices and environments on which the statements below are
evaluated. -/

/-- Timing of a Solicit exchange: IRT 1 s, MRT 120 s, jitter 100 ms. -/
def sampleTiming : ni_dhcp6_timing_t :=
  { delay := 0, timeout := 1000, max_jitter := 100, max_timeout := 120000,
    max_retransmits := 0, max_duration := 0, pos_jitter := true }

/-- A link-local address `fe80::1` on interface 3. -/
def sampleLinkLocal : ni_sockaddr_t :=
  { ni_sockaddr_t.zero with
    sin6_family := AF_INET6, sin6_scope_id := 3,
    sin6_addr := [0xfe, 0x80, 0, 0, 0, 0, 0, 0, 0, 0, 0, 0, 0, 0, 0, 1] }

/-- An environment in which every helper succeeds: the socket opens as
descriptor 7, the builder emits type and transaction id, `sendto` sends the
whole datagram, the jitter drawn is the upper bound. -/
def sampleEnv : Env :=
  { now := { tv_sec := 100, tv_usec := 0 },
    rand := fun i => 0xabcdef + i,
    fuel := 4,
    jitter := fun _ hi => (hi : Int),
    delay_jitter := fun _ hi => (hi : Int),
    socket_open := fun _ => (0, some 7),
    build_message := fun dev msg_code _ =>
      (0, [msg_code, dev.xid / 65536 % 256, dev.xid / 256 % 256, dev.xid % 256]),
    set_message_timing := fun _ _ => (true, sampleTiming),
    sendto := fun pkt => (pkt.data.length : Int),
    netdev_addrs := fun i => if i = 3 then some [{ family := AF_INET6, local_addr := sampleLinkLocal }]
                             else none,
    netdev_arp_types := [ARPHRD_ETHER],
    duid_parse_hex := fun duid _ => (0, duid),
    load_duid := fun duid => (-1, duid),
    duid_init_llt := fun _ arp_type hw => (true, [0, 1, 0, arp_type] ++ hw),
    uuid_generate := List.replicate 16 1,
    duid_init_uuid := fun _ uuid => [0, 4] ++ uuid,
    hostname_size := 256,
    PACKAGE_NAME := none,
    PACKAGE_VERSION := none,
    config := { default_duid := none, user_class_data := [], vendor_class_en := 0,
                vendor_class_data := [], vendor_opts_en := 0, vendor_opts_data := [],
                ignore_servers := [], lease_time := 0 } }

/-- The link of an Ethernet interface with index 3. -/
def sampleLink : ni_linkinfo_t :=
  { type_ := 1, ifindex := 3, ifflags := 1, alias_ := none, arp_type := ARPHRD_ETHER,
    hwaddr := { type_ := 1, data := [2, 0, 0, 0, 0, 1] } }

/-- A fresh device for `eth0`. -/
def sampleDevice : ni_dhcp6_device_t :=
  (ni_dhcp6_device_new sampleEnv [] (some "eth0") sampleLink).1

/-- A request for a lease. -/
def sampleRequest : ni_dhcp6_request_t :=
  { uuid := List.replicate 16 9, update := 0, info_only := false, rapid_commit := false,
    clientid := none, hostname := none }

/-- A device in the middle of an exchange limited to one transmission: the
message is built, the socket open, the deadline armed, and `tx_counter` has
reached `max_retransmits`. -/
def expiredDevice : ni_dhcp6_device_t :=
  { sampleDevice with
    sock := some 7, xid := 0x123456, message := [1, 0x12, 0x34, 0x56],
    tx_counter := 1,
    retrans := { start := { tv_sec := 90, tv_usec := 0 },
                 deadline := { tv_sec := 91, tv_usec := 0 },
                 timeout := 1000,
                 params := { sampleTiming with max_retransmits := 1 } } }

/-- The sample environment with a timing table that limits every exchange to
one transmission (MRC = 1). -/
def mrcEnv : Env :=
  { sampleEnv with
    set_message_timing := fun _ _ => (true, { sampleTiming with max_retransmits := 1 }) }

/-- Repeated calls of `ni_dhcp6_device_retransmit`: the device after `n` calls
and all datagrams sent by them. -/
def retransmit_times (env : Env) : Nat → ni_dhcp6_device_t →
    Option (ni_dhcp6_device_t × List Sendto)
  | 0, dev => some (dev, [])
  | n + 1, dev =>
    match ni_dhcp6_device_retransmit env dev with
    | none => none
    | some (_, dev1, sent) =>
      (retransmit_times env n dev1).map (fun r => (r.1, sent ++ r.2))

/-- A device whose first retransmission timeout was drawn at the lower end:
IRT 1000 ms, jitter 100 ms, RT 900 ms. -/
def lowRtDevice : ni_dhcp6_device_t :=
  { sampleDevice with
    sock := some 7, xid := 0x123456, message := [1, 0x12, 0x34, 0x56],
    config := some { uuid := [], update := 0, info_only := false, rapid_commit := false,
                     client_duid := [0, 4, 1], hostname := [], user_class := [],
                     vendor_class := { en := 7075, data := [] },
                     vendor_opts := { en := 0, data := [] } },
    retrans := { start := { tv_sec := 90, tv_usec := 0 },
                 deadline := { tv_sec := 90, tv_usec := 900000 },
                 timeout := 900,
                 params := { sampleTiming with pos_jitter := false } } }

/-- The sample environment with every jitter drawn as 0. -/
def zeroJitterEnv : Env :=
  { sampleEnv with jitter := fun _ _ => 0, delay_jitter := fun _ _ => 0 }

/-- The sample environment with the jitter drawn at the lower bound. -/
def lowJitterEnv : Env :=
  { sampleEnv with
    jitter := fun lo _ => -(lo : Int),
    delay_jitter := fun lo _ => -(lo : Int) }

/-- A device whose timeout has grown beyond half of MRT (120 s). -/
def highRtDevice : ni_dhcp6_device_t :=
  { lowRtDevice with retrans := { lowRtDevice.retrans with timeout := 70000 } }

/-- A device in a Confirm-like exchange with MRD = 10 s that began at second
1; the sample environment's clock reads second 100. -/
def overdueDevice : ni_dhcp6_device_t :=
  { lowRtDevice with
    retrans := { start := { tv_sec := 1, tv_usec := 0 },
                 deadline := { tv_sec := 99, tv_usec := 0 },
                 timeout := 4000,
                 params := { delay := 0, timeout := 1000, max_jitter := 100,
                             max_timeout := 4000, max_retransmits := 0,
                             max_duration := 10000, pos_jitter := false } } }

/-- Milliseconds from `a` to `b`. -/
def timeval_diff_msec (b a : Timeval) : Int :=
  (b.tv_sec - a.tv_sec) * 1000 + (b.tv_usec - a.tv_usec) / 1000

/-- A device ready for its first Solicit: the timing parameters are set, no
transmission has been counted. -/
def solicitDevice : ni_dhcp6_device_t :=
  { sampleDevice with
    sock := some 7, xid := 0x123456, message := [1, 0x12, 0x34, 0x56],
    retrans := { sampleDevice.retrans with params := sampleTiming } }

/-- Devices that arise from `ni_dhcp6_device_new` by calls of the device
functions. -/
inductive Reachable : ni_dhcp6_device_t → Prop
  | new (env : Env) (active : List ni_dhcp6_device_t) (ifname : Option String)
      (link : ni_linkinfo_t) : Reachable (ni_dhcp6_device_new env active ifname link).1
  | init_message (env : Env) (dev dev1 : ni_dhcp6_device_t) (msg_code : Nat)
      (lease : Option ni_addrconf_lease_t) (rv : Int) :
      Reachable dev → ni_dhcp6_init_message env dev msg_code lease = some (rv, dev1) →
      Reachable dev1
  | acquire (env : Env) (dev : ni_dhcp6_device_t) (info : ni_dhcp6_request_t)
      (r : AcquireResult) :
      Reachable dev → ni_dhcp6_acquire env dev info = some r → Reachable r.dev
  | retransmit (env : Env) (dev dev1 : ni_dhcp6_device_t) (rv : Int) (sent : List Sendto) :
      Reachable dev → ni_dhcp6_device_retransmit env dev = some (rv, dev1, sent) →
      Reachable dev1
  | retransmit_arm (env : Env) (dev : ni_dhcp6_device_t) :
      Reachable dev → Reachable (ni_dhcp6_device_retransmit_arm env dev)
  | retransmit_disarm (dev : ni_dhcp6_device_t) :
      Reachable dev → Reachable (ni_dhcp6_device_retransmit_disarm dev)
  | transmit_arm_delay (env : Env) (dev : ni_dhcp6_device_t) :
      Reachable dev → Reachable (ni_dhcp6_device_transmit_arm_delay env dev).2

/-- The device `ni_dhcp6_init_message` leaves behind (the device itself when
there is no result). -/
def initMessageDevice (env : Env) (dev : ni_dhcp6_device_t) (msg_code : Nat)
    (lease : Option ni_addrconf_lease_t) : ni_dhcp6_device_t :=
  match ni_dhcp6_init_message env dev msg_code lease with
  | some (_, dev1) => dev1
  | none => dev

/-- The sample environment with other random draws: the first draw of a new
exchange would be `0x654321`. -/
def freshEnv : Env :=
  { sampleEnv with rand := fun i => 0x654321 + i }

/-- A lease whose server sent the unicast address `2001:db8::2`. -/
def unicastLease : ni_addrconf_lease_t :=
  { server_unicast := [0x20, 0x01, 0x0d, 0xb8, 0, 0, 0, 0, 0, 0, 0, 0, 0, 0, 0, 2] }

/-- The macro `IN6_IS_ADDR_UNSPECIFIED` of `<netinet/in.h>`. -/
def IN6_IS_ADDR_UNSPECIFIED (a : List Nat) : Bool :=
  a == List.replicate 16 0

/-- The macro `IN6_IS_ADDR_LOOPBACK` of `<netinet/in.h>`. -/
def IN6_IS_ADDR_LOOPBACK (a : List Nat) : Bool :=
  a == List.replicate 15 0 ++ [1]

/-- The unicast rule in the words of the specification: the message is a
Request, Renew, Release or Decline, and the lease carries a server unicast
address that is none of unspecified, multicast or loopback. -/
def spec_unicast_permitted (msg_code : Nat) (lease : Option ni_addrconf_lease_t) : Bool :=
  (msg_code == NI_DHCP6_REQUEST || msg_code == NI_DHCP6_RENEW
    || msg_code == NI_DHCP6_RELEASE || msg_code == NI_DHCP6_DECLINE)
  && match lease with
     | none => false
     | some l => !(IN6_IS_ADDR_UNSPECIFIED l.server_unicast)
                  && !(IN6_IS_ADDR_MULTICAST l.server_unicast)
                  && !(IN6_IS_ADDR_LOOPBACK l.server_unicast)

/-- A DUID-LL `00:03:00:01:02:00:00:00:00:01`. -/
def hexDuid : List Nat := [0, 3, 0, 1, 2, 0, 0, 0, 0, 1]

/-- The sample environment with a hex parser that yields `hexDuid`. -/
def hexEnv : Env :=
  { sampleEnv with duid_parse_hex := fun _ _ => (10, hexDuid) }

/-- The sample device without a hardware address (a point-to-point link),
while the system knows an Ethernet interface. -/
def noHwDevice : ni_dhcp6_device_t :=
  { sampleDevice with
    ifname := some "ppp0",
    link := { sampleLink with type_ := 0, arp_type := 512, hwaddr := { type_ := 512, data := [] } } }

/-- The config `ni_dhcp6_acquire` builds from the request (lines 627-648),
given the client DUID that was resolved. -/
def acquire_config (env : Env) (info : ni_dhcp6_request_t) (duid : List Nat) :
    ni_dhcp6_config_t :=
  { uuid := info.uuid,
    update := info.update,
    info_only := info.info_only,
    rapid_commit := info.rapid_commit,
    client_duid := duid,
    hostname :=
      match info.hostname with
      | some name => name.take (env.hostname_size - 1)
      | none => [],
    user_class := [],
    vendor_class := { en := (ni_dhcp6_config_vendor_class env []).2.1,
                      data := (ni_dhcp6_config_vendor_class env []).2.2 },
    vendor_opts := { en := (ni_dhcp6_config_vendor_opts env []).1,
                     data := (ni_dhcp6_config_vendor_opts env []).2 } }

/-- The device `ni_dhcp6_acquire` hands to `ni_dhcp6_init_message` (line 650):
the refreshed device with the config built from the request installed. -/
def acquire_configured (env : Env) (dev : ni_dhcp6_device_t) (info : ni_dhcp6_request_t) :
    ni_dhcp6_device_t :=
  ni_dhcp6_device_set_config (ni_dhcp6_device_refresh env dev).2
    (some (acquire_config env info
      (ni_dhcp6_init_duid env [] (ni_dhcp6_device_refresh env dev).2 info.clientid).2.1))

/-- The message type `ni_dhcp6_acquire` hands to `ni_dhcp6_init_message`
(lines 652-665). -/
def acquire_msg_code (info : ni_dhcp6_request_t) : Nat :=
  if info.info_only then NI_DHCP6_INFO_REQUEST else NI_DHCP6_SOLICIT

/-- What `ni_dhcp6_acquire` does once `ni_dhcp6_init_message` has returned
`init` (lines 652-678). -/
def acquire_finish (env : Env) (saved : List (List Nat))
    (init : Option (Int × ni_dhcp6_device_t)) : Option AcquireResult :=
  match init with
  | none => none
  | some (rv, dev3) =>
    if rv != 0 then
      some { rv := rv, dev := dev3, sent := [], saved := saved }
    else
      let delayed := ni_dhcp6_device_transmit_arm_delay env dev3
      if delayed.1 then
        some { rv := 0, dev := delayed.2, sent := [], saved := saved }
      else
        match ni_dhcp6_device_transmit env delayed.2 with
        | none => none
        | some (rv1, sent) =>
          if rv1 != 0 then
            some { rv := rv1, dev := delayed.2, sent := sent, saved := saved }
          else
            some { rv := rv1, dev := ni_dhcp6_device_retransmit_arm env delayed.2,
                   sent := sent, saved := saved }

/-- The sample environment without any known interface. -/
def noNetEnv : Env :=
  { sampleEnv with netdev_addrs := fun _ => none }

/-- What `ni_dhcp6_acquire` leaves behind (a failure on the device itself when
there is no result). -/
def acquireResult (env : Env) (dev : ni_dhcp6_device_t) (info : ni_dhcp6_request_t) :
    AcquireResult :=
  match ni_dhcp6_acquire env dev info with
  | some r => r
  | none => { rv := -1, dev := dev, sent := [], saved := [] }

/-- A request for a stateless exchange, with an update mask. -/
def infoRequest : ni_dhcp6_request_t :=
  { sampleRequest with info_only := true, update := 5 }

/-- An IPv4 tunnel device: its hardware address is the four bytes of the
local IPv4 address `10.0.0.1`. -/
def tunnelDevice : ni_dhcp6_device_t :=
  { sampleDevice with
    ifname := some "sit0",
    link := { sampleLink with
              ifindex := 5, arp_type := 776,
              hwaddr := { type_ := 776, data := [10, 0, 0, 1] } } }

/-- A device `eth0` with index 3 whose hardware address is not known. -/
def namedDevice : ni_dhcp6_device_t :=
  { sampleDevice with link := { sampleLink with hwaddr := { type_ := 1, data := [] } } }

/-- The device `namedDevice` under the name `eth`, whose length is not a
multiple of 4. -/
def shortNamedDevice : ni_dhcp6_device_t :=
  { namedDevice with ifname := some "eth" }

/-- A device started at 100.250000 s. -/
def startedDevice : ni_dhcp6_device_t :=
  { sampleDevice with start_time := { tv_sec := 100, tv_usec := 250000 } }

/-- The sample environment 12.345678 s after the start of `startedDevice`. -/
def laterEnv : Env :=
  { sampleEnv with now := { tv_sec := 112, tv_usec := 595678 } }

/-- The sample environment 1000 s after the start of `startedDevice`, with a
borrow in the microseconds. -/
def muchLaterEnv : Env :=
  { sampleEnv with now := { tv_sec := 1100, tv_usec := 240000 } }

/-- A device started at second 1. -/
def earlyDevice : ni_dhcp6_device_t :=
  { sampleDevice with start_time := { tv_sec := 1, tv_usec := 0 } }

/-- The sample environment with the clock at second `2 ^ 62`. -/
def farFutureEnv : Env :=
  { sampleEnv with now := { tv_sec := 2 ^ 62, tv_usec := 0 } }

/-- The sample environment with a configured default DUID; the hex parser
accepts the configured string only. -/
def configuredEnv : Env :=
  { sampleEnv with
    config := { sampleEnv.config with default_duid := some "00030001020000000001" },
    duid_parse_hex := fun duid str =>
      if str = "00030001020000000001" then (10, hexDuid) else (0, duid) }

/-- A DUID-LL as the persistent file may hold it. -/
def storedDuid : List Nat := [0, 3, 0, 1, 2, 0, 0, 0, 0, 2]

/-- The sample environment with a configured default that does not parse and
a DUID in the persistent file. -/
def storedEnv : Env :=
  { sampleEnv with
    config := { sampleEnv.config with default_duid := some "xyz" },
    load_duid := fun _ => (0, storedDuid) }

/-- The sample environment in which no DUID can be obtained: nothing is
configured or stored, and neither the DUID-LLT nor the DUID-UUID helper
produces bytes. -/
def noDuidEnv : Env :=
  { sampleEnv with
    duid_init_llt := fun duid _ _ => (false, duid),
    duid_init_uuid := fun duid _ => duid }

/-- The lists of active devices that arise from the empty list by calls of
`ni_dhcp6_device_new` for an interface index that
`ni_dhcp6_device_by_index` does not find, and by calls of
`ni_dhcp6_device_get` and `ni_dhcp6_device_put` on active devices. -/
inductive Registry : List ni_dhcp6_device_t → Prop
  | empty : Registry []
  | new (env : Env) (active : List ni_dhcp6_device_t) (ifname : Option String)
      (link : ni_linkinfo_t) :
      Registry active → ni_dhcp6_device_by_index active link.ifindex = none →
      Registry (ni_dhcp6_device_new env active ifname link).2
  | get (active : List ni_dhcp6_device_t) (k : Nat) (dev dev1 : ni_dhcp6_device_t) :
      Registry active → active.get? k = some dev → ni_dhcp6_device_get dev = some dev1 →
      Registry (active.set k dev1)
  | put (active : List ni_dhcp6_device_t) (k : Nat) (r : PutResult) :
      Registry active → ni_dhcp6_device_put active k = some r → Registry r.active

/-- Two devices created for the same interface, one after the other. -/
def twiceCreated : List ni_dhcp6_device_t :=
  (ni_dhcp6_device_new sampleEnv
    (ni_dhcp6_device_new sampleEnv [] (some "eth0") sampleLink).2 (some "eth0") sampleLink).2

/-- A device in the middle of an exchange: socket 7 open, the timer armed
with 1100 ms, config and request installed, held by one user. -/
def busyDevice : ni_dhcp6_device_t :=
  { lowRtDevice with
    fsm := { state := NI_DHCP6_STATE_INIT, timer := some 1100 },
    request := some sampleRequest }

/-- A device for another interface (`eth1`, index 4), held by two users. -/
def otherDevice : ni_dhcp6_device_t :=
  { sampleDevice with
    ifname := some "eth1",
    users := 2,
    link := { sampleLink with ifindex := 4 } }

/-- What identifies a device handle and its owner's wishes: the stored
request, the reference count, the link data, the interface name and the FSM
state are those of `dev`. -/
def SameHandle (dev1 dev : ni_dhcp6_device_t) : Prop :=
  dev1.request = dev.request ∧ dev1.users = dev.users ∧ dev1.link = dev.link
    ∧ dev1.ifname = dev.ifname ∧ dev1.fsm.state = dev.fsm.state

/-- The sample device with a stored request. -/
def requestDevice : ni_dhcp6_device_t :=
  { sampleDevice with request := some sampleRequest }

/-- Address flag of a tentative address (`IFA_F_TENTATIVE`, `<linux/if_addr.h>`). -/
def IFA_F_TENTATIVE : Nat := 0x40

/-- The sample environment while duplicate address detection is running: the
only address of interface 3 is the link-local address `fe80::1`, still
tentative. -/
def tentativeEnv : Env :=
  { sampleEnv with
    netdev_addrs := fun i =>
      if i = 3 then
        some [{ family := AF_INET6, flags := IFA_F_TENTATIVE, local_addr := sampleLinkLocal }]
      else none }

/-- The sample environment with a configured vendor class: enterprise number
311 and two strings. -/
def vendorEnv : Env :=
  { sampleEnv with
    config := { sampleEnv.config with
      vendor_class_en := 311, vendor_class_data := ["MSFT 5.0", "x86"] } }

/-- The address `fe80::2`. -/
def otherLinkLocal : List Nat :=
  [0xfe, 0x80, 0, 0, 0, 0, 0, 0, 0, 0, 0, 0, 0, 0, 0, 2]

/-- The sample environment with `fe80::1` on the ignore-server list. -/
def ignoreEnv : Env :=
  { sampleEnv with config := { sampleEnv.config with ignore_servers := ["fe80::1"] } }

/-- The sample environment with the string `254.128.0.0` on the ignore-server
list. -/
def ignoreQuadEnv : Env :=
  { sampleEnv with config := { sampleEnv.config with ignore_servers := ["254.128.0.0"] } }

/-- The datagram `ni_dhcp6_device_transmit` hands to `sendto` on socket `fd`:
the message buffer, for `server_addr`, with `MSG_DONTROUTE` if the destination
is multicast or link-local. -/
def transmit_packet (dev : ni_dhcp6_device_t) (fd : Nat) : Sendto :=
  { fd := fd, data := dev.message,
    flags :=
      if IN6_IS_ADDR_MULTICAST dev.server_addr.sin6_addr
          || IN6_IS_ADDR_LINKLOCAL dev.server_addr.sin6_addr then MSG_DONTROUTE else 0,
    dest := dev.server_addr }

/-! ## Retransmission: expiry on the transmit count -/

theorem retransmit_advance_expired (env : Env) (dev : ni_dhcp6_device_t)
    (hmrc : dev.retrans.params.max_retransmits ≠ 0)
    (hcnt : dev.retrans.params.max_retransmits ≤ dev.tx_counter) :
    ni_dhcp6_device_retransmit_advance env dev = (false, dev) := by
  simp [ni_dhcp6_device_retransmit_advance, hmrc, hcnt]

/-- C1: when MRC (`max_retransmits`) is nonzero and `tx_counter` has reached
it, `ni_dhcp6_device_retransmit_advance` returns FALSE and leaves the device,
in particular `retrans.timeout` and `retrans.deadline`, as it was;
`ni_dhcp6_device_retransmit` then returns -1 with the retransmission state
zeroed, the message buffer untouched and no datagram sent. -/
theorem retransmit_expires_at_max_retransmits (env : Env) (dev : ni_dhcp6_device_t)
    (hmrc : dev.retrans.params.max_retransmits ≠ 0)
    (hcnt : dev.retrans.params.max_retransmits ≤ dev.tx_counter) :
    (ni_dhcp6_device_retransmit_advance env dev).1 = false
    ∧ (ni_dhcp6_device_retransmit_advance env dev).2.retrans.timeout = dev.retrans.timeout
    ∧ (ni_dhcp6_device_retransmit_advance env dev).2.retrans.deadline = dev.retrans.deadline
    ∧ (ni_dhcp6_device_retransmit_advance env dev).2 = dev
    ∧ ni_dhcp6_device_retransmit env dev
        = some (-1, { dev with retrans := ni_dhcp6_retrans_t.zero }, []) := by
  have h := retransmit_advance_expired env dev hmrc hcnt
  refine ⟨by rw [h], by rw [h], by rw [h], by rw [h], ?_⟩
  simp [ni_dhcp6_device_retransmit, h, ni_dhcp6_device_retransmit_disarm]

theorem retransmit_expires_at_max_retransmits_witness :
    (ni_dhcp6_device_retransmit_advance sampleEnv expiredDevice).1 = false
    ∧ (ni_dhcp6_device_retransmit_advance sampleEnv expiredDevice).2.retrans.timeout = 1000
    ∧ (ni_dhcp6_device_retransmit_advance sampleEnv expiredDevice).2.retrans.deadline
        = { tv_sec := 91, tv_usec := 0 }
    ∧ (ni_dhcp6_device_retransmit_advance sampleEnv expiredDevice).2 = expiredDevice
    ∧ ni_dhcp6_device_retransmit sampleEnv expiredDevice
        = some (-1, { expiredDevice with retrans := ni_dhcp6_retrans_t.zero }, []) :=
  retransmit_expires_at_max_retransmits sampleEnv expiredDevice (by decide) (by decide)

/-! ## Retransmission: the transmit count -/

theorem retransmit_advance_tx_counter (env : Env) (dev : ni_dhcp6_device_t) :
    (ni_dhcp6_device_retransmit_advance env dev).2.tx_counter = dev.tx_counter := by
  unfold ni_dhcp6_device_retransmit_advance
  split
  · rfl
  · split <;> rfl

/-- No call of `ni_dhcp6_device_retransmit` changes `tx_counter`. -/
theorem retransmit_keeps_tx_counter (env : Env) (dev dev1 : ni_dhcp6_device_t) (rv : Int)
    (sent : List Sendto) (h : ni_dhcp6_device_retransmit env dev = some (rv, dev1, sent)) :
    dev1.tx_counter = dev.tx_counter := by
  have hadv := retransmit_advance_tx_counter env dev
  unfold ni_dhcp6_device_retransmit at h
  simp only [ni_dhcp6_device_retransmit_disarm] at h
  repeat' split at h
  all_goals first
    | (simp at h; done)
    | (simp only [Option.some.injEq, Prod.mk.injEq] at h
       obtain ⟨-, rfl, -⟩ := h
       exact hadv)

/-- C2: with a timing table that sets MRC = 1, `ni_dhcp6_acquire` sends the
Solicit once and leaves `tx_counter` at 0; each of the following five calls of
`ni_dhcp6_device_retransmit` sends the message again and leaves `tx_counter`
at 0, so that six datagrams leave the device although MRC is 1. -/
theorem retransmit_exceeds_max_retransmits :
    (ni_dhcp6_acquire mrcEnv sampleDevice sampleRequest).map
        (fun r => (r.rv, r.sent.length, r.dev.tx_counter, r.dev.retrans.params.max_retransmits))
      = some (0, 1, 0, 1)
    ∧ ((ni_dhcp6_acquire mrcEnv sampleDevice sampleRequest).bind
        (fun r => ni_dhcp6_device_retransmit mrcEnv r.dev)).map
        (fun x => (x.1, x.2.2.length, x.2.1.tx_counter, x.2.1.retrans.params.max_retransmits))
      = some (-1, 1, 0, 1)
    ∧ ((ni_dhcp6_acquire mrcEnv sampleDevice sampleRequest).bind
        (fun r => retransmit_times mrcEnv 5 r.dev)).map
        (fun x => (x.2.length, x.1.tx_counter, x.1.retrans.params.max_retransmits))
      = some (5, 0, 1) := by
  refine ⟨by rfl, by rfl, by rfl⟩

/-! ## Retransmission: the timeout values -/

theorem ULONG_SIZE_eq : ULONG_SIZE = 18446744073709551616 := by
  norm_num [ULONG_SIZE]

/-- Without wrap-around the timeout helper returns base plus jitter. -/
theorem timeout_arm_msec_val (env : Env) (timeout lo hi : Nat)
    (h0 : 0 ≤ (timeout : Int) + env.jitter lo hi)
    (h1 : (timeout : Int) + env.jitter lo hi < (ULONG_SIZE : Int)) :
    ((ni_dhcp6_timeout_arm_msec env timeout lo hi).1 : Int) = (timeout : Int) + env.jitter lo hi := by
  simp only [ni_dhcp6_timeout_arm_msec, ni_dhcp6_timeout_jitter]
  rw [Int.emod_eq_of_lt h0 h1, Int.toNat_of_nonneg h0]

/-- The timeout stored by an advance that does not expire. -/
theorem retransmit_advance_timeout (env : Env) (dev : ni_dhcp6_device_t)
    (hadv : (ni_dhcp6_device_retransmit_advance env dev).1 = true) :
    (ni_dhcp6_device_retransmit_advance env dev).2.retrans.timeout
      = (ni_dhcp6_timeout_arm_msec env
          (if dev.retrans.params.max_timeout != 0
              && decide ((dev.retrans.timeout * 2) % ULONG_SIZE > dev.retrans.params.max_timeout)
            then dev.retrans.params.max_timeout
            else (dev.retrans.timeout * 2) % ULONG_SIZE)
          dev.retrans.params.max_jitter dev.retrans.params.max_jitter).1 := by
  unfold ni_dhcp6_device_retransmit_advance at hadv ⊢
  split at hadv
  · simp at hadv
  · split at hadv
    · rename_i h1 h2
      simp only [h1, h2, if_true, if_false]
      rfl
    · simp at hadv

/-- C3 (as amended): an advance that does not expire stores base plus jitter,
the jitter lying within `max_jitter` of zero.  If MRT = 0 or `2·RT ≤ MRT` the
new timeout lies in `[1.9·RT, 2.1·RT]` provided `max_jitter ≤ 0.1·RT`; if
`2·RT > MRT ≠ 0` it lies in `[0.9·MRT, 1.1·MRT]` provided
`max_jitter ≤ 0.1·MRT` (values within the range of `unsigned long`). -/
theorem retransmit_advance_timeout_bounds (env : Env) (dev : ni_dhcp6_device_t)
    (hadv : (ni_dhcp6_device_retransmit_advance env dev).1 = true)
    (hj : JitterInBounds dev.retrans.params.max_jitter dev.retrans.params.max_jitter
            (env.jitter dev.retrans.params.max_jitter dev.retrans.params.max_jitter))
    (hw1 : 2 * dev.retrans.timeout + dev.retrans.params.max_jitter < ULONG_SIZE)
    (hw2 : dev.retrans.params.max_timeout + dev.retrans.params.max_jitter < ULONG_SIZE) :
    ((dev.retrans.params.max_timeout = 0
        ∨ 2 * dev.retrans.timeout ≤ dev.retrans.params.max_timeout) →
      10 * dev.retrans.params.max_jitter ≤ dev.retrans.timeout →
      19 * dev.retrans.timeout
          ≤ 10 * (ni_dhcp6_device_retransmit_advance env dev).2.retrans.timeout
        ∧ 10 * (ni_dhcp6_device_retransmit_advance env dev).2.retrans.timeout
          ≤ 21 * dev.retrans.timeout)
    ∧ (dev.retrans.params.max_timeout ≠ 0 →
      dev.retrans.params.max_timeout < 2 * dev.retrans.timeout →
      10 * dev.retrans.params.max_jitter ≤ dev.retrans.params.max_timeout →
      9 * dev.retrans.params.max_timeout
          ≤ 10 * (ni_dhcp6_device_retransmit_advance env dev).2.retrans.timeout
        ∧ 10 * (ni_dhcp6_device_retransmit_advance env dev).2.retrans.timeout
          ≤ 11 * dev.retrans.params.max_timeout) := by
  rw [retransmit_advance_timeout env dev hadv]
  rw [ULONG_SIZE_eq] at hw1 hw2
  obtain ⟨hlo, hhi⟩ := hj
  have hmod : (dev.retrans.timeout * 2) % ULONG_SIZE = dev.retrans.timeout * 2 := by
    rw [ULONG_SIZE_eq]; omega
  rw [hmod]
  constructor
  · intro hcase hmj
    have hbase : (if dev.retrans.params.max_timeout != 0
              && decide (dev.retrans.timeout * 2 > dev.retrans.params.max_timeout)
            then dev.retrans.params.max_timeout
            else dev.retrans.timeout * 2) = dev.retrans.timeout * 2 := by
      rcases hcase with h | h
      · simp [h]
      · have : ¬ (dev.retrans.timeout * 2 > dev.retrans.params.max_timeout) := by omega
        simp [this]
    rw [hbase]
    have hval := timeout_arm_msec_val env (dev.retrans.timeout * 2)
      dev.retrans.params.max_jitter dev.retrans.params.max_jitter
      (by push_cast; omega) (by rw [ULONG_SIZE_eq]; push_cast; omega)
    push_cast at hval
    omega
  · intro hne hgt hmj
    have hbase : (if dev.retrans.params.max_timeout != 0
              && decide (dev.retrans.timeout * 2 > dev.retrans.params.max_timeout)
            then dev.retrans.params.max_timeout
            else dev.retrans.timeout * 2) = dev.retrans.params.max_timeout := by
      have : dev.retrans.timeout * 2 > dev.retrans.params.max_timeout := by omega
      simp [hne, this]
    rw [hbase]
    have hval := timeout_arm_msec_val env dev.retrans.params.max_timeout
      dev.retrans.params.max_jitter dev.retrans.params.max_jitter
      (by omega) (by rw [ULONG_SIZE_eq]; push_cast; omega)
    omega

theorem retransmit_advance_timeout_bounds_witness :
    (19 * 1000 ≤ 10 * (ni_dhcp6_device_retransmit_advance sampleEnv
          { lowRtDevice with retrans := { lowRtDevice.retrans with timeout := 1000 } }).2.retrans.timeout
      ∧ 10 * (ni_dhcp6_device_retransmit_advance sampleEnv
          { lowRtDevice with retrans := { lowRtDevice.retrans with timeout := 1000 } }).2.retrans.timeout
        ≤ 21 * 1000)
    ∧ (9 * 120000 ≤ 10 * (ni_dhcp6_device_retransmit_advance sampleEnv highRtDevice).2.retrans.timeout
      ∧ 10 * (ni_dhcp6_device_retransmit_advance sampleEnv highRtDevice).2.retrans.timeout
        ≤ 11 * 120000) :=
  ⟨(retransmit_advance_timeout_bounds sampleEnv
      { lowRtDevice with retrans := { lowRtDevice.retrans with timeout := 1000 } }
      (by decide) (by decide) (by decide) (by decide)).1 (by decide) (by decide),
   (retransmit_advance_timeout_bounds sampleEnv highRtDevice
      (by decide) (by decide) (by decide) (by decide)).2 (by decide) (by decide) (by decide)⟩

/-- C3 (counterexample): IRT 1000 ms with the default jitter of 100 ms, the
previous timeout 900 ms (what `ni_dhcp6_device_retransmit_arm` stores when the
jitter drawn is -100), MRT 120 s.  The doubled value 1800 stays below MRT, the
jitter +100 is within its bounds, and the new timeout 1900 exceeds
`2.1·900 = 1890`. -/
theorem retransmit_advance_timeout_counterexample :
    JitterInBounds lowRtDevice.retrans.params.max_jitter lowRtDevice.retrans.params.max_jitter
        (lowJitterEnv.jitter lowRtDevice.retrans.params.max_jitter
          lowRtDevice.retrans.params.max_jitter)
    ∧ (ni_dhcp6_device_retransmit_arm lowJitterEnv lowRtDevice).retrans.timeout
        = lowRtDevice.retrans.timeout
    ∧ JitterInBounds lowRtDevice.retrans.params.max_jitter lowRtDevice.retrans.params.max_jitter
        (sampleEnv.jitter lowRtDevice.retrans.params.max_jitter
          lowRtDevice.retrans.params.max_jitter)
    ∧ 10 * lowRtDevice.retrans.params.max_jitter = lowRtDevice.retrans.params.timeout
    ∧ (ni_dhcp6_device_retransmit_advance sampleEnv lowRtDevice).1 = true
    ∧ 2 * lowRtDevice.retrans.timeout < lowRtDevice.retrans.params.max_timeout
    ∧ (ni_dhcp6_device_retransmit_advance sampleEnv lowRtDevice).2.retrans.timeout = 1900
    ∧ ¬ (19 * lowRtDevice.retrans.timeout
          ≤ 10 * (ni_dhcp6_device_retransmit_advance sampleEnv lowRtDevice).2.retrans.timeout
        ∧ 10 * (ni_dhcp6_device_retransmit_advance sampleEnv lowRtDevice).2.retrans.timeout
          ≤ 21 * lowRtDevice.retrans.timeout) := by
  decide

/-- The timeout, start time and transmit delay left by
`ni_dhcp6_device_retransmit_arm`. -/
theorem retransmit_arm_fields (env : Env) (dev : ni_dhcp6_device_t) :
    (ni_dhcp6_device_retransmit_arm env dev).retrans.timeout
        = (ni_dhcp6_timeout_arm_msec env dev.retrans.params.timeout
            (if dev.tx_counter ≤ 1 ∧ dev.retrans.params.pos_jitter = true then 0
              else dev.retrans.params.max_jitter)
            dev.retrans.params.max_jitter).1
    ∧ (ni_dhcp6_device_retransmit_arm env dev).retrans.start = env.now
    ∧ (ni_dhcp6_device_retransmit_arm env dev).tx_delay = 0
    ∧ (ni_dhcp6_device_retransmit_arm env dev).retrans.params = dev.retrans.params := by
  unfold ni_dhcp6_device_retransmit_arm ni_dhcp6_fsm_set_timeout_msec
  by_cases hc : dev.tx_counter ≤ 1 ∧ dev.retrans.params.pos_jitter = true
  · have h1 : ¬ dev.tx_counter > 1 := by omega
    simp only [hc, h1, if_true]
    split <;> simp
  · have h2 : (!(decide (dev.tx_counter > 1)) && dev.retrans.params.pos_jitter) = false := by
      by_cases h3 : dev.tx_counter > 1
      · simp [h3]
      · have h4 : dev.tx_counter ≤ 1 := by omega
        have h5 : dev.retrans.params.pos_jitter = false := by
          cases h6 : dev.retrans.params.pos_jitter
          · rfl
          · exact absurd ⟨h4, h6⟩ hc
        simp [h5]
    simp only [hc, h2, if_false]
    split <;> simp

/-- C4: with `max_jitter` the tenth part of IRT (`retrans.params.timeout`) and
the jitter drawn within the bounds handed to the helper, the timeout stored by
`ni_dhcp6_device_retransmit_arm` lies in `[0.9·IRT, 1.1·IRT]`; the start time
is the current time and `tx_delay` is 0. -/
theorem retransmit_arm_first_timeout (env : Env) (dev : ni_dhcp6_device_t)
    (hmj : dev.retrans.params.max_jitter = dev.retrans.params.timeout / 10)
    (hj : JitterInBounds
            (if dev.tx_counter ≤ 1 ∧ dev.retrans.params.pos_jitter = true then 0
              else dev.retrans.params.max_jitter)
            dev.retrans.params.max_jitter
            (env.jitter
              (if dev.tx_counter ≤ 1 ∧ dev.retrans.params.pos_jitter = true then 0
                else dev.retrans.params.max_jitter)
              dev.retrans.params.max_jitter))
    (hw : dev.retrans.params.timeout + dev.retrans.params.max_jitter < ULONG_SIZE) :
    9 * dev.retrans.params.timeout ≤ 10 * (ni_dhcp6_device_retransmit_arm env dev).retrans.timeout
    ∧ 10 * (ni_dhcp6_device_retransmit_arm env dev).retrans.timeout
        ≤ 11 * dev.retrans.params.timeout
    ∧ (ni_dhcp6_device_retransmit_arm env dev).retrans.start = env.now
    ∧ (ni_dhcp6_device_retransmit_arm env dev).tx_delay = 0 := by
  obtain ⟨ht, hs, hd, -⟩ := retransmit_arm_fields env dev
  rw [ULONG_SIZE_eq] at hw
  rw [ht]
  by_cases hc : dev.tx_counter ≤ 1 ∧ dev.retrans.params.pos_jitter = true
  · rw [if_pos hc] at hj ⊢
    obtain ⟨hlo, hhi⟩ := hj
    have hval := timeout_arm_msec_val env dev.retrans.params.timeout 0
      dev.retrans.params.max_jitter (by omega) (by rw [ULONG_SIZE_eq]; push_cast; omega)
    refine ⟨?_, ?_, hs, hd⟩ <;> omega
  · rw [if_neg hc] at hj ⊢
    obtain ⟨hlo, hhi⟩ := hj
    have hval := timeout_arm_msec_val env dev.retrans.params.timeout
      dev.retrans.params.max_jitter dev.retrans.params.max_jitter
      (by omega) (by rw [ULONG_SIZE_eq]; push_cast; omega)
    refine ⟨?_, ?_, hs, hd⟩ <;> omega

theorem retransmit_arm_first_timeout_witness :
    9 * 1000 ≤ 10 * (ni_dhcp6_device_retransmit_arm sampleEnv lowRtDevice).retrans.timeout
    ∧ 10 * (ni_dhcp6_device_retransmit_arm sampleEnv lowRtDevice).retrans.timeout ≤ 11 * 1000
    ∧ (ni_dhcp6_device_retransmit_arm sampleEnv lowRtDevice).retrans.start
        = { tv_sec := 100, tv_usec := 0 }
    ∧ (ni_dhcp6_device_retransmit_arm sampleEnv lowRtDevice).tx_delay = 0 :=
  retransmit_arm_first_timeout sampleEnv lowRtDevice (by decide) (by decide) (by decide)

/-- For the first Solicit (`pos_jitter` set, `tx_counter ≤ 1`)
`ni_dhcp6_device_retransmit_arm` hands the helper the jitter bounds 0 and
`max_jitter`: the timeout stored is IRT (`retrans.params.timeout`) plus the
draw, so for every draw within these bounds it is at least IRT and at most IRT
plus `max_jitter`, and it is strictly greater than IRT exactly when the draw
is not 0. -/
theorem retransmit_arm_solicit_timeout (env : Env) (dev : ni_dhcp6_device_t)
    (hpos : dev.retrans.params.pos_jitter = true)
    (htx : dev.tx_counter ≤ 1)
    (hj : JitterInBounds 0 dev.retrans.params.max_jitter
            (env.jitter 0 dev.retrans.params.max_jitter))
    (hw : dev.retrans.params.timeout + dev.retrans.params.max_jitter < ULONG_SIZE) :
    ((ni_dhcp6_device_retransmit_arm env dev).retrans.timeout : Int)
        = (dev.retrans.params.timeout : Int) + env.jitter 0 dev.retrans.params.max_jitter
    ∧ dev.retrans.params.timeout ≤ (ni_dhcp6_device_retransmit_arm env dev).retrans.timeout
    ∧ (ni_dhcp6_device_retransmit_arm env dev).retrans.timeout
        ≤ dev.retrans.params.timeout + dev.retrans.params.max_jitter
    ∧ (dev.retrans.params.timeout < (ni_dhcp6_device_retransmit_arm env dev).retrans.timeout
        ↔ env.jitter 0 dev.retrans.params.max_jitter ≠ 0) := by
  obtain ⟨ht, -, -, -⟩ := retransmit_arm_fields env dev
  rw [ht, if_pos ⟨htx, hpos⟩]
  obtain ⟨hlo, hhi⟩ := hj
  have hval := timeout_arm_msec_val env dev.retrans.params.timeout 0
    dev.retrans.params.max_jitter (by omega)
    (by rw [ULONG_SIZE_eq] at hw ⊢; push_cast; omega)
  refine ⟨hval, ?_, ?_, ?_⟩ <;> omega

/-- With a draw of 0, which lies within the bounds handed to the helper, the
first timeout of a Solicit is IRT itself; with the draw `max_jitter` it is
above IRT. -/
theorem retransmit_arm_solicit_zero_draw :
    JitterInBounds 0 solicitDevice.retrans.params.max_jitter
        (zeroJitterEnv.jitter 0 solicitDevice.retrans.params.max_jitter)
    ∧ (ni_dhcp6_device_retransmit_arm zeroJitterEnv solicitDevice).retrans.timeout
        = solicitDevice.retrans.params.timeout
    ∧ (ni_dhcp6_device_retransmit_arm sampleEnv solicitDevice).retrans.timeout = 1100 := by
  decide

/-! ## Retransmission: the maximum duration -/

/-- C6 (counterexample): MRD is 10 s and the exchange began 99 s ago, yet
`ni_dhcp6_device_retransmit_advance` returns TRUE and
`ni_dhcp6_device_retransmit` sends the message once more. -/
theorem retransmit_advance_ignores_duration :
    overdueDevice.retrans.params.max_duration ≠ 0
    ∧ (overdueDevice.retrans.params.max_duration : Int)
        ≤ timeval_diff_msec sampleEnv.now overdueDevice.retrans.start
    ∧ (ni_dhcp6_device_retransmit_advance sampleEnv overdueDevice).1 = true
    ∧ (ni_dhcp6_device_retransmit sampleEnv overdueDevice).map
        (fun r => (r.1, r.2.2.length)) = some (-1, 1) := by
  decide

/-- C6 (as amended): `ni_dhcp6_device_retransmit_advance` returns FALSE
exactly when MRC is nonzero and reached by `tx_counter`, or no deadline is
armed; its result is the same for every current time, start time and MRD.
MRD is handed to the FSM timer by `ni_dhcp6_device_retransmit_arm` when it is
nonzero. -/
theorem retransmit_advance_expiry_conditions (env : Env) (dev : ni_dhcp6_device_t) :
    ((ni_dhcp6_device_retransmit_advance env dev).1 = false ↔
      (dev.retrans.params.max_retransmits ≠ 0
        ∧ dev.retrans.params.max_retransmits ≤ dev.tx_counter)
      ∨ timerisset dev.retrans.deadline = false)
    ∧ (∀ (env1 : Env) (start : Timeval) (mrd : Nat),
        (ni_dhcp6_device_retransmit_advance env1
          { dev with retrans := { dev.retrans with
              start := start, params := { dev.retrans.params with max_duration := mrd } } }).1
        = (ni_dhcp6_device_retransmit_advance env dev).1)
    ∧ (dev.retrans.params.max_duration ≠ 0 →
        (ni_dhcp6_device_retransmit_arm env dev).fsm.timer
          = some dev.retrans.params.max_duration) := by
  refine ⟨?_, ?_, ?_⟩
  · unfold ni_dhcp6_device_retransmit_advance
    by_cases h1 : dev.retrans.params.max_retransmits ≠ 0
        ∧ dev.retrans.params.max_retransmits ≤ dev.tx_counter
    · simp [h1.1, h1.2]
    · have h2 : (dev.retrans.params.max_retransmits != 0
          && decide (dev.tx_counter ≥ dev.retrans.params.max_retransmits)) = false := by
        by_cases h3 : dev.retrans.params.max_retransmits = 0
        · simp [h3]
        · have : ¬ dev.retrans.params.max_retransmits ≤ dev.tx_counter := fun h => h1 ⟨h3, h⟩
          simp [this]
      simp only [h2, Bool.false_eq_true, if_false, h1, false_or]
      cases hd : timerisset dev.retrans.deadline <;> simp
  · intro env1 start mrd
    unfold ni_dhcp6_device_retransmit_advance
    simp only
    split
    · rfl
    · split <;> rfl
  · intro hmrd
    unfold ni_dhcp6_device_retransmit_arm ni_dhcp6_fsm_set_timeout_msec
    simp [hmrd]

theorem retransmit_advance_expiry_conditions_witness :
    (ni_dhcp6_device_retransmit_arm sampleEnv overdueDevice).fsm.timer = some 10000 :=
  (retransmit_advance_expiry_conditions sampleEnv overdueDevice).2.2 (by decide)

/-! ## Transaction ids -/

theorem xid_mask_lt (r : Nat) : r &&& NI_DHCP6_XID_MASK < 2 ^ 24 := by
  have h : r &&& NI_DHCP6_XID_MASK ≤ NI_DHCP6_XID_MASK := Nat.and_le_right
  have h2 : NI_DHCP6_XID_MASK < 2 ^ 24 := by decide
  omega

/-- What the transaction id loop returns: a nonzero value, the old id when
that was nonzero, a masked draw otherwise. -/
theorem xid_loop_result (rand : Nat → Nat) :
    ∀ (fuel i x y : Nat), xid_loop rand fuel i x = some y →
      y ≠ 0 ∧ (x ≠ 0 → y = x) ∧ (x < 2 ^ 24 → y < 2 ^ 24) := by
  intro fuel
  induction fuel with
  | zero =>
    intro i x y h
    unfold xid_loop at h
    by_cases hx : x = 0
    · simp [hx] at h
    · simp [hx] at h
      subst h
      exact ⟨hx, fun _ => rfl, fun h => h⟩
  | succ n ih =>
    intro i x y h
    unfold xid_loop at h
    by_cases hx : x = 0
    · simp [hx] at h
      obtain ⟨h1, -, h3⟩ := ih (i + 1) (rand i &&& NI_DHCP6_XID_MASK) y h
      exact ⟨h1, fun h => absurd hx h, fun _ => h3 (xid_mask_lt (rand i))⟩
    · simp [hx] at h
      subst h
      exact ⟨hx, fun _ => rfl, fun h => h⟩

/-- The transaction id loop ends once a draw has a nonzero masked value. -/
theorem xid_loop_terminates (rand : Nat → Nat) (k : Nat)
    (hk : rand k &&& NI_DHCP6_XID_MASK ≠ 0) :
    ∀ (fuel i x : Nat), i ≤ k → k < i + fuel → ∃ y, xid_loop rand fuel i x = some y := by
  intro fuel
  induction fuel with
  | zero => intro i x h1 h2; omega
  | succ n ih =>
    intro i x h1 h2
    unfold xid_loop
    by_cases hx : x = 0
    · simp only [hx, bne_self_eq_false, Bool.false_eq_true, if_false]
      by_cases hik : i = k
      · subst hik
        refine ⟨rand i &&& NI_DHCP6_XID_MASK, ?_⟩
        unfold xid_loop
        simp [hk]
      · exact ih (i + 1) _ (by omega) (by omega)
    · exact ⟨x, by simp [hx]⟩

/-- The outcomes of `ni_dhcp6_init_message`: either the socket could not be
opened (return value 1, transaction id untouched), or the transaction id is
the result of the loop; on success the destination is the multicast
address. -/
theorem init_message_cases (env : Env) (dev dev1 : ni_dhcp6_device_t) (msg_code : Nat)
    (lease : Option ni_addrconf_lease_t) (rv : Int)
    (h : ni_dhcp6_init_message env dev msg_code lease = some (rv, dev1)) :
    (rv = 1 ∧ dev1.xid = dev.xid)
    ∨ (xid_loop env.rand env.fuel 0 dev.xid = some dev1.xid
        ∧ (rv = 0 →
            dev1.server_addr =
              { sin6_family := AF_INET6, sin6_port := htons NI_DHCP6_SERVER_PORT,
                sin6_flowinfo := 0, sin6_addr := NI_DHCP6_ALL_RAGENTS,
                sin6_scope_id := dev.link.ifindex,
                pad := List.replicate dev.server_addr.pad.length 0 }
            ∧ dev1.link = dev.link)) := by
  unfold ni_dhcp6_init_message at h
  simp only [ni_dhcp6_device_can_send_unicast, ni_dhcp6_device_alloc_buffer] at h
  repeat' split at h
  all_goals first
    | (simp at h; done)
    | (simp only [Option.some.injEq, Prod.mk.injEq] at h
       obtain ⟨rfl, rfl⟩ := h
       first
         | exact Or.inl ⟨rfl, rfl⟩
         | (refine Or.inr ⟨by assumption, ?_⟩
            intro h0
            first
              | (exact absurd h0 (by decide))
              | (rename_i heq _
                 simp at heq
                 subst heq
                 exact ⟨rfl, rfl⟩)))

theorem refresh_xid (env : Env) (dev : ni_dhcp6_device_t) :
    (ni_dhcp6_device_refresh env dev).2.xid = dev.xid := by
  unfold ni_dhcp6_device_refresh
  repeat' split
  all_goals rfl

theorem transmit_arm_delay_xid (env : Env) (dev : ni_dhcp6_device_t) :
    (ni_dhcp6_device_transmit_arm_delay env dev).2.xid = dev.xid := by
  unfold ni_dhcp6_device_transmit_arm_delay ni_dhcp6_fsm_set_timeout_msec
  dsimp only
  repeat' split
  all_goals rfl

theorem retransmit_arm_xid (env : Env) (dev : ni_dhcp6_device_t) :
    (ni_dhcp6_device_retransmit_arm env dev).xid = dev.xid := by
  unfold ni_dhcp6_device_retransmit_arm ni_dhcp6_fsm_set_timeout_msec
  dsimp only
  repeat' split
  all_goals rfl

theorem retransmit_advance_xid (env : Env) (dev : ni_dhcp6_device_t) :
    (ni_dhcp6_device_retransmit_advance env dev).2.xid = dev.xid := by
  unfold ni_dhcp6_device_retransmit_advance
  dsimp only
  repeat' split
  all_goals rfl

/-- No call of `ni_dhcp6_device_retransmit` changes the transaction id. -/
theorem retransmit_xid (env : Env) (dev dev1 : ni_dhcp6_device_t) (rv : Int)
    (sent : List Sendto) (h : ni_dhcp6_device_retransmit env dev = some (rv, dev1, sent)) :
    dev1.xid = dev.xid := by
  have hadv := retransmit_advance_xid env dev
  unfold ni_dhcp6_device_retransmit at h
  simp only [ni_dhcp6_device_retransmit_disarm] at h
  repeat' split at h
  all_goals first
    | (simp at h; done)
    | (simp only [Option.some.injEq, Prod.mk.injEq] at h
       obtain ⟨-, rfl, -⟩ := h
       exact hadv)

/-- The outcomes of `ni_dhcp6_acquire` with regard to the transaction id:
either it fails before a message is initialised and the id is untouched, or
the id is the one `ni_dhcp6_init_message` left, and a return value of 0 means
that `ni_dhcp6_init_message` returned 0. -/
theorem acquire_cases (env : Env) (dev : ni_dhcp6_device_t) (info : ni_dhcp6_request_t)
    (r : AcquireResult) (h : ni_dhcp6_acquire env dev info = some r) :
    (r.rv ≠ 0 ∧ r.dev.xid = dev.xid)
    ∨ (∃ (dev2 dev3 : ni_dhcp6_device_t) (msg_code : Nat) (rv : Int),
        dev2.xid = dev.xid
        ∧ ni_dhcp6_init_message env dev2 msg_code none = some (rv, dev3)
        ∧ r.dev.xid = dev3.xid
        ∧ (r.rv = 0 → rv = 0)) := by
  unfold ni_dhcp6_acquire at h
  simp only [ni_dhcp6_device_set_config] at h
  repeat' split at h
  all_goals first
    | (simp at h; done)
    | skip
  · rename_i hlt
    simp only [Option.some.injEq] at h
    subst h
    exact Or.inl ⟨by simp only; omega, refresh_xid env dev⟩
  · simp only [Option.some.injEq] at h
    subst h
    exact Or.inl ⟨by simp, refresh_xid env dev⟩
  · rename_i rv dev3 heq hrv
    simp only [Option.some.injEq] at h
    subst h
    refine Or.inr ⟨_, dev3, _, rv, ?_, heq, rfl, fun h0 => h0⟩
    exact refresh_xid env dev
  · rename_i rv dev3 heq hrv hdel
    simp only [Option.some.injEq] at h
    subst h
    refine Or.inr ⟨_, dev3, _, rv, ?_, heq, transmit_arm_delay_xid env dev3, ?_⟩
    · exact refresh_xid env dev
    · intro _
      simpa using hrv
  · rename_i _ rv dev3 heq hrv hdel _ rv1 sent heq1 hrv1
    simp only [Option.some.injEq] at h
    subst h
    refine Or.inr ⟨_, dev3, _, rv, ?_, heq, transmit_arm_delay_xid env dev3, ?_⟩
    · exact refresh_xid env dev
    · intro _
      simpa using hrv
  · rename_i _ rv dev3 heq hrv hdel _ rv1 sent heq1 hrv1
    simp only [Option.some.injEq] at h
    subst h
    refine Or.inr ⟨_, dev3, _, rv, ?_, heq, ?_, ?_⟩
    · exact refresh_xid env dev
    · simp only [retransmit_arm_xid, transmit_arm_delay_xid]
    · intro _
      simpa using hrv

/-- Every reachable device holds a transaction id below `2 ^ 24`. -/
theorem reachable_xid_lt (dev : ni_dhcp6_device_t) (h : Reachable dev) : dev.xid < 2 ^ 24 := by
  induction h with
  | new env active ifname link => simp [ni_dhcp6_device_new]
  | init_message env dev dev1 msg_code lease rv _ hcall ih =>
    rcases init_message_cases env dev dev1 msg_code lease rv hcall with ⟨-, hx⟩ | ⟨hx, -⟩
    · rw [hx]; exact ih
    · exact (xid_loop_result env.rand env.fuel 0 dev.xid dev1.xid hx).2.2 ih
  | acquire env dev info r _ hcall ih =>
    rcases acquire_cases env dev info r hcall with ⟨-, hx⟩ | ⟨dev2, dev3, m, rv, h2, hinit, h3, -⟩
    · rw [hx]; exact ih
    · rw [h3]
      rcases init_message_cases env dev2 dev3 m none rv hinit with ⟨-, hx⟩ | ⟨hx, -⟩
      · rw [hx, h2]; exact ih
      · exact (xid_loop_result env.rand env.fuel 0 dev2.xid dev3.xid hx).2.2 (by rw [h2]; exact ih)
  | retransmit env dev dev1 rv sent _ hcall ih =>
    rw [retransmit_xid env dev dev1 rv sent hcall]; exact ih
  | retransmit_arm env dev _ ih => rw [retransmit_arm_xid]; exact ih
  | retransmit_disarm dev _ ih => exact ih
  | transmit_arm_delay env dev _ ih => rw [transmit_arm_delay_xid]; exact ih

/-- A successful `ni_dhcp6_init_message` on a device whose transaction id is
below `2 ^ 24` leaves a nonzero id below `2 ^ 24`. -/
theorem init_message_success_xid (env : Env) (dev dev1 : ni_dhcp6_device_t) (msg_code : Nat)
    (lease : Option ni_addrconf_lease_t) (hlt : dev.xid < 2 ^ 24)
    (h : ni_dhcp6_init_message env dev msg_code lease = some (0, dev1)) :
    0 < dev1.xid ∧ dev1.xid < 2 ^ 24 := by
  rcases init_message_cases env dev dev1 msg_code lease 0 h with ⟨h1, -⟩ | ⟨hx, -⟩
  · exact absurd h1 (by decide)
  · obtain ⟨h1, -, h3⟩ := xid_loop_result env.rand env.fuel 0 dev.xid dev1.xid hx
    exact ⟨Nat.pos_of_ne_zero h1, h3 hlt⟩

/-- C7: on a device that arose from `ni_dhcp6_device_new`, every successful
`ni_dhcp6_init_message` and every successful `ni_dhcp6_acquire` leaves a
transaction id with `0 < xid < 2 ^ 24`; and `ni_dhcp6_init_message` does
succeed when the socket opens, the builder and the timing table succeed and
one of the random draws followed is nonzero in its low 24 bits. -/
theorem init_message_xid_range (dev : ni_dhcp6_device_t) (hreach : Reachable dev) :
    (∀ (env : Env) (msg_code : Nat) (lease : Option ni_addrconf_lease_t)
        (dev1 : ni_dhcp6_device_t),
        ni_dhcp6_init_message env dev msg_code lease = some (0, dev1) →
        0 < dev1.xid ∧ dev1.xid < 2 ^ 24)
    ∧ (∀ (env : Env) (info : ni_dhcp6_request_t) (r : AcquireResult),
        ni_dhcp6_acquire env dev info = some r → r.rv = 0 →
        0 < r.dev.xid ∧ r.dev.xid < 2 ^ 24)
    ∧ (∀ (env : Env) (msg_code : Nat) (lease : Option ni_addrconf_lease_t) (k : Nat),
        k < env.fuel → env.rand k &&& NI_DHCP6_XID_MASK ≠ 0 →
        0 ≤ (env.socket_open dev).1 →
        (∀ d, 0 ≤ (env.build_message d msg_code lease).1) →
        (∀ p, (env.set_message_timing msg_code p).1 = true) →
        ∃ dev1, ni_dhcp6_init_message env dev msg_code lease = some (0, dev1)
          ∧ 0 < dev1.xid ∧ dev1.xid < 2 ^ 24) := by
  have hlt := reachable_xid_lt dev hreach
  refine ⟨?_, ?_, ?_⟩
  · intro env msg_code lease dev1 h
    exact init_message_success_xid env dev dev1 msg_code lease hlt h
  · intro env info r h hrv
    rcases acquire_cases env dev info r h with ⟨hne, -⟩ | ⟨dev2, dev3, m, rv, h2, hinit, h3, h4⟩
    · exact absurd hrv hne
    · have h0 := h4 hrv
      subst h0
      rw [h3]
      exact init_message_success_xid env dev2 dev3 m none (by rw [h2]; exact hlt) hinit
  · intro env msg_code lease k hk hrand hsock hbuild htiming
    obtain ⟨y, hy⟩ := xid_loop_terminates env.rand k hrand env.fuel 0 dev.xid (by omega) (by omega)
    have hres : ∃ dev1, ni_dhcp6_init_message env dev msg_code lease = some (0, dev1) := by
      unfold ni_dhcp6_init_message
      simp [not_lt.mpr hsock, hy, not_lt.mpr (hbuild _), htiming,
        ni_dhcp6_device_can_send_unicast]
    obtain ⟨dev1, h1⟩ := hres
    exact ⟨dev1, h1, init_message_success_xid env dev dev1 msg_code lease hlt h1⟩

theorem init_message_xid_range_witness :
    0 < (initMessageDevice sampleEnv sampleDevice NI_DHCP6_SOLICIT none).xid
    ∧ (initMessageDevice sampleEnv sampleDevice NI_DHCP6_SOLICIT none).xid < 2 ^ 24 :=
  (init_message_xid_range sampleDevice (Reachable.new sampleEnv [] (some "eth0") sampleLink)).1
    sampleEnv NI_DHCP6_SOLICIT none
    (initMessageDevice sampleEnv sampleDevice NI_DHCP6_SOLICIT none) (by rfl)

/-- A device that holds a nonzero transaction id keeps it in every call of
`ni_dhcp6_init_message`: no random number is assigned. -/
theorem init_message_keeps_nonzero_xid (env : Env) (dev dev1 : ni_dhcp6_device_t)
    (msg_code : Nat) (lease : Option ni_addrconf_lease_t) (rv : Int) (hx : dev.xid ≠ 0)
    (h : ni_dhcp6_init_message env dev msg_code lease = some (rv, dev1)) :
    dev1.xid = dev.xid := by
  rcases init_message_cases env dev dev1 msg_code lease rv h with ⟨-, h1⟩ | ⟨h1, -⟩
  · exact h1
  · exact (xid_loop_result env.rand env.fuel 0 dev.xid dev1.xid h1).2.1 hx

/-- C8: a first `ni_dhcp6_acquire` draws the transaction id `0xabcdef`.  A
second `ni_dhcp6_acquire` on the resulting device, in an environment whose
next random draw is `0x654321`, succeeds and sends its Solicit with the id
still `0xabcdef`: the previous value is kept, no fresh draw is assigned. -/
theorem acquire_keeps_previous_xid :
    (ni_dhcp6_acquire sampleEnv sampleDevice sampleRequest).map
        (fun r => (r.rv, r.dev.xid)) = some (0, 0xabcdef)
    ∧ freshEnv.rand 0 &&& NI_DHCP6_XID_MASK = 0x654321
    ∧ ((ni_dhcp6_acquire sampleEnv sampleDevice sampleRequest).bind
        (fun r => ni_dhcp6_acquire freshEnv r.dev sampleRequest)).map
        (fun r => (r.rv, r.dev.xid, r.sent.map (fun pkt => pkt.data)))
      = some (0, 0xabcdef, [[NI_DHCP6_SOLICIT, 0xab, 0xcd, 0xef]]) := by
  refine ⟨by decide, by decide, by decide!⟩

/-! ## The destination of a message -/

/-- C9 (counterexample): for a Request and a lease whose server unicast
address `2001:db8::2` is neither unspecified nor multicast nor loopback,
`ni_dhcp6_device_can_send_unicast` returns FALSE and a successful
`ni_dhcp6_init_message` sets the destination to `FF02::1:2`, not to the
address of the lease. -/
theorem unicast_not_chosen_for_request :
    spec_unicast_permitted NI_DHCP6_REQUEST (some unicastLease) = true
    ∧ ni_dhcp6_device_can_send_unicast solicitDevice NI_DHCP6_REQUEST (some unicastLease) = false
    ∧ (ni_dhcp6_init_message sampleEnv solicitDevice NI_DHCP6_REQUEST (some unicastLease)).map
        (fun r => (r.1, r.2.server_addr.sin6_addr)) = some (0, NI_DHCP6_ALL_RAGENTS)
    ∧ NI_DHCP6_ALL_RAGENTS ≠ unicastLease.server_unicast := by
  refine ⟨by decide, by decide, by decide, by decide⟩

/-- C9 (as amended): `ni_dhcp6_device_can_send_unicast` returns FALSE for
every device, message type and lease, and every successful
`ni_dhcp6_init_message` sets the destination address to `FF02::1:2`; the
server unicast address of the lease is never chosen. -/
theorem unicast_never_chosen (env : Env) (dev : ni_dhcp6_device_t) (msg_code : Nat)
    (lease : Option ni_addrconf_lease_t) :
    ni_dhcp6_device_can_send_unicast dev msg_code lease = false
    ∧ (∀ dev1, ni_dhcp6_init_message env dev msg_code lease = some (0, dev1) →
        dev1.server_addr.sin6_addr = NI_DHCP6_ALL_RAGENTS) := by
  refine ⟨rfl, ?_⟩
  intro dev1 h
  rcases init_message_cases env dev dev1 msg_code lease 0 h with ⟨h1, -⟩ | ⟨-, h2⟩
  · exact absurd h1 (by decide)
  · rw [(h2 rfl).1]

theorem unicast_never_chosen_witness :
    (initMessageDevice sampleEnv solicitDevice NI_DHCP6_REQUEST
        (some unicastLease)).server_addr.sin6_addr = NI_DHCP6_ALL_RAGENTS :=
  (unicast_never_chosen sampleEnv solicitDevice NI_DHCP6_REQUEST (some unicastLease)).2
    (initMessageDevice sampleEnv solicitDevice NI_DHCP6_REQUEST (some unicastLease)) (by rfl)

/-- C10: after a successful `ni_dhcp6_init_message`, for every message type
and lease, `server_addr` has family `AF_INET6`, the port bytes `02 23` (547 in
network byte order), the scope id of the device's interface index (which the
call leaves unchanged), the address `FF02::1:2`, and zero in every other
byte. -/
theorem init_message_multicast_destination (env : Env) (dev dev1 : ni_dhcp6_device_t)
    (msg_code : Nat) (lease : Option ni_addrconf_lease_t)
    (h : ni_dhcp6_init_message env dev msg_code lease = some (0, dev1)) :
    ni_dhcp6_device_can_send_unicast dev msg_code lease = false
    ∧ dev1.server_addr.sin6_family = AF_INET6
    ∧ dev1.server_addr.sin6_port = [0x02, 0x23]
    ∧ dev1.server_addr.sin6_port = htons 547
    ∧ dev1.server_addr.sin6_scope_id = dev1.link.ifindex
    ∧ dev1.link.ifindex = dev.link.ifindex
    ∧ dev1.server_addr.sin6_addr
        = [0xff, 0x02, 0, 0, 0, 0, 0, 0, 0, 0, 0, 0, 0, 0x01, 0, 0x02]
    ∧ dev1.server_addr.sin6_flowinfo = 0
    ∧ dev1.server_addr.pad.length = dev.server_addr.pad.length
    ∧ (∀ b ∈ dev1.server_addr.pad, b = 0) := by
  rcases init_message_cases env dev dev1 msg_code lease 0 h with ⟨h1, -⟩ | ⟨-, h2⟩
  · exact absurd h1 (by decide)
  · obtain ⟨hsa, hlink⟩ := h2 rfl
    rw [hsa, hlink]
    have hport : htons NI_DHCP6_SERVER_PORT = [0x02, 0x23] := by decide
    have hport1 : htons NI_DHCP6_SERVER_PORT = htons 547 := rfl
    refine ⟨rfl, rfl, hport, hport1, rfl, rfl, rfl, rfl, by simp, ?_⟩
    intro b hb
    exact List.eq_of_mem_replicate hb

theorem init_message_multicast_destination_witness :
    ni_dhcp6_device_can_send_unicast sampleDevice NI_DHCP6_INFO_REQUEST (some unicastLease) = false
    ∧ (initMessageDevice sampleEnv sampleDevice NI_DHCP6_INFO_REQUEST
        (some unicastLease)).server_addr.sin6_family = AF_INET6
    ∧ (initMessageDevice sampleEnv sampleDevice NI_DHCP6_INFO_REQUEST
        (some unicastLease)).server_addr.sin6_port = [0x02, 0x23]
    ∧ (initMessageDevice sampleEnv sampleDevice NI_DHCP6_INFO_REQUEST
        (some unicastLease)).server_addr.sin6_port = htons 547
    ∧ (initMessageDevice sampleEnv sampleDevice NI_DHCP6_INFO_REQUEST
        (some unicastLease)).server_addr.sin6_scope_id
        = (initMessageDevice sampleEnv sampleDevice NI_DHCP6_INFO_REQUEST
            (some unicastLease)).link.ifindex
    ∧ (initMessageDevice sampleEnv sampleDevice NI_DHCP6_INFO_REQUEST
        (some unicastLease)).link.ifindex = sampleDevice.link.ifindex
    ∧ (initMessageDevice sampleEnv sampleDevice NI_DHCP6_INFO_REQUEST
        (some unicastLease)).server_addr.sin6_addr
        = [0xff, 0x02, 0, 0, 0, 0, 0, 0, 0, 0, 0, 0, 0, 0x01, 0, 0x02]
    ∧ (initMessageDevice sampleEnv sampleDevice NI_DHCP6_INFO_REQUEST
        (some unicastLease)).server_addr.sin6_flowinfo = 0
    ∧ (initMessageDevice sampleEnv sampleDevice NI_DHCP6_INFO_REQUEST
        (some unicastLease)).server_addr.pad.length = sampleDevice.server_addr.pad.length
    ∧ (∀ b ∈ (initMessageDevice sampleEnv sampleDevice NI_DHCP6_INFO_REQUEST
        (some unicastLease)).server_addr.pad, b = 0) :=
  init_message_multicast_destination sampleEnv sampleDevice
    (initMessageDevice sampleEnv sampleDevice NI_DHCP6_INFO_REQUEST (some unicastLease))
    NI_DHCP6_INFO_REQUEST (some unicastLease) (by rfl)

/-! ## DUID resolution -/

/-- The function `ni_dhcp6_init_duid` on an empty DUID, as a cascade over its
four sources. -/
theorem init_duid_eq (env : Env) (dev : ni_dhcp6_device_t) (preferred : Option String) :
    ni_dhcp6_init_duid env [] dev preferred =
      if init_duid_preferred env preferred ≠ [] then
        (true, init_duid_preferred env preferred, [init_duid_preferred env preferred])
      else if (ni_dhcp6_config_default_duid env []).2 ≠ [] then
        (true, (ni_dhcp6_config_default_duid env []).2, [(ni_dhcp6_config_default_duid env []).2])
      else if (env.load_duid []).2 ≠ [] then
        (true, (env.load_duid []).2, if (env.load_duid []).1 = 0 then [] else [(env.load_duid []).2])
      else
        (decide (ni_dhcp6_generate_duid env [] dev ≠ []), ni_dhcp6_generate_duid env [] dev,
          if ni_dhcp6_generate_duid env [] dev ≠ [] ∧ (env.load_duid []).1 ≠ 0
            then [ni_dhcp6_generate_duid env [] dev] else []) := by
  have hp : (match preferred with
      | some str => (env.duid_parse_hex [] str).2
      | none => []) = init_duid_preferred env preferred := rfl
  unfold ni_dhcp6_init_duid
  simp only [hp]
  by_cases h1 : init_duid_preferred env preferred = []
  · simp only [h1, List.length_nil, beq_self_eq_true, if_true, ne_eq, not_true_eq_false, if_false]
    by_cases h2 : (ni_dhcp6_config_default_duid env []).2 = []
    · simp only [h2, List.length_nil, beq_self_eq_true, if_true, ne_eq, not_true_eq_false, if_false]
      by_cases h3 : (env.load_duid []).2 = []
      · simp only [h3, List.length_nil, beq_self_eq_true, if_true, ne_eq, not_true_eq_false,
          if_false]
        by_cases h4 : ni_dhcp6_generate_duid env [] dev = []
        · simp [h4]
        · have h4' : (ni_dhcp6_generate_duid env [] dev).length ≠ 0 := by
            simpa [List.length_eq_zero] using h4
          by_cases h5 : (env.load_duid []).1 = 0
          · simp [h4, h4', h5, Nat.pos_of_ne_zero h4']
          · simp [h4, h4', h5, Nat.pos_of_ne_zero h4']
      · have h3' : (env.load_duid []).2.length ≠ 0 := by
          simpa [List.length_eq_zero] using h3
        by_cases h5 : (env.load_duid []).1 = 0
        · simp [h3, h3', h5, Nat.pos_of_ne_zero h3']
        · simp [h3, h3', h5, Nat.pos_of_ne_zero h3']
    · have h2' : (ni_dhcp6_config_default_duid env []).2.length ≠ 0 := by
        simpa [List.length_eq_zero] using h2
      simp [h2, h2', Nat.pos_of_ne_zero h2']
  · have h1' : (init_duid_preferred env preferred).length ≠ 0 := by
      simpa [List.length_eq_zero] using h1
    simp [h1, h1', Nat.pos_of_ne_zero h1']

/-- The first step reads the hex parser only. -/
theorem init_duid_preferred_congr (env env1 : Env) (preferred : Option String)
    (h : env1.duid_parse_hex = env.duid_parse_hex) :
    init_duid_preferred env1 preferred = init_duid_preferred env preferred := by
  unfold init_duid_preferred
  rw [h]

/-- The configured default reads the hex parser and the configuration only. -/
theorem config_default_duid_congr (env env1 : Env) (duid : List Nat)
    (h : env1.duid_parse_hex = env.duid_parse_hex)
    (hc : env1.config.default_duid = env.config.default_duid) :
    ni_dhcp6_config_default_duid env1 duid = ni_dhcp6_config_default_duid env duid := by
  unfold ni_dhcp6_config_default_duid
  rw [h, hc]

/-- The configured default, called on an empty DUID, leaves in it what the
hex parser makes of the configured string, and leaves it empty when no
string is configured or the string is empty. -/
theorem config_default_duid_empty (env : Env) :
    (∀ str : String, env.config.default_duid = some str → str.isEmpty = false →
      (ni_dhcp6_config_default_duid env []).2 = (env.duid_parse_hex [] str).2)
    ∧ ((∀ str : String, env.config.default_duid = some str → str.isEmpty = false →
        (env.duid_parse_hex [] str).2 = []) →
      (ni_dhcp6_config_default_duid env []).2 = []) := by
  unfold ni_dhcp6_config_default_duid
  constructor
  · intro str hs he
    simp only [hs, he, Bool.false_eq_true, if_false]
    split <;> rfl
  · intro h
    cases hd : env.config.default_duid with
    | none => rfl
    | some str =>
      by_cases he : str.isEmpty = true
      · simp [he]
      · have he1 : str.isEmpty = false := by simpa using he
        have := h str hd he1
        simp only [he1, Bool.false_eq_true, if_false]
        split <;> exact this

/-- C11: `ni_dhcp6_init_duid`, called with an empty DUID, yields the DUID of
the first source that produces bytes, in the order preferred hex string
(what `ni_duid_parse_hex` makes of `preferred`), configured default (what
`ni_duid_parse_hex` makes of the non-empty string `default_duid` of the
configuration), persistent file (`ni_dhcp6_load_duid`), generation
(`ni_dhcp6_generate_duid`).  Once a source produced bytes the outcome is the
same whatever the later sources (and the device) are: they are not consulted.
The return value is TRUE exactly when the resulting DUID is non-empty. -/
theorem init_duid_resolution_order (env : Env) (dev : ni_dhcp6_device_t)
    (preferred : Option String) :
    (∀ pref : String, preferred = some pref → (env.duid_parse_hex [] pref).2 ≠ [] →
      (ni_dhcp6_init_duid env [] dev preferred).2.1 = (env.duid_parse_hex [] pref).2
      ∧ ∀ (env1 : Env) (dev1 : ni_dhcp6_device_t),
          env1.duid_parse_hex = env.duid_parse_hex →
          ni_dhcp6_init_duid env1 [] dev1 preferred = ni_dhcp6_init_duid env [] dev preferred)
    ∧ ((∀ pref : String, preferred = some pref → (env.duid_parse_hex [] pref).2 = []) →
      ∀ str : String, env.config.default_duid = some str → str.isEmpty = false →
      (env.duid_parse_hex [] str).2 ≠ [] →
      (ni_dhcp6_init_duid env [] dev preferred).2.1 = (env.duid_parse_hex [] str).2
      ∧ ∀ (env1 : Env) (dev1 : ni_dhcp6_device_t),
          env1.duid_parse_hex = env.duid_parse_hex →
          env1.config.default_duid = env.config.default_duid →
          ni_dhcp6_init_duid env1 [] dev1 preferred = ni_dhcp6_init_duid env [] dev preferred)
    ∧ ((∀ pref : String, preferred = some pref → (env.duid_parse_hex [] pref).2 = []) →
      (∀ str : String, env.config.default_duid = some str → str.isEmpty = false →
        (env.duid_parse_hex [] str).2 = []) →
      (env.load_duid []).2 ≠ [] →
      (ni_dhcp6_init_duid env [] dev preferred).2.1 = (env.load_duid []).2
      ∧ ∀ (env1 : Env) (dev1 : ni_dhcp6_device_t),
          env1.duid_parse_hex = env.duid_parse_hex →
          env1.config.default_duid = env.config.default_duid →
          env1.load_duid = env.load_duid →
          ni_dhcp6_init_duid env1 [] dev1 preferred = ni_dhcp6_init_duid env [] dev preferred)
    ∧ ((∀ pref : String, preferred = some pref → (env.duid_parse_hex [] pref).2 = []) →
      (∀ str : String, env.config.default_duid = some str → str.isEmpty = false →
        (env.duid_parse_hex [] str).2 = []) →
      (env.load_duid []).2 = [] →
      (ni_dhcp6_init_duid env [] dev preferred).2.1 = ni_dhcp6_generate_duid env [] dev)
    ∧ ((ni_dhcp6_init_duid env [] dev preferred).1 = true
        ↔ (ni_dhcp6_init_duid env [] dev preferred).2.1 ≠ []) := by
  have hpref : (∀ pref : String, preferred = some pref → (env.duid_parse_hex [] pref).2 = []) →
      init_duid_preferred env preferred = [] := by
    intro h
    cases hp : preferred with
    | none => rfl
    | some pref => exact h pref hp
  refine ⟨?_, ?_, ?_, ?_, ?_⟩
  · intro pref hpr h0
    have h1 : init_duid_preferred env preferred ≠ [] := by
      rw [hpr]; exact h0
    have h1eq : init_duid_preferred env preferred = (env.duid_parse_hex [] pref).2 := by
      rw [hpr]; rfl
    refine ⟨by rw [init_duid_eq, if_pos h1, h1eq], ?_⟩
    intro env1 dev1 hp
    have e1 := init_duid_preferred_congr env env1 preferred hp
    rw [init_duid_eq, init_duid_eq, e1]
    simp [h1]
  · intro h0 str hs he hne
    have h1 := hpref h0
    have h2eq := (config_default_duid_empty env).1 str hs he
    have h2 : (ni_dhcp6_config_default_duid env []).2 ≠ [] := by
      rw [h2eq]; exact hne
    refine ⟨by rw [init_duid_eq, if_neg (not_not.mpr h1), if_pos h2, h2eq], ?_⟩
    intro env1 dev1 hp hc
    have e1 := init_duid_preferred_congr env env1 preferred hp
    have e2 := config_default_duid_congr env env1 [] hp hc
    rw [init_duid_eq, init_duid_eq, e1, e2]
    simp [h1, h2]
  · intro h0 hcfg h3
    have h1 := hpref h0
    have h2 := (config_default_duid_empty env).2 hcfg
    refine ⟨by rw [init_duid_eq]; simp [h1, h2, h3], ?_⟩
    intro env1 dev1 hp hc hl
    have e1 := init_duid_preferred_congr env env1 preferred hp
    have e2 := config_default_duid_congr env env1 [] hp hc
    rw [init_duid_eq, init_duid_eq, e1, e2, hl]
    simp [h1, h2, h3]
  · intro h0 hcfg h3
    have h1 := hpref h0
    have h2 := (config_default_duid_empty env).2 hcfg
    rw [init_duid_eq]; simp [h1, h2, h3]
  · rw [init_duid_eq]
    by_cases h1 : init_duid_preferred env preferred = []
    · by_cases h2 : (ni_dhcp6_config_default_duid env []).2 = []
      · by_cases h3 : (env.load_duid []).2 = []
        · simp [h1, h2, h3]
        · simp [h1, h2, h3]
      · simp [h1, h2]
    · simp [h1]

/-- C11, on sample values, one for each source: a preferred hex string that
parses; a preferred string that does not parse and a configured default that
does; a configured default that does not parse and a DUID in the persistent
file; nothing but generation. -/
theorem init_duid_resolution_order_witness :
    (ni_dhcp6_init_duid hexEnv [] sampleDevice (some "00030001020000000001")).2.1 = hexDuid
    ∧ (ni_dhcp6_init_duid configuredEnv [] sampleDevice (some "xyz")).2.1 = hexDuid
    ∧ (ni_dhcp6_init_duid storedEnv [] sampleDevice none).2.1 = storedDuid
    ∧ (ni_dhcp6_init_duid sampleEnv [] sampleDevice none).2.1
        = ni_dhcp6_generate_duid sampleEnv [] sampleDevice
    ∧ ni_dhcp6_generate_duid sampleEnv [] sampleDevice ≠ []
    ∧ hexDuid ≠ storedDuid :=
  ⟨((init_duid_resolution_order hexEnv sampleDevice (some "00030001020000000001")).1
      "00030001020000000001" rfl (by decide)).1,
   ((init_duid_resolution_order configuredEnv sampleDevice (some "xyz")).2.1
      (fun pref hp => by cases hp; decide)
      "00030001020000000001" rfl (by decide) (by decide)).1,
   ((init_duid_resolution_order storedEnv sampleDevice none).2.2.1
      (fun pref hp => by cases hp)
      (fun str hs _ => by cases hs; decide) (by decide)).1,
   (init_duid_resolution_order sampleEnv sampleDevice none).2.2.2.1
      (fun pref hp => by cases hp)
      (fun str hs _ => by cases hs) (by decide),
   by decide, by decide⟩

/-- C12 (counterexample): the DUID is supplied by the caller as the preferred
hex string, and `ni_dhcp6_init_duid` hands it to `ni_dhcp6_save_duid`. -/
theorem init_duid_saves_preferred :
    init_duid_preferred hexEnv (some "00030001020000000001") = hexDuid
    ∧ ni_dhcp6_init_duid hexEnv [] sampleDevice (some "00030001020000000001")
        = (true, hexDuid, [hexDuid])
    ∧ (ni_dhcp6_init_duid hexEnv [] sampleDevice (some "00030001020000000001")).2.2 ≠ [] := by
  decide

/-- C12 (as amended): `ni_dhcp6_init_duid` hands the resulting DUID to
`ni_dhcp6_save_duid` when it came from the preferred hex string or from the
configured default, and when it was generated after `ni_dhcp6_load_duid`
failed; a DUID that `ni_dhcp6_load_duid` loaded is not saved, and nothing is
saved when no DUID was obtained. -/
theorem init_duid_save_conditions (env : Env) (dev : ni_dhcp6_device_t)
    (preferred : Option String) :
    (init_duid_preferred env preferred ≠ [] →
      (ni_dhcp6_init_duid env [] dev preferred).2.2 = [init_duid_preferred env preferred])
    ∧ (init_duid_preferred env preferred = [] →
      (ni_dhcp6_config_default_duid env []).2 ≠ [] →
      (ni_dhcp6_init_duid env [] dev preferred).2.2 = [(ni_dhcp6_config_default_duid env []).2])
    ∧ (init_duid_preferred env preferred = [] →
      (ni_dhcp6_config_default_duid env []).2 = [] →
      (env.load_duid []).1 = 0 → (env.load_duid []).2 ≠ [] →
      (ni_dhcp6_init_duid env [] dev preferred).2.1 = (env.load_duid []).2
      ∧ (ni_dhcp6_init_duid env [] dev preferred).2.2 = [])
    ∧ (init_duid_preferred env preferred = [] →
      (ni_dhcp6_config_default_duid env []).2 = [] →
      (env.load_duid []).1 ≠ 0 → (env.load_duid []).2 = [] →
      ni_dhcp6_generate_duid env [] dev ≠ [] →
      (ni_dhcp6_init_duid env [] dev preferred).2.1 = ni_dhcp6_generate_duid env [] dev
      ∧ (ni_dhcp6_init_duid env [] dev preferred).2.2 = [ni_dhcp6_generate_duid env [] dev])
    ∧ ((ni_dhcp6_init_duid env [] dev preferred).2.1 = [] →
      (ni_dhcp6_init_duid env [] dev preferred).2.2 = []) := by
  rw [init_duid_eq]
  refine ⟨?_, ?_, ?_, ?_, ?_⟩
  · intro h1; simp [h1]
  · intro h1 h2; simp [h1, h2]
  · intro h1 h2 h3 h4; simp [h1, h2, h3, h4]
  · intro h1 h2 h3 h4 h5; simp [h1, h2, h3, h4, h5]
  · by_cases h1 : init_duid_preferred env preferred = []
    · by_cases h2 : (ni_dhcp6_config_default_duid env []).2 = []
      · by_cases h3 : (env.load_duid []).2 = []
        · simp only [h1, h2, h3, ne_eq, not_true_eq_false, if_false]
          intro h4
          simp [h4]
        · simp [h1, h2, h3]
      · simp [h1, h2]
    · simp [h1]

theorem init_duid_save_conditions_witness :
    (ni_dhcp6_init_duid sampleEnv [] sampleDevice none).2.1
        = ni_dhcp6_generate_duid sampleEnv [] sampleDevice
    ∧ (ni_dhcp6_init_duid sampleEnv [] sampleDevice none).2.2
        = [ni_dhcp6_generate_duid sampleEnv [] sampleDevice] :=
  (init_duid_save_conditions sampleEnv sampleDevice none).2.2.2.1
    (by decide) (by decide) (by decide) (by decide) (by decide)

/-- The loop over the interfaces does nothing for a device without a hardware
address. -/
theorem generate_duid_scan_without_hwaddr (env : Env) (dev : ni_dhcp6_device_t)
    (h : dev.link.hwaddr.data = []) :
    ∀ (arp_types : List Nat) (duid : List Nat),
      ni_dhcp6_generate_duid_scan env dev arp_types duid = (none, duid) := by
  intro arp_types
  induction arp_types with
  | nil => intro duid; rfl
  | cons a rest ih =>
    intro duid
    unfold ni_dhcp6_generate_duid_scan
    simp [h, ih]

/-- A device without a hardware address gets a DUID-UUID whatever interfaces
the system knows: the loop over the interfaces tests the hardware address of
the device, not that of the interface at hand. -/
theorem generate_duid_without_hwaddr (env : Env) (dev : ni_dhcp6_device_t) (duid : List Nat)
    (h : dev.link.hwaddr.data = []) :
    ni_dhcp6_generate_duid env duid dev = env.duid_init_uuid duid env.uuid_generate := by
  unfold ni_dhcp6_generate_duid
  simp [h, generate_duid_scan_without_hwaddr env dev h]

/-- C13: the system knows an Ethernet interface, for whose hardware address a
DUID-LLT could be built, and the requesting device has an empty hardware
address; `ni_dhcp6_generate_duid` yields the DUID-UUID (type 4) and no
DUID-LLT.  For the sample device, which has a hardware address of its own,
the DUID-LLT (type 1) is built from that address. -/
theorem generate_duid_ignores_interfaces :
    sampleEnv.netdev_arp_types = [ARPHRD_ETHER]
    ∧ noHwDevice.link.hwaddr.data = []
    ∧ ni_dhcp6_generate_duid sampleEnv [] noHwDevice
        = sampleEnv.duid_init_uuid [] sampleEnv.uuid_generate
    ∧ ni_dhcp6_generate_duid sampleEnv [] noHwDevice = [0, 4] ++ List.replicate 16 1
    ∧ ni_dhcp6_generate_duid sampleEnv [] sampleDevice = [0, 1, 0, 1, 2, 0, 0, 0, 0, 1] := by
  decide

/-! ## Acquire -/

/-- The function `ni_dhcp6_acquire` past refresh and DUID resolution: it
installs the config, initialises the message and goes on with the result. -/
theorem acquire_after_config (env : Env) (dev : ni_dhcp6_device_t) (info : ni_dhcp6_request_t)
    (hrefresh : ¬ (ni_dhcp6_device_refresh env dev).1 < 0)
    (hduid : (ni_dhcp6_init_duid env [] (ni_dhcp6_device_refresh env dev).2 info.clientid).1
      = true) :
    ni_dhcp6_acquire env dev info
      = acquire_finish env
          (ni_dhcp6_init_duid env [] (ni_dhcp6_device_refresh env dev).2 info.clientid).2.2
          (ni_dhcp6_init_message env (acquire_configured env dev info)
            (acquire_msg_code info) none) := by
  unfold ni_dhcp6_acquire
  simp only [hrefresh, hduid, if_false, Bool.not_true, Bool.false_eq_true]
  rfl

/-- A failing `ni_dhcp6_device_refresh` returns -1 and leaves the device
untouched. -/
theorem refresh_failure (env : Env) (dev : ni_dhcp6_device_t)
    (h : (ni_dhcp6_device_refresh env dev).1 < 0) :
    ni_dhcp6_device_refresh env dev = (-1, dev) := by
  unfold ni_dhcp6_device_refresh at h ⊢
  repeat' split at h
  all_goals first
    | rfl
    | (exact absurd h (by simp))

/-- The function `ni_dhcp6_device_refresh` writes the cached source address
only. -/
theorem refresh_frame (env : Env) (dev : ni_dhcp6_device_t) :
    (ni_dhcp6_device_refresh env dev).2
      = { dev with client_addr := (ni_dhcp6_device_refresh env dev).2.client_addr } := by
  unfold ni_dhcp6_device_refresh
  repeat' split
  all_goals rfl

/-- The loop over the interfaces reads the link of the device only. -/
theorem generate_duid_scan_congr (env : Env) (dev dev1 : ni_dhcp6_device_t)
    (h : dev1.link = dev.link) :
    ∀ (arp_types : List Nat) (duid : List Nat),
      ni_dhcp6_generate_duid_scan env dev1 arp_types duid
        = ni_dhcp6_generate_duid_scan env dev arp_types duid := by
  intro arp_types
  induction arp_types with
  | nil => intro duid; rfl
  | cons a rest ih =>
    intro duid
    unfold ni_dhcp6_generate_duid_scan
    simp only [h, ih]

/-- The DUID resolution reads the link of the device only. -/
theorem init_duid_congr (env : Env) (dev dev1 : ni_dhcp6_device_t) (duid : List Nat)
    (preferred : Option String) (h : dev1.link = dev.link) :
    ni_dhcp6_init_duid env duid dev1 preferred = ni_dhcp6_init_duid env duid dev preferred := by
  have hg : ∀ d, ni_dhcp6_generate_duid env d dev1 = ni_dhcp6_generate_duid env d dev := by
    intro d
    unfold ni_dhcp6_generate_duid
    simp only [h, generate_duid_scan_congr env dev dev1 h]
  unfold ni_dhcp6_init_duid
  simp only [hg]

/-- When no DUID is obtained nothing is handed to `ni_dhcp6_save_duid`. -/
theorem init_duid_failure_saves_nothing (env : Env) (dev : ni_dhcp6_device_t)
    (preferred : Option String)
    (h : (ni_dhcp6_init_duid env [] dev preferred).1 = false) :
    (ni_dhcp6_init_duid env [] dev preferred).2.2 = [] := by
  rw [init_duid_eq] at h ⊢
  by_cases h1 : init_duid_preferred env preferred = []
  · by_cases h2 : (ni_dhcp6_config_default_duid env []).2 = []
    · by_cases h3 : (env.load_duid []).2 = []
      · simp only [h1, h2, h3, ne_eq, not_true_eq_false, if_false] at h ⊢
        have h4 : ni_dhcp6_generate_duid env [] dev = [] := by simpa using h
        simp [h4]
      · simp [h1, h2, h3] at h
    · simp [h1, h2] at h
  · simp [h1] at h

/-- C14: when `ni_dhcp6_device_refresh` fails, or when it succeeds and no
client DUID is obtained, `ni_dhcp6_acquire` returns a negative value; nothing
is sent or saved, the socket is the one held before, and transaction id,
message buffer, server address, retransmission state, `tx_counter`, timer and
config are as before the call. -/
theorem acquire_configuration_failure (env : Env) (dev : ni_dhcp6_device_t)
    (info : ni_dhcp6_request_t)
    (h : (ni_dhcp6_device_refresh env dev).1 < 0
      ∨ (ni_dhcp6_init_duid env [] dev info.clientid).1 = false) :
    ni_dhcp6_acquire env dev info
      = some { rv := -1, dev := (ni_dhcp6_device_refresh env dev).2, sent := [], saved := [] }
    ∧ (ni_dhcp6_device_refresh env dev).2.sock = dev.sock
    ∧ (ni_dhcp6_device_refresh env dev).2.xid = dev.xid
    ∧ (ni_dhcp6_device_refresh env dev).2.message = dev.message
    ∧ (ni_dhcp6_device_refresh env dev).2.server_addr = dev.server_addr
    ∧ (ni_dhcp6_device_refresh env dev).2.retrans = dev.retrans
    ∧ (ni_dhcp6_device_refresh env dev).2.tx_counter = dev.tx_counter
    ∧ (ni_dhcp6_device_refresh env dev).2.tx_delay = dev.tx_delay
    ∧ (ni_dhcp6_device_refresh env dev).2.fsm = dev.fsm
    ∧ (ni_dhcp6_device_refresh env dev).2.config = dev.config := by
  refine ⟨?_, ?_, ?_, ?_, ?_, ?_, ?_, ?_, ?_, ?_⟩
  · by_cases hr : (ni_dhcp6_device_refresh env dev).1 < 0
    · have hf := refresh_failure env dev hr
      unfold ni_dhcp6_acquire
      simp [hf]
    · have hd : (ni_dhcp6_init_duid env [] dev info.clientid).1 = false := by
        rcases h with h | h
        · exact absurd h hr
        · exact h
      have hlink : (ni_dhcp6_device_refresh env dev).2.link = dev.link := by
        rw [refresh_frame]
      have hc := init_duid_congr env dev (ni_dhcp6_device_refresh env dev).2 [] info.clientid
        hlink
      have hs := init_duid_failure_saves_nothing env dev info.clientid hd
      unfold ni_dhcp6_acquire
      simp [hr, hc, hd, hs]
  all_goals rw [refresh_frame]

theorem acquire_configuration_failure_witness :
    (ni_dhcp6_acquire noNetEnv expiredDevice sampleRequest
        = some { rv := -1, dev := (ni_dhcp6_device_refresh noNetEnv expiredDevice).2,
                 sent := [], saved := [] }
      ∧ (ni_dhcp6_device_refresh noNetEnv expiredDevice).2.sock = expiredDevice.sock
      ∧ (ni_dhcp6_device_refresh noNetEnv expiredDevice).2.xid = expiredDevice.xid
      ∧ (ni_dhcp6_device_refresh noNetEnv expiredDevice).2.message = expiredDevice.message
      ∧ (ni_dhcp6_device_refresh noNetEnv expiredDevice).2.server_addr
          = expiredDevice.server_addr
      ∧ (ni_dhcp6_device_refresh noNetEnv expiredDevice).2.retrans = expiredDevice.retrans
      ∧ (ni_dhcp6_device_refresh noNetEnv expiredDevice).2.tx_counter
          = expiredDevice.tx_counter
      ∧ (ni_dhcp6_device_refresh noNetEnv expiredDevice).2.tx_delay = expiredDevice.tx_delay
      ∧ (ni_dhcp6_device_refresh noNetEnv expiredDevice).2.fsm = expiredDevice.fsm
      ∧ (ni_dhcp6_device_refresh noNetEnv expiredDevice).2.config = expiredDevice.config)
    ∧ ni_dhcp6_acquire noDuidEnv expiredDevice sampleRequest
        = some { rv := -1, dev := (ni_dhcp6_device_refresh noDuidEnv expiredDevice).2,
                 sent := [], saved := [] } :=
  ⟨acquire_configuration_failure noNetEnv expiredDevice sampleRequest (Or.inl (by decide)),
   (acquire_configuration_failure noDuidEnv expiredDevice sampleRequest
      (Or.inr (by decide))).1⟩

/-- What `ni_dhcp6_init_message` leaves alone, and what its message buffer
holds when the builder was reached: the bytes the builder emitted for the
message type, built on a device that carries the same config. -/
theorem init_message_frame (env : Env) (dev dev1 : ni_dhcp6_device_t) (msg_code : Nat)
    (lease : Option ni_addrconf_lease_t) (rv : Int)
    (h : ni_dhcp6_init_message env dev msg_code lease = some (rv, dev1)) :
    dev1.config = dev.config
    ∧ dev1.tx_counter = dev.tx_counter
    ∧ dev1.fsm = dev.fsm
    ∧ (rv ≠ 1 → ∃ d : ni_dhcp6_device_t,
        dev1.message = (env.build_message d msg_code lease).2
        ∧ d.config = dev.config ∧ d.message = []) := by
  unfold ni_dhcp6_init_message at h
  simp only [ni_dhcp6_device_can_send_unicast, ni_dhcp6_device_alloc_buffer] at h
  repeat' split at h
  all_goals first
    | (simp at h; done)
    | (simp only [Option.some.injEq, Prod.mk.injEq] at h
       obtain ⟨rfl, rfl⟩ := h
       refine ⟨rfl, rfl, rfl, ?_⟩
       intro hne
       first
         | (exact absurd rfl hne)
         | exact ⟨_, rfl, rfl, rfl⟩)

/-- The function `ni_dhcp6_device_transmit_arm_delay` in closed form: it
returns TRUE when the delay parameter and the jittered delay are both nonzero,
and then arms the timer with the jittered delay; otherwise `tx_delay` is 0. -/
theorem transmit_arm_delay_eq (env : Env) (dev : ni_dhcp6_device_t) :
    ni_dhcp6_device_transmit_arm_delay env dev =
      if dev.retrans.params.delay ≠ 0
          ∧ (dev.retrans.params.delay : Int)
              + env.delay_jitter dev.retrans.params.max_jitter dev.retrans.params.max_jitter ≠ 0 then
        (true,
          { dev with
            tx_counter := 0,
            tx_delay := (dev.retrans.params.delay : Int)
              + env.delay_jitter dev.retrans.params.max_jitter dev.retrans.params.max_jitter,
            fsm := { dev.fsm with
              timer := some (Int.toNat (((dev.retrans.params.delay : Int)
                + env.delay_jitter dev.retrans.params.max_jitter dev.retrans.params.max_jitter)
                % (ULONG_SIZE : Int))) } })
      else (false, { dev with tx_counter := 0, tx_delay := 0 }) := by
  unfold ni_dhcp6_device_transmit_arm_delay ni_dhcp6_fsm_set_timeout_msec ni_dhcp6_timeout_jitter
  by_cases h1 : dev.retrans.params.delay = 0
  · simp [h1]
  · by_cases h2 : (dev.retrans.params.delay : Int)
        + env.delay_jitter dev.retrans.params.max_jitter dev.retrans.params.max_jitter = 0
    · simp [h1, h2]
    · simp [h1, h2]

/-- What `ni_dhcp6_device_retransmit_arm` leaves alone. -/
theorem retransmit_arm_frame (env : Env) (dev : ni_dhcp6_device_t) :
    (ni_dhcp6_device_retransmit_arm env dev).message = dev.message
    ∧ (ni_dhcp6_device_retransmit_arm env dev).config = dev.config
    ∧ (ni_dhcp6_device_retransmit_arm env dev).tx_counter = dev.tx_counter := by
  unfold ni_dhcp6_device_retransmit_arm ni_dhcp6_fsm_set_timeout_msec
  dsimp only
  repeat' split
  all_goals exact ⟨rfl, rfl, rfl⟩

/-- What `ni_dhcp6_device_transmit_arm_delay` leaves alone. -/
theorem transmit_arm_delay_frame (env : Env) (dev : ni_dhcp6_device_t) :
    (ni_dhcp6_device_transmit_arm_delay env dev).2.message = dev.message
    ∧ (ni_dhcp6_device_transmit_arm_delay env dev).2.config = dev.config
    ∧ (ni_dhcp6_device_transmit_arm_delay env dev).2.retrans = dev.retrans
    ∧ (ni_dhcp6_device_transmit_arm_delay env dev).2.tx_counter = 0 := by
  rw [transmit_arm_delay_eq]
  split <;> exact ⟨rfl, rfl, rfl, rfl⟩

/-- The config and the message buffer `acquire_finish` ends with are those of
the device `ni_dhcp6_init_message` returned. -/
theorem acquire_finish_frame (env : Env) (saved : List (List Nat)) (rv : Int)
    (dev3 : ni_dhcp6_device_t) (r : AcquireResult)
    (h : acquire_finish env saved (some (rv, dev3)) = some r) :
    r.dev.config = dev3.config ∧ r.dev.message = dev3.message ∧ (r.rv ≠ 1 → rv ≠ 1) := by
  obtain ⟨hm, hc, -, -⟩ := transmit_arm_delay_frame env dev3
  obtain ⟨hm1, hc1, -⟩ :=
    retransmit_arm_frame env (ni_dhcp6_device_transmit_arm_delay env dev3).2
  unfold acquire_finish at h
  dsimp only at h
  repeat' split at h
  all_goals first
    | (simp at h; done)
    | (simp only [Option.some.injEq] at h
       subst h
       refine ⟨?_, ?_, ?_⟩
       · first
           | rfl
           | exact hc
           | (rw [hc1]; exact hc)
       · first
           | rfl
           | exact hm
           | (rw [hm1]; exact hm)
       · intro hne h1
         subst h1
         first
           | exact hne rfl
           | simp_all)

/-- Once a draw of `random()` within the draws followed has a nonzero masked
value, `ni_dhcp6_init_message` returns; when it returns 0 the device carries
the socket that was opened, and opening it had succeeded. -/
theorem init_message_produces (env : Env) (dev : ni_dhcp6_device_t) (msg_code : Nat)
    (lease : Option ni_addrconf_lease_t) (k : Nat)
    (hk : k < env.fuel) (hrand : env.rand k &&& NI_DHCP6_XID_MASK ≠ 0) :
    ∃ rv dev1, ni_dhcp6_init_message env dev msg_code lease = some (rv, dev1)
      ∧ (rv = 0 → dev1.sock = (env.socket_open dev).2 ∧ 0 ≤ (env.socket_open dev).1) := by
  obtain ⟨y, hy⟩ := xid_loop_terminates env.rand k hrand env.fuel 0 dev.xid (by omega) (by omega)
  unfold ni_dhcp6_init_message
  simp only [ni_dhcp6_device_can_send_unicast, ni_dhcp6_device_alloc_buffer, hy,
    Bool.false_eq_true, if_false]
  by_cases hopen : (env.socket_open dev).1 < 0
  · exact ⟨1, _, by rw [if_pos hopen], fun h => absurd h (by decide)⟩
  · rw [if_neg hopen]
    split
    · exact ⟨-1, _, rfl, fun h => absurd h (by decide)⟩
    · split
      · exact ⟨-1, _, rfl, fun h => absurd h (by decide)⟩
      · exact ⟨0, _, rfl, fun _ => ⟨rfl, not_lt.mp hopen⟩⟩

/-- With a socket on the device, `ni_dhcp6_device_transmit` has a result. -/
theorem transmit_produces (env : Env) (dev : ni_dhcp6_device_t) (hsock : dev.sock ≠ none) :
    ∃ res, ni_dhcp6_device_transmit env dev = some res := by
  unfold ni_dhcp6_device_transmit
  cases hs : dev.sock with
  | none => exact absurd hs hsock
  | some fd =>
    dsimp only
    repeat' split
    all_goals exact ⟨_, rfl⟩

/-- What `ni_dhcp6_acquire` does after `ni_dhcp6_init_message` has a result,
provided the device carries a socket when the message was initialised. -/
theorem acquire_finish_produces (env : Env) (saved : List (List Nat)) (rv : Int)
    (dev3 : ni_dhcp6_device_t) (hsock : rv = 0 → dev3.sock ≠ none) :
    ∃ r, acquire_finish env saved (some (rv, dev3)) = some r := by
  unfold acquire_finish
  dsimp only
  by_cases hrv : rv = 0
  · have hs : (ni_dhcp6_device_transmit_arm_delay env dev3).2.sock ≠ none := by
      have : (ni_dhcp6_device_transmit_arm_delay env dev3).2.sock = dev3.sock := by
        rw [transmit_arm_delay_eq]
        split <;> rfl
      rw [this]
      exact hsock hrv
    obtain ⟨res, hres⟩ :=
      transmit_produces env (ni_dhcp6_device_transmit_arm_delay env dev3).2 hs
    obtain ⟨rv1, sent⟩ := res
    simp only [hrv, bne_self_eq_false, Bool.false_eq_true, if_false, hres]
    split
    · exact ⟨_, rfl⟩
    · split
      · exact ⟨_, rfl⟩
      · exact ⟨_, rfl⟩
  · have : (rv != 0) = true := by simpa using hrv
    simp only [this, if_true]
    exact ⟨_, rfl⟩

/-- C15: for a request that passes refresh and DUID resolution
`ni_dhcp6_acquire` returns, provided a draw of `random()` within the draws
followed has a nonzero masked value and a socket that was opened with success
is set on the device.  The config installed in the device then has the
`info_only`, `rapid_commit`, `uuid` and `update` of the request;
`ni_dhcp6_init_message` is called for Information-Request when `info_only` is
set and for Solicit otherwise, and unless the socket could not be opened
(return value 1) the message buffer holds what the builder emitted for that
message type on a device carrying the installed config. -/
theorem acquire_installs_config (env : Env) (dev : ni_dhcp6_device_t)
    (info : ni_dhcp6_request_t) (k : Nat)
    (hrefresh : ¬ (ni_dhcp6_device_refresh env dev).1 < 0)
    (hduid : (ni_dhcp6_init_duid env [] (ni_dhcp6_device_refresh env dev).2 info.clientid).1
      = true)
    (hk : k < env.fuel) (hrand : env.rand k &&& NI_DHCP6_XID_MASK ≠ 0)
    (hsock : ∀ d : ni_dhcp6_device_t,
      0 ≤ (env.socket_open d).1 → (env.socket_open d).2 ≠ none) :
    ∃ r : AcquireResult, ni_dhcp6_acquire env dev info = some r
    ∧ (∃ c, r.dev.config = some c
      ∧ c.info_only = info.info_only ∧ c.rapid_commit = info.rapid_commit
      ∧ c.uuid = info.uuid ∧ c.update = info.update)
    ∧ (∃ rv dev3,
        ni_dhcp6_init_message env (acquire_configured env dev info)
          (if info.info_only then NI_DHCP6_INFO_REQUEST else NI_DHCP6_SOLICIT) none
          = some (rv, dev3)
        ∧ (acquire_configured env dev info).config = r.dev.config
        ∧ ni_dhcp6_acquire env dev info
          = acquire_finish env
              (ni_dhcp6_init_duid env [] (ni_dhcp6_device_refresh env dev).2 info.clientid).2.2
              (some (rv, dev3)))
    ∧ (r.rv ≠ 1 → ∃ d : ni_dhcp6_device_t,
        r.dev.message
          = (env.build_message d
              (if info.info_only then NI_DHCP6_INFO_REQUEST else NI_DHCP6_SOLICIT) none).2
        ∧ d.config = r.dev.config ∧ d.message = []) := by
  have hacq := acquire_after_config env dev info hrefresh hduid
  have hcode : acquire_msg_code info
      = (if info.info_only then NI_DHCP6_INFO_REQUEST else NI_DHCP6_SOLICIT) := rfl
  rw [hcode] at hacq
  obtain ⟨rv, dev3, hinit, hrv0⟩ := init_message_produces env (acquire_configured env dev info)
    (if info.info_only then NI_DHCP6_INFO_REQUEST else NI_DHCP6_SOLICIT) none k hk hrand
  have hs3 : rv = 0 → dev3.sock ≠ none := by
    intro h0
    obtain ⟨h1, h2⟩ := hrv0 h0
    rw [h1]
    exact hsock _ h2
  obtain ⟨r, hr⟩ := acquire_finish_produces env
    (ni_dhcp6_init_duid env [] (ni_dhcp6_device_refresh env dev).2 info.clientid).2.2
    rv dev3 hs3
  rw [hinit] at hacq
  obtain ⟨hc, hm, hrv⟩ := acquire_finish_frame env _ rv dev3 r hr
  obtain ⟨hc3, -, -, hmsg⟩ := init_message_frame env _ dev3 _ none rv hinit
  have hcfg : r.dev.config = (acquire_configured env dev info).config := by
    rw [hc, hc3]
  refine ⟨r, by rw [hacq, hr], ⟨_, hcfg, rfl, rfl, rfl, rfl⟩, ⟨rv, dev3, hinit, hcfg.symm, hacq⟩, ?_⟩
  intro hne
  obtain ⟨d, hd1, hd2, hd3⟩ := hmsg (hrv hne)
  exact ⟨d, by rw [hm, hd1], by rw [hd2, hcfg], hd3⟩

/-- C15, on sample values: a request for a stateless exchange and a request
for addresses both pass refresh and DUID resolution; acquire returns, with the
config of the request installed and the message built for
Information-Request and for Solicit. -/
theorem acquire_installs_config_witness :
    (∃ r : AcquireResult, ni_dhcp6_acquire sampleEnv sampleDevice infoRequest = some r
      ∧ (∃ c, r.dev.config = some c
        ∧ c.info_only = true ∧ c.rapid_commit = infoRequest.rapid_commit
        ∧ c.uuid = infoRequest.uuid ∧ c.update = 5)
      ∧ (r.rv ≠ 1 → ∃ d : ni_dhcp6_device_t,
          r.dev.message = (sampleEnv.build_message d NI_DHCP6_INFO_REQUEST none).2
          ∧ d.config = r.dev.config ∧ d.message = []))
    ∧ (∃ r : AcquireResult, ni_dhcp6_acquire sampleEnv sampleDevice sampleRequest = some r
      ∧ (∃ c, r.dev.config = some c
        ∧ c.info_only = false ∧ c.rapid_commit = sampleRequest.rapid_commit
        ∧ c.uuid = sampleRequest.uuid ∧ c.update = sampleRequest.update)
      ∧ (r.rv ≠ 1 → ∃ d : ni_dhcp6_device_t,
          r.dev.message = (sampleEnv.build_message d NI_DHCP6_SOLICIT none).2
          ∧ d.config = r.dev.config ∧ d.message = [])) := by
  constructor
  · obtain ⟨r, h, h1, -, h3⟩ := acquire_installs_config sampleEnv sampleDevice infoRequest 0
      (by decide) (by decide) (by decide) (by decide) (fun _ _ => Option.some_ne_none 7)
    exact ⟨r, h, h1, h3⟩
  · obtain ⟨r, h, h1, -, h3⟩ := acquire_installs_config sampleEnv sampleDevice sampleRequest 0
      (by decide) (by decide) (by decide) (by decide) (fun _ _ => Option.some_ne_none 7)
    exact ⟨r, h, h1, h3⟩

/-- A hardware address of more than four bytes gives its last four bytes as
IAID. -/
theorem iaid_long_hwaddr (big_endian : Bool) (tmp : List Nat) (dev : ni_dhcp6_device_t)
    (h : 4 < dev.link.hwaddr.data.length) :
    ni_dhcp6_device_iaid big_endian tmp dev
      = (0, (dev.link.hwaddr.data.drop (dev.link.hwaddr.data.length - 4)).take 4) := by
  unfold ni_dhcp6_device_iaid
  simp [h]

/-- A hardware address of at most four bytes is not looked at: the IAID is
derived from the interface name, the content of `tmp` and the interface
index. -/
theorem iaid_short_hwaddr (big_endian : Bool) (tmp : List Nat) (dev : ni_dhcp6_device_t)
    (h : dev.link.hwaddr.data.length ≤ 4) (hname : ni_string_len dev.ifname ≠ 0) :
    ni_dhcp6_device_iaid big_endian tmp dev
      = (0, xor_bytes
          (xor_bytes [0, 0, 0, 0]
            (((dev.ifname.map string_bytes).getD []).take (ni_string_len dev.ifname % 4)
              ++ tmp.drop (ni_string_len dev.ifname % 4)))
          (uint32_bytes big_endian (dev.link.ifindex % UINT_SIZE))) := by
  unfold ni_dhcp6_device_iaid
  have h1 : ¬ dev.link.hwaddr.data.length > 4 := by omega
  simp [h1, hname]

/-- C18: the hardware address of the device has exactly four bytes,
`0a 00 00 01`; `ni_dhcp6_device_iaid` returns 0 but does not take these bytes:
the IAID comes from the ifname/ifindex derivation (here, with the name `sit0`
of four bytes, from the content of `tmp` and the interface index 5).  A
hardware address of six bytes does give its last four bytes. -/
theorem iaid_four_byte_hwaddr :
    tunnelDevice.link.hwaddr.data = [10, 0, 0, 1]
    ∧ ni_dhcp6_device_iaid false [0, 0, 0, 0] tunnelDevice = (0, [5, 0, 0, 0])
    ∧ ni_dhcp6_device_iaid false [0xde, 0xad, 0xbe, 0xef] tunnelDevice
        = (0, [0xdb, 0xad, 0xbe, 0xef])
    ∧ (ni_dhcp6_device_iaid false [0, 0, 0, 0] tunnelDevice).2 ≠ [10, 0, 0, 1]
    ∧ sampleDevice.link.hwaddr.data = [2, 0, 0, 0, 0, 1]
    ∧ ni_dhcp6_device_iaid false [0xde, 0xad, 0xbe, 0xef] sampleDevice = (0, [0, 0, 0, 1]) := by
  decide

/-- C19: two calls of `ni_dhcp6_device_iaid` on the same device (`eth0`, index
3, no hardware address) return 0 with different IAIDs when the uninitialised
local `tmp` holds different bytes, and the IAID differs between hosts of
different byte order; for a name whose length is not a multiple of 4 (`eth`)
the bytes of `tmp` behind the copied prefix still show in the IAID. -/
theorem iaid_depends_on_uninitialised_bytes :
    namedDevice.ifname = some "eth0" ∧ namedDevice.link.ifindex = 3
    ∧ namedDevice.link.hwaddr.data = []
    ∧ ni_dhcp6_device_iaid false [0, 0, 0, 0] namedDevice = (0, [3, 0, 0, 0])
    ∧ ni_dhcp6_device_iaid false [1, 2, 3, 4] namedDevice = (0, [2, 2, 3, 4])
    ∧ ni_dhcp6_device_iaid true [0, 0, 0, 0] namedDevice = (0, [0, 0, 0, 3])
    ∧ ni_dhcp6_device_iaid false [0, 0, 0, 0] shortNamedDevice = (0, [0x66, 0x74, 0x68, 0])
    ∧ ni_dhcp6_device_iaid false [1, 2, 3, 4] shortNamedDevice = (0, [0x66, 0x74, 0x68, 4]) := by
  decide

/-- For normalised times the macro `timercmp(a, b, >)` compares the
microseconds. -/
theorem timercmp_gt_iff (a b : Timeval) (ha : timeval_normal a) (hb : timeval_normal b) :
    timercmp_gt a b = true ↔ timeval_usec b < timeval_usec a := by
  unfold timeval_normal at ha hb
  unfold timercmp_gt timeval_usec
  by_cases hs : a.tv_sec = b.tv_sec
  · simp [hs]
  · simp only [beq_iff_eq, hs, if_false, decide_eq_true_eq]
    constructor <;> intro h <;> omega

theorem long_wrap_eq (x : Int) (h0 : -(2 : Int) ^ 63 ≤ x) (h1 : x < (2 : Int) ^ 63) :
    long_wrap x = x := by
  unfold long_wrap
  have h2 : (x + 2 ^ 63) % 2 ^ 64 = x + 2 ^ 63 :=
    Int.emod_eq_of_lt (by omega) (by omega)
  omega

/-- For normalised times, the current time later than the start and the
elapsed time in hundredths of a second within `long`, the value the function
computes from `timersub` is that elapsed time. -/
theorem timersub_hundredths (now start : Timeval) (hn : timeval_normal now)
    (hs : timeval_normal start) (hlt : timeval_usec start < timeval_usec now)
    (hr : elapsed_hundredths now start < 2 ^ 63) :
    (timersub now start).tv_sec = (timeval_usec now - timeval_usec start) / 1000000
    ∧ (timersub now start).tv_usec = (timeval_usec now - timeval_usec start) % 1000000
    ∧ long_wrap ((timersub now start).tv_sec * 100
        + Int.tdiv (timersub now start).tv_usec 10000)
      = elapsed_hundredths now start := by
  unfold timeval_normal at hn hs
  unfold elapsed_hundredths timeval_usec at hr
  unfold timeval_usec at hlt
  have hsec : long_wrap (now.tv_sec - start.tv_sec) = now.tv_sec - start.tv_sec :=
    long_wrap_eq _ (by omega) (by omega)
  have husec : long_wrap (now.tv_usec - start.tv_usec) = now.tv_usec - start.tv_usec :=
    long_wrap_eq _ (by omega) (by omega)
  have hsec1 : long_wrap (now.tv_sec - start.tv_sec - 1) = now.tv_sec - start.tv_sec - 1 :=
    long_wrap_eq _ (by omega) (by omega)
  have husec1 : long_wrap (now.tv_usec - start.tv_usec + 1000000)
      = now.tv_usec - start.tv_usec + 1000000 :=
    long_wrap_eq _ (by omega) (by omega)
  unfold timersub elapsed_hundredths timeval_usec
  simp only [hsec, husec]
  split
  · simp only [hsec1, husec1]
    rw [Int.tdiv_eq_ediv (by omega) (by omega)]
    refine ⟨by omega, by omega, ?_⟩
    rw [long_wrap_eq _ (by omega) (by omega)]
    omega
  · dsimp only
    rw [Int.tdiv_eq_ediv (by omega) (by omega)]
    refine ⟨by omega, by omega, ?_⟩
    rw [long_wrap_eq _ (by omega) (by omega)]
    omega

/-- C20 (counterexample): with the start time at second 1, the current time
at second `2 ^ 62` and the clamp `0xFFFF`, the product of the seconds with 100
leaves the range of `long`: `uptime` is -100, which is below the clamp, and the
value returned is 4294967196, above the clamp and not `min(e, clamp)`. -/
theorem uptime_exceeds_clamp :
    timeval_normal farFutureEnv.now ∧ timeval_normal earlyDevice.start_time
    ∧ timerisset earlyDevice.start_time = true
    ∧ timeval_usec earlyDevice.start_time < timeval_usec farFutureEnv.now
    ∧ long_wrap ((timersub farFutureEnv.now earlyDevice.start_time).tv_sec * 100
        + Int.tdiv (timersub farFutureEnv.now earlyDevice.start_time).tv_usec 10000) = -100
    ∧ ni_dhcp6_device_uptime farFutureEnv earlyDevice 0xFFFF = 4294967196
    ∧ ¬ ni_dhcp6_device_uptime farFutureEnv earlyDevice 0xFFFF ≤ 0xFFFF
    ∧ min (elapsed_hundredths farFutureEnv.now earlyDevice.start_time) ((0xFFFF : Nat) : Int)
        = 0xFFFF := by
  decide

/-- C20 (as amended): for normalised times, a clamp within `unsigned int` and
an elapsed time whose hundredths of a second are within `long`,
`ni_dhcp6_device_uptime` returns `min(e, clamp)`, `e` the time elapsed since
`start_time` in hundredths of a second rounded down, when `start_time` is set
and the current time is later; it returns 0 when `start_time` is unset or the
current time is not later.  The result never exceeds the clamp, and with the
clamp `0xFFFF` it is `0xFFFF` once `e` has reached `0xFFFF`. -/
theorem uptime_clamped (env : Env) (dev : ni_dhcp6_device_t) (clamp : Nat)
    (hn : timeval_normal env.now) (hs : timeval_normal dev.start_time)
    (hc : clamp < UINT_SIZE)
    (hr : elapsed_hundredths env.now dev.start_time < 2 ^ 63) :
    (timerisset dev.start_time = true →
      timeval_usec dev.start_time < timeval_usec env.now →
      (ni_dhcp6_device_uptime env dev clamp : Int)
        = min (elapsed_hundredths env.now dev.start_time) (clamp : Int)
      ∧ elapsed_hundredths env.now dev.start_time
        = (timersub env.now dev.start_time).tv_sec * 100
          + (timersub env.now dev.start_time).tv_usec / 10000
      ∧ (timersub env.now dev.start_time).tv_sec
        = (timeval_usec env.now - timeval_usec dev.start_time) / 1000000
      ∧ (timersub env.now dev.start_time).tv_usec
        = (timeval_usec env.now - timeval_usec dev.start_time) % 1000000)
    ∧ (timerisset dev.start_time = false
        ∨ timeval_usec env.now ≤ timeval_usec dev.start_time →
      ni_dhcp6_device_uptime env dev clamp = 0)
    ∧ ni_dhcp6_device_uptime env dev clamp ≤ clamp
    ∧ (clamp = 0xFFFF →
        ni_dhcp6_device_uptime env dev clamp ≤ 0xFFFF
        ∧ (timerisset dev.start_time = true →
            0xFFFF ≤ elapsed_hundredths env.now dev.start_time →
            ni_dhcp6_device_uptime env dev clamp = 0xFFFF)) := by
  have hu : UINT_SIZE = 4294967296 := by norm_num [UINT_SIZE]
  rw [hu] at hc
  have hcmp := timercmp_gt_iff env.now dev.start_time hn hs
  have key1 : timerisset dev.start_time = true →
      timeval_usec dev.start_time < timeval_usec env.now →
      (ni_dhcp6_device_uptime env dev clamp : Int)
        = min (elapsed_hundredths env.now dev.start_time) (clamp : Int) := by
    intro hset hlt
    have hsub := (timersub_hundredths env.now dev.start_time hn hs hlt hr).2.2
    have hpos : 0 ≤ elapsed_hundredths env.now dev.start_time := by
      unfold elapsed_hundredths
      omega
    unfold ni_dhcp6_device_uptime
    simp only [hset, hcmp.mpr hlt, Bool.and_self, if_true, hsub, hu]
    by_cases hlt2 : elapsed_hundredths env.now dev.start_time < (clamp : Int)
    · rw [if_pos hlt2, min_eq_left (le_of_lt hlt2)]
      rw [Int.toNat_of_nonneg (Int.emod_nonneg _ (by norm_num))]
      exact Int.emod_eq_of_lt hpos (by push_cast; omega)
    · rw [if_neg hlt2, min_eq_right (not_lt.mp hlt2)]
      rw [Int.toNat_of_nonneg (Int.emod_nonneg _ (by norm_num))]
      exact Int.emod_eq_of_lt (by omega) (by push_cast; omega)
  have key2 : timerisset dev.start_time = false
        ∨ timeval_usec env.now ≤ timeval_usec dev.start_time →
      ni_dhcp6_device_uptime env dev clamp = 0 := by
    intro h
    have hcond : (timerisset dev.start_time && timercmp_gt env.now dev.start_time) = false := by
      rcases h with h | h
      · simp [h]
      · have : ¬ timercmp_gt env.now dev.start_time = true := fun hc1 =>
          absurd (hcmp.mp hc1) (not_lt.mpr h)
        simp [this]
    unfold ni_dhcp6_device_uptime
    simp only [hcond, Bool.false_eq_true, if_false, hu]
    by_cases h0 : (0 : Int) < (clamp : Int)
    · simp [h0]
    · have : clamp = 0 := by omega
      simp [this]
  have key3 : ni_dhcp6_device_uptime env dev clamp ≤ clamp := by
    by_cases hset : timerisset dev.start_time = true
    · by_cases hlt : timeval_usec dev.start_time < timeval_usec env.now
      · have := key1 hset hlt
        have hmin := min_le_right (elapsed_hundredths env.now dev.start_time) (clamp : Int)
        omega
      · rw [key2 (Or.inr (not_lt.mp hlt))]
        exact Nat.zero_le _
    · rw [key2 (Or.inl (by simpa using hset))]
      exact Nat.zero_le _
  refine ⟨?_, key2, key3, ?_⟩
  · intro hset hlt
    obtain ⟨h1, h2, -⟩ := timersub_hundredths env.now dev.start_time hn hs hlt hr
    refine ⟨key1 hset hlt, ?_, h1, h2⟩
    rw [h1, h2]
    unfold elapsed_hundredths
    omega
  · intro hclamp
    subst hclamp
    refine ⟨key3, ?_⟩
    intro hset hge
    have hlt : timeval_usec dev.start_time < timeval_usec env.now := by
      unfold elapsed_hundredths at hge
      omega
    have := key1 hset hlt
    rw [min_eq_right (by exact_mod_cast hge)] at this
    exact_mod_cast this

/-- C20 (as amended), on sample values: 12.345678 s after the start the value
is `min(e, 0xFFFF)`, and 1000 s after the start it is `0xFFFF`. -/
theorem uptime_clamped_witness :
    ((ni_dhcp6_device_uptime laterEnv startedDevice 0xFFFF : Nat) : Int)
        = min (elapsed_hundredths laterEnv.now startedDevice.start_time) ((0xFFFF : Nat) : Int)
    ∧ ni_dhcp6_device_uptime muchLaterEnv startedDevice 0xFFFF = 0xFFFF :=
  ⟨((uptime_clamped laterEnv startedDevice 0xFFFF (by decide) (by decide) (by decide)
      (by decide)).1 (by decide) (by decide)).1,
   ((uptime_clamped muchLaterEnv startedDevice 0xFFFF (by decide) (by decide) (by decide)
      (by decide)).2.2.2 rfl).2 (by decide) (by decide)⟩

/-! ## The list of active devices -/

/-- The device found by `ni_dhcp6_device_by_index` is the first of the list
with the index asked for. -/
theorem by_index_first (i : Nat) :
    ∀ (active : List ni_dhcp6_device_t) (d : ni_dhcp6_device_t),
      ni_dhcp6_device_by_index active i = some d →
      ∃ k, active.get? k = some d ∧ d.link.ifindex = i
        ∧ ∀ j, j < k → ∀ d1, active.get? j = some d1 → d1.link.ifindex ≠ i := by
  intro active
  induction active with
  | nil => intro d h; simp [ni_dhcp6_device_by_index] at h
  | cons a rest ih =>
    intro d h
    unfold ni_dhcp6_device_by_index at h ih
    by_cases ha : a.link.ifindex = i
    · simp [List.find?, ha] at h
      subst h
      exact ⟨0, rfl, ha, fun j hj => absurd hj (Nat.not_lt_zero j)⟩
    · have hb : (a.link.ifindex == i) = false := by simpa using ha
      rw [List.find?_cons, hb] at h
      obtain ⟨k, hk, hd, hfirst⟩ := ih d h
      refine ⟨k + 1, by simpa using hk, hd, ?_⟩
      intro j hj d1 hd1
      cases j with
      | zero =>
        simp at hd1
        subst hd1
        exact ha
      | succ j =>
        exact hfirst j (by omega) d1 (by simpa using hd1)

/-- No device is found exactly when no active device has the index. -/
theorem by_index_none (active : List ni_dhcp6_device_t) (i : Nat) :
    ni_dhcp6_device_by_index active i = none ↔ ∀ d ∈ active, d.link.ifindex ≠ i := by
  unfold ni_dhcp6_device_by_index
  rw [List.find?_eq_none]
  simp

/-- The function `ni_dhcp6_device_new` appends the new device, which carries
the index of the link. -/
theorem device_new_appends (env : Env) (active : List ni_dhcp6_device_t)
    (ifname : Option String) (link : ni_linkinfo_t) :
    (ni_dhcp6_device_new env active ifname link).2
        = active ++ [(ni_dhcp6_device_new env active ifname link).1]
    ∧ (ni_dhcp6_device_new env active ifname link).1.link.ifindex = link.ifindex := by
  exact ⟨rfl, rfl⟩

/-- C21: `ni_dhcp6_device_by_index` returns NULL exactly when no active device
has the index, and otherwise the first device of the list with that index
(the list is in the order of creation, `ni_dhcp6_device_new` appends).  After
`ni_dhcp6_device_new` the new device is found under its index when no earlier
device had it, the earlier device is still found when one had it, and the
lookup of every other index gives what it gave before. -/
theorem device_by_index_lookup (env : Env) (active : List ni_dhcp6_device_t)
    (ifname : Option String) (link : ni_linkinfo_t) (i : Nat) :
    (ni_dhcp6_device_by_index active i = none ↔ ∀ d ∈ active, d.link.ifindex ≠ i)
    ∧ (∀ d, ni_dhcp6_device_by_index active i = some d →
        ∃ k, active.get? k = some d ∧ d.link.ifindex = i
          ∧ ∀ j, j < k → ∀ d1, active.get? j = some d1 → d1.link.ifindex ≠ i)
    ∧ (ni_dhcp6_device_new env active ifname link).2
        = active ++ [(ni_dhcp6_device_new env active ifname link).1]
    ∧ (ni_dhcp6_device_by_index active link.ifindex = none →
        ni_dhcp6_device_by_index (ni_dhcp6_device_new env active ifname link).2 link.ifindex
          = some (ni_dhcp6_device_new env active ifname link).1)
    ∧ (∀ d, ni_dhcp6_device_by_index active link.ifindex = some d →
        ni_dhcp6_device_by_index (ni_dhcp6_device_new env active ifname link).2 link.ifindex
          = some d)
    ∧ (i ≠ link.ifindex →
        ni_dhcp6_device_by_index (ni_dhcp6_device_new env active ifname link).2 i
          = ni_dhcp6_device_by_index active i) := by
  obtain ⟨happ, hidx⟩ := device_new_appends env active ifname link
  refine ⟨by_index_none active i, by_index_first i active, happ, ?_, ?_, ?_⟩
  · intro hnone
    rw [happ]
    unfold ni_dhcp6_device_by_index at hnone ⊢
    rw [List.find?_append, hnone]
    simp [List.find?, hidx]
  · intro d hsome
    rw [happ]
    unfold ni_dhcp6_device_by_index at hsome ⊢
    rw [List.find?_append, hsome]
    rfl
  · intro hne
    rw [happ]
    unfold ni_dhcp6_device_by_index
    rw [List.find?_append]
    have hno : List.find? (fun dev => dev.link.ifindex == i)
        [(ni_dhcp6_device_new env active ifname link).1] = none := by
      have hb : (link.ifindex == i) = false := by simpa using Ne.symm hne
      rw [List.find?_cons, hidx, hb]
      rfl
    rw [hno]
    cases List.find? (fun dev => dev.link.ifindex == i) active <;> rfl

theorem device_by_index_lookup_witness :
    ni_dhcp6_device_by_index (ni_dhcp6_device_new sampleEnv [] (some "eth0") sampleLink).2
        sampleLink.ifindex
      = some (ni_dhcp6_device_new sampleEnv [] (some "eth0") sampleLink).1 :=
  (device_by_index_lookup sampleEnv [] (some "eth0") sampleLink 0).2.2.2.1 (by decide)

theorem eraseIdx_set (α : Type) (a : α) :
    ∀ (l : List α) (k : Nat), (l.set k a).eraseIdx k = l.eraseIdx k := by
  intro l
  induction l with
  | nil => intro k; rfl
  | cons x rest ih =>
    intro k
    cases k with
    | zero => rfl
    | succ k => simp [List.set, List.eraseIdx, ih]

/-- The function `ni_dhcp6_device_close` closes the socket and cancels the
timer the device holds, and leaves the device without either. -/
theorem device_close_eq (dev : ni_dhcp6_device_t) :
    ni_dhcp6_device_close dev
      = { dev := { dev with sock := none, fsm := { dev.fsm with timer := none } },
          closed := dev.sock.toList, cancelled := dev.fsm.timer.toList } := by
  unfold ni_dhcp6_device_close
  cases hs : dev.sock <;> cases ht : dev.fsm.timer <;> simp [hs, ht]
  all_goals
    cases dev with
    | mk ifname link users start_time fsm sock xid message server_addr client_addr tx_counter
        tx_delay retrans config request lease =>
      cases fsm
      simp_all

/-- The function `ni_dhcp6_device_put` on a device with more than one user:
only the count changes. -/
theorem device_put_above_one (active : List ni_dhcp6_device_t) (k : Nat)
    (dev : ni_dhcp6_device_t) (hk : active.get? k = some dev) (hu : 1 < dev.users) :
    ni_dhcp6_device_put active k
      = some { active := active.set k { dev with users := dev.users - 1 },
               closed := [], cancelled := [], freed := none } := by
  unfold ni_dhcp6_device_put
  have h0 : dev.users ≠ 0 := by omega
  have h1 : dev.users - 1 ≠ 0 := by omega
  rw [hk]
  simp [h0, h1]

/-- The function `ni_dhcp6_device_put` on a device with one user: the device
is destroyed and unlinked. -/
theorem device_put_last (active : List ni_dhcp6_device_t) (k : Nat)
    (dev : ni_dhcp6_device_t) (hk : active.get? k = some dev) (hu : dev.users = 1) :
    ni_dhcp6_device_put active k
      = some { active := active.eraseIdx k,
               closed := dev.sock.toList, cancelled := dev.fsm.timer.toList,
               freed := some
                 { dev with
                   users := 0, sock := none, fsm := { dev.fsm with timer := none },
                   ifname := none, link := { dev.link with alias_ := none },
                   config := none, request := none } } := by
  have hlen : k < active.length := by
    rw [List.get?_eq_getElem?] at hk
    exact (List.getElem?_eq_some.mp hk).1
  unfold ni_dhcp6_device_put
  rw [hk]
  simp only [hu]
  have hget : (active.set k { dev with users := 1 - 1 }).get? k
      = some { dev with users := 1 - 1 } := by
    rw [List.get?_eq_getElem?, List.getElem?_set]
    simp [hlen]
  unfold ni_dhcp6_device_free
  simp only [hget, device_close_eq, eraseIdx_set]
  simp [ni_dhcp6_device_set_request, ni_dhcp6_device_set_config]
theorem map_set_same (α β : Type) (f : α → β) (a b : α) (hf : f b = f a) :
    ∀ (l : List α) (k : Nat), l.get? k = some a → (l.set k b).map f = l.map f := by
  intro l
  induction l with
  | nil => intro k h; rfl
  | cons x rest ih =>
    intro k h
    cases k with
    | zero =>
      simp at h
      subst h
      simp [List.set, hf]
    | succ k =>
      simp at h
      simp only [List.set, List.map_cons]
      rw [ih k (by rw [List.get?_eq_getElem?]; exact h)]

/-- The interface indexes after `ni_dhcp6_device_put`: those before, without
the one of the device destroyed, if any. -/
theorem device_put_indexes (active : List ni_dhcp6_device_t) (k : Nat) (r : PutResult)
    (h : ni_dhcp6_device_put active k = some r) :
    (r.active.map (fun d => d.link.ifindex)).Sublist (active.map (fun d => d.link.ifindex)) := by
  cases hk : active.get? k with
  | none =>
    unfold ni_dhcp6_device_put at h
    rw [hk] at h
    simp at h
  | some dev =>
    by_cases h0 : dev.users = 0
    · unfold ni_dhcp6_device_put at h
      rw [hk] at h
      simp [h0] at h
    · by_cases h1 : dev.users = 1
      · rw [device_put_last active k dev hk h1] at h
        simp only [Option.some.injEq] at h
        subst h
        exact List.Sublist.map _ (List.eraseIdx_sublist active k)
      · rw [device_put_above_one active k dev hk (by omega)] at h
        simp only [Option.some.injEq] at h
        subst h
        dsimp only
        rw [map_set_same ni_dhcp6_device_t Nat (fun d => d.link.ifindex) dev
          { dev with users := dev.users - 1 } rfl active k hk]

/-- C22 (as amended): starting from the empty list, when `ni_dhcp6_device_new`
is only called for an interface index that `ni_dhcp6_device_by_index` does not
find, no two devices in the active list have the same interface index after any
sequence of `ni_dhcp6_device_new`, `ni_dhcp6_device_get` and
`ni_dhcp6_device_put` calls. -/
theorem registry_index_unique (active : List ni_dhcp6_device_t) (h : Registry active) :
    (active.map (fun d => d.link.ifindex)).Nodup := by
  induction h with
  | empty => exact List.nodup_nil
  | new env active ifname link _ hnone ih =>
    rw [(device_new_appends env active ifname link).1, List.map_append]
    refine List.Nodup.append ih (List.nodup_singleton _) ?_
    intro x hx hx1
    simp only [List.map_cons, List.map_nil, List.mem_singleton] at hx1
    obtain ⟨d, hd, hdx⟩ := List.mem_map.mp hx
    have hnew : (ni_dhcp6_device_new env active ifname link).1.link.ifindex = link.ifindex :=
      (device_new_appends env active ifname link).2
    exact (by_index_none active link.ifindex).mp hnone d hd (by rw [hdx, hx1, hnew])
  | get active k dev dev1 _ hk hget ih =>
    have hidx : dev1.link.ifindex = dev.link.ifindex := by
      unfold ni_dhcp6_device_get at hget
      split at hget
      · simp at hget
      · simp only [Option.some.injEq] at hget
        subst hget
        rfl
    rw [map_set_same ni_dhcp6_device_t Nat (fun d => d.link.ifindex) dev dev1 hidx active k hk]
    exact ih
  | put active k r _ hput ih =>
    exact List.Nodup.sublist (device_put_indexes active k r hput) ih

/-- C22, on sample values: one device created for an interface no active
device has. -/
theorem registry_index_unique_witness :
    ((ni_dhcp6_device_new sampleEnv [] (some "eth0") sampleLink).2.map
      (fun d => d.link.ifindex)).Nodup :=
  registry_index_unique _ (Registry.new sampleEnv [] (some "eth0") sampleLink Registry.empty rfl)

/-- C22 (counterexample): the function `ni_dhcp6_device_new` appends a device
without looking for one with the same interface index; called twice for the
interface with index 3, starting from the empty list, it leaves two devices with
index 3 in the active list. -/
theorem registry_duplicate_index :
    twiceCreated.map (fun d => d.link.ifindex) = [3, 3]
    ∧ ¬ (twiceCreated.map (fun d => d.link.ifindex)).Nodup := by
  decide
/-- C23: a device is created with reference count 1; `ni_dhcp6_device_get`
adds one and `ni_dhcp6_device_put` subtracts one.  The put destroys the device
exactly when it drops the count to zero: the socket is closed, the timer
cancelled, config and request dropped, and the device unlinked, every other
device staying in the list in its previous order.  A put that leaves the count
above zero changes nothing but the count. -/
theorem device_refcount_lifecycle (env : Env) (made : List ni_dhcp6_device_t)
    (ifname : Option String) (link : ni_linkinfo_t)
    (active : List ni_dhcp6_device_t) (k : Nat) (dev : ni_dhcp6_device_t)
    (hk : active.get? k = some dev) (hu : 0 < dev.users) :
    (ni_dhcp6_device_new env made ifname link).1.users = 1
    ∧ ni_dhcp6_device_get dev = some { dev with users := (dev.users + 1) % UINT_SIZE }
    ∧ (dev.users + 1 < UINT_SIZE →
        ni_dhcp6_device_get dev = some { dev with users := dev.users + 1 })
    ∧ ∃ r, ni_dhcp6_device_put active k = some r
        ∧ (r.freed.isSome = true ↔ dev.users = 1)
        ∧ (dev.users ≠ 1 →
            r = { active := active.set k { dev with users := dev.users - 1 },
                  closed := [], cancelled := [], freed := none })
        ∧ (dev.users = 1 →
            r.active = active.eraseIdx k
            ∧ r.closed = dev.sock.toList
            ∧ r.cancelled = dev.fsm.timer.toList
            ∧ (∀ j, r.active.get? j = if j < k then active.get? j else active.get? (j + 1))
            ∧ ∃ d, r.freed = some d ∧ d.users = 0 ∧ d.sock = none ∧ d.fsm.timer = none
                ∧ d.config = none ∧ d.request = none) := by
  have h0 : dev.users ≠ 0 := by omega
  have hget : ni_dhcp6_device_get dev
      = some { dev with users := (dev.users + 1) % UINT_SIZE } := by
    unfold ni_dhcp6_device_get
    simp [h0]
  refine ⟨rfl, hget, ?_, ?_⟩
  · intro hlt
    rw [hget, Nat.mod_eq_of_lt hlt]
  · by_cases h1 : dev.users = 1
    · refine ⟨_, device_put_last active k dev hk h1, ?_, ?_, ?_⟩
      · simp [h1]
      · intro hne
        exact absurd h1 hne
      · intro _
        refine ⟨rfl, rfl, rfl, ?_, _, rfl, rfl, rfl, rfl, rfl, rfl⟩
        intro j
        simp only [List.get?_eq_getElem?]
        exact List.getElem?_eraseIdx active k j
    · refine ⟨_, device_put_above_one active k dev hk (by omega), ?_, ?_, ?_⟩
      · simp [h1]
      · intro _
        rfl
      · intro h
        exact absurd h h1

/-- C23, on sample values: the last put of the busy device, second of two
active devices, closes socket 7, cancels the timer and leaves the other device
alone in the list. -/
theorem device_refcount_lifecycle_witness :
    [otherDevice, busyDevice].get? 1 = some busyDevice ∧ 0 < busyDevice.users
    ∧ ∃ r, ni_dhcp6_device_put [otherDevice, busyDevice] 1 = some r
        ∧ r.active = [otherDevice] ∧ r.closed = [7] ∧ r.cancelled = [1100] := by
  refine ⟨rfl, by decide, ?_⟩
  obtain ⟨r, hr, _, _, hlast⟩ :=
    (device_refcount_lifecycle sampleEnv [] (some "eth0") sampleLink
      [otherDevice, busyDevice] 1 busyDevice rfl (by decide)).2.2.2
  obtain ⟨ha, hc, ht, _⟩ := hlast (by decide)
  exact ⟨r, hr, ha, hc, ht⟩

/-! ## Restart, stop and release -/

theorem same_handle_trans (a b c : ni_dhcp6_device_t) (h1 : SameHandle a b)
    (h2 : SameHandle b c) : SameHandle a c := by
  obtain ⟨a1, a2, a3, a4, a5⟩ := h1
  obtain ⟨b1, b2, b3, b4, b5⟩ := h2
  exact ⟨a1.trans b1, a2.trans b2, a3.trans b3, a4.trans b4, a5.trans b5⟩

theorem refresh_same_handle (env : Env) (dev : ni_dhcp6_device_t) :
    SameHandle (ni_dhcp6_device_refresh env dev).2 dev := by
  rw [refresh_frame]
  exact ⟨rfl, rfl, rfl, rfl, rfl⟩

theorem init_message_same_handle (env : Env) (dev dev1 : ni_dhcp6_device_t) (msg_code : Nat)
    (lease : Option ni_addrconf_lease_t) (rv : Int)
    (h : ni_dhcp6_init_message env dev msg_code lease = some (rv, dev1)) :
    SameHandle dev1 dev := by
  unfold ni_dhcp6_init_message at h
  simp only [ni_dhcp6_device_can_send_unicast, ni_dhcp6_device_alloc_buffer] at h
  repeat' split at h
  all_goals first
    | (simp at h; done)
    | (simp only [Option.some.injEq, Prod.mk.injEq] at h
       obtain ⟨rfl, rfl⟩ := h
       exact ⟨rfl, rfl, rfl, rfl, rfl⟩)

theorem transmit_arm_delay_same_handle (env : Env) (dev : ni_dhcp6_device_t) :
    SameHandle (ni_dhcp6_device_transmit_arm_delay env dev).2 dev := by
  rw [transmit_arm_delay_eq]
  split <;> exact ⟨rfl, rfl, rfl, rfl, rfl⟩

theorem retransmit_arm_same_handle (env : Env) (dev : ni_dhcp6_device_t) :
    SameHandle (ni_dhcp6_device_retransmit_arm env dev) dev := by
  unfold ni_dhcp6_device_retransmit_arm ni_dhcp6_fsm_set_timeout_msec
  dsimp only
  repeat' split
  all_goals exact ⟨rfl, rfl, rfl, rfl, rfl⟩

/-- The function `ni_dhcp6_acquire` leaves the stored request, the reference
count, the link data, the interface name and the FSM state of the device as
they were. -/
theorem acquire_same_handle (env : Env) (dev : ni_dhcp6_device_t) (info : ni_dhcp6_request_t)
    (r : AcquireResult) (h : ni_dhcp6_acquire env dev info = some r) :
    SameHandle r.dev dev := by
  have hconf : ∀ c, SameHandle { (ni_dhcp6_device_refresh env dev).2 with config := c } dev := by
    intro c
    exact same_handle_trans _ _ _ ⟨rfl, rfl, rfl, rfl, rfl⟩ (refresh_same_handle env dev)
  unfold ni_dhcp6_acquire at h
  simp only [ni_dhcp6_device_set_config] at h
  repeat' split at h
  all_goals first
    | (simp at h; done)
    | skip
  · simp only [Option.some.injEq] at h
    subst h
    exact refresh_same_handle env dev
  · simp only [Option.some.injEq] at h
    subst h
    exact refresh_same_handle env dev
  · rename_i rv dev3 heq hrv
    simp only [Option.some.injEq] at h
    subst h
    exact same_handle_trans _ _ _ (init_message_same_handle _ _ _ _ _ _ heq) (hconf _)
  · rename_i rv dev3 heq hrv hdel
    simp only [Option.some.injEq] at h
    subst h
    exact same_handle_trans _ _ _ (transmit_arm_delay_same_handle env dev3)
      (same_handle_trans _ _ _ (init_message_same_handle _ _ _ _ _ _ heq) (hconf _))
  · rename_i _ rv dev3 heq hrv hdel _ rv1 sent heq1 hrv1
    simp only [Option.some.injEq] at h
    subst h
    exact same_handle_trans _ _ _ (transmit_arm_delay_same_handle env dev3)
      (same_handle_trans _ _ _ (init_message_same_handle _ _ _ _ _ _ heq) (hconf _))
  · rename_i _ rv dev3 heq hrv hdel _ rv1 sent heq1 hrv1
    simp only [Option.some.injEq] at h
    subst h
    exact same_handle_trans _ _ _ (retransmit_arm_same_handle env _)
      (same_handle_trans _ _ _ (transmit_arm_delay_same_handle env dev3)
        (same_handle_trans _ _ _ (init_message_same_handle _ _ _ _ _ _ heq) (hconf _)))
/-- The loop of `ni_dhcp6_restart` from any position on, when each call of
`ni_dhcp6_acquire` it makes has a result. -/
theorem restart_from_spec (envs : Nat → Env) :
    ∀ (active : List ni_dhcp6_device_t) (n : Nat),
      (∀ k dev req, active.get? k = some dev → dev.request = some req →
        (ni_dhcp6_acquire (envs (n + k)) dev req).isSome = true) →
      ∃ r, ni_dhcp6_restart_from envs n active = some r
        ∧ r.2.map (fun c => (c.1, c.2.1))
            = active.filterMap (fun dev => dev.request.map (fun req => (dev, req)))
        ∧ r.1.length = active.length
        ∧ ∀ k dev, active.get? k = some dev →
            ∃ dev1, r.1.get? k = some dev1 ∧ dev1.request = dev.request
              ∧ (dev.request = none → dev1 = dev)
              ∧ (∀ req, dev.request = some req →
                  ∃ res, ni_dhcp6_acquire (envs (n + k)) dev req = some res
                    ∧ dev1 = res.dev ∧ (dev, req, res) ∈ r.2) := by
  intro active
  induction active with
  | nil =>
    intro n _
    refine ⟨([], []), rfl, rfl, rfl, ?_⟩
    intro k dev hk
    simp at hk
  | cons a rest ih =>
    intro n hall
    have hrest : ∀ k dev req, rest.get? k = some dev → dev.request = some req →
        (ni_dhcp6_acquire (envs (n + 1 + k)) dev req).isSome = true := by
      intro k dev req hk hreq
      have := hall (k + 1) dev req (by simpa using hk) hreq
      rw [show n + 1 + k = n + (k + 1) by omega]
      exact this
    obtain ⟨r, hr, hcalls, hlen, hdevs⟩ := ih (n + 1) hrest
    cases hreq : a.request with
    | none =>
      refine ⟨(a :: r.1, r.2), ?_, ?_, ?_, ?_⟩
      · simp [ni_dhcp6_restart_from, hreq, hr]
      · simp [List.filterMap_cons, hreq, hcalls]
      · simp [hlen]
      · intro k dev hk
        cases k with
        | zero =>
          simp at hk
          subst hk
          refine ⟨a, rfl, rfl, fun _ => rfl, ?_⟩
          intro req hreq1
          rw [hreq] at hreq1
          cases hreq1
        | succ k =>
          obtain ⟨dev1, h1, h2, h3, h4⟩ := hdevs k dev (by simpa using hk)
          refine ⟨dev1, by simpa using h1, h2, h3, ?_⟩
          intro req hreq1
          obtain ⟨res, hres, hd, hmem⟩ := h4 req hreq1
          refine ⟨res, ?_, hd, hmem⟩
          rw [show n + (k + 1) = n + 1 + k by omega]
          exact hres
    | some request =>
      have hsome := hall 0 a request rfl hreq
      cases hacq : ni_dhcp6_acquire (envs n) a request with
      | none =>
        rw [Nat.add_zero, hacq] at hsome
        cases hsome
      | some res0 =>
        have hsame := acquire_same_handle (envs n) a request res0 hacq
        refine ⟨(res0.dev :: r.1, (a, request, res0) :: r.2), ?_, ?_, ?_, ?_⟩
        · simp [ni_dhcp6_restart_from, hreq, hacq, hr]
        · simp [List.filterMap_cons, hreq, hcalls]
        · simp [hlen]
        · intro k dev hk
          cases k with
          | zero =>
            simp at hk
            subst hk
            refine ⟨res0.dev, rfl, hsame.1, ?_, ?_⟩
            · intro hnone
              rw [hreq] at hnone
              cases hnone
            · intro req hreq1
              rw [hreq] at hreq1
              cases hreq1
              exact ⟨res0, hacq, rfl, List.mem_cons_self _ _⟩
          | succ k =>
            obtain ⟨dev1, h1, h2, h3, h4⟩ := hdevs k dev (by simpa using hk)
            refine ⟨dev1, by simpa using h1, h2, h3, ?_⟩
            intro req hreq1
            obtain ⟨res, hres, hd, hmem⟩ := h4 req hreq1
            refine ⟨res, ?_, hd, List.mem_cons_of_mem _ hmem⟩
            rw [show n + (k + 1) = n + 1 + k by omega]
            exact hres

/-- C24: when each call of `ni_dhcp6_acquire` has a result, the function
`ni_dhcp6_restart` has one: the calls it made are, in list order, one for each
active device that has a stored request, with that device and its own stored
request; a device without a stored request is left as it was, and every device
holds the same request afterwards as before. -/
theorem restart_calls (envs : Nat → Env) (active : List ni_dhcp6_device_t)
    (hall : ∀ k dev req, active.get? k = some dev → dev.request = some req →
      (ni_dhcp6_acquire (envs k) dev req).isSome = true) :
    ∃ r, ni_dhcp6_restart envs active = some r
      ∧ r.2.map (fun c => (c.1, c.2.1))
          = active.filterMap (fun dev => dev.request.map (fun req => (dev, req)))
      ∧ r.1.length = active.length
      ∧ ∀ k dev, active.get? k = some dev →
          ∃ dev1, r.1.get? k = some dev1 ∧ dev1.request = dev.request
            ∧ (dev.request = none → dev1 = dev)
            ∧ (∀ req, dev.request = some req →
                ∃ res, ni_dhcp6_acquire (envs k) dev req = some res
                  ∧ dev1 = res.dev ∧ (dev, req, res) ∈ r.2) := by
  have h := restart_from_spec envs active 0 (by simpa using hall)
  simpa [ni_dhcp6_restart] using h

/-- The call of `ni_dhcp6_acquire` for the sample device with a stored request
has a result. -/
theorem restart_sample_calls :
    ∀ k dev req, [requestDevice, otherDevice].get? k = some dev → dev.request = some req →
      (ni_dhcp6_acquire sampleEnv dev req).isSome = true := by
  intro k dev req hk hreq
  match k with
  | 0 =>
    simp at hk
    subst hk
    have hr : req = sampleRequest := by
      have : requestDevice.request = some sampleRequest := rfl
      rw [this] at hreq
      exact (Option.some.inj hreq).symm
    subst hr
    decide!
  | 1 =>
    simp at hk
    subst hk
    have : otherDevice.request = none := rfl
    rw [this] at hreq
    cases hreq
  | k + 2 => simp at hk

/-- C24, on sample values: of two active devices the first has a stored
request; the restart calls `ni_dhcp6_acquire` once, for that device with that
request. -/
theorem restart_calls_witness :
    ∃ r, ni_dhcp6_restart (fun _ => sampleEnv) [requestDevice, otherDevice] = some r
      ∧ r.2.map (fun c => (c.1, c.2.1)) = [(requestDevice, sampleRequest)]
      ∧ r.1.length = 2 := by
  obtain ⟨r, hr, hcalls, hlen, _⟩ :=
    restart_calls (fun _ => sampleEnv) [requestDevice, otherDevice] restart_sample_calls
  exact ⟨r, hr, hcalls, hlen⟩

/-- The function `ni_dhcp6_device_stop` in closed form. -/
theorem device_stop_eq (dev : ni_dhcp6_device_t) :
    ni_dhcp6_device_stop dev
      = { dev := { dev with
                   sock := none, fsm := { dev.fsm with timer := none },
                   config := none, request := none },
          closed := dev.sock.toList, cancelled := dev.fsm.timer.toList } := by
  unfold ni_dhcp6_device_stop
  simp only [device_close_eq, ni_dhcp6_device_set_request, ni_dhcp6_device_set_config]

/-- C25: after `ni_dhcp6_device_stop`, whatever the device held, the socket is
closed and NULL, no timer is armed (the one that was armed is cancelled), and
config and request are NULL; everything else on the device, the reference
count, interface index and name among it, is unchanged, and the device keeps
its place in the active list, the other devices being untouched. -/
theorem device_stop_effect (active : List ni_dhcp6_device_t) (k : Nat)
    (dev : ni_dhcp6_device_t) (hk : active.get? k = some dev) :
    (ni_dhcp6_device_stop dev).dev.sock = none
    ∧ (ni_dhcp6_device_stop dev).closed = dev.sock.toList
    ∧ (ni_dhcp6_device_stop dev).dev.fsm.timer = none
    ∧ (ni_dhcp6_device_stop dev).cancelled = dev.fsm.timer.toList
    ∧ (ni_dhcp6_device_stop dev).dev.config = none
    ∧ (ni_dhcp6_device_stop dev).dev.request = none
    ∧ (ni_dhcp6_device_stop dev).dev.users = dev.users
    ∧ (ni_dhcp6_device_stop dev).dev.link.ifindex = dev.link.ifindex
    ∧ (ni_dhcp6_device_stop dev).dev.ifname = dev.ifname
    ∧ (ni_dhcp6_device_stop dev).dev
        = { dev with
            sock := none, fsm := { dev.fsm with timer := none },
            config := none, request := none }
    ∧ (active.set k (ni_dhcp6_device_stop dev).dev).length = active.length
    ∧ (active.set k (ni_dhcp6_device_stop dev).dev).get? k
        = some (ni_dhcp6_device_stop dev).dev
    ∧ ∀ j, j ≠ k →
        (active.set k (ni_dhcp6_device_stop dev).dev).get? j = active.get? j := by
  have hlen : k < active.length := by
    rw [List.get?_eq_getElem?] at hk
    exact (List.getElem?_eq_some.mp hk).1
  rw [device_stop_eq]
  refine ⟨rfl, rfl, rfl, rfl, rfl, rfl, rfl, rfl, rfl, rfl, by simp, ?_, ?_⟩
  · rw [List.get?_eq_getElem?, List.getElem?_set]
    simp [hlen]
  · intro j hj
    rw [List.get?_eq_getElem?, List.get?_eq_getElem?, List.getElem?_set]
    simp [Ne.symm hj]

/-- C25, on sample values: stopping the busy device, second of two active
devices, closes socket 7 and cancels the timer. -/
theorem device_stop_effect_witness :
    [otherDevice, busyDevice].get? 1 = some busyDevice
    ∧ (ni_dhcp6_device_stop busyDevice).closed = [7]
    ∧ (ni_dhcp6_device_stop busyDevice).cancelled = [1100]
    ∧ (ni_dhcp6_device_stop busyDevice).dev.users = 1 :=
  ⟨rfl,
   (device_stop_effect [otherDevice, busyDevice] 1 busyDevice rfl).2.1,
   (device_stop_effect [otherDevice, busyDevice] 1 busyDevice rfl).2.2.2.1,
   (device_stop_effect [otherDevice, busyDevice] 1 busyDevice rfl).2.2.2.2.2.2.1⟩

/-- C26 (counterexample): the function `ni_dhcp6_release` on a device with an
outstanding exchange (socket open, timer armed with 1100 ms, retransmission
state armed) returns 0 and leaves the timer armed and the retransmission state
armed. -/
theorem release_leaves_exchange_pending :
    busyDevice.fsm.timer = some 1100
    ∧ busyDevice.retrans.timeout = 900
    ∧ (ni_dhcp6_release busyDevice none).1 = 0
    ∧ (ni_dhcp6_release busyDevice none).2.fsm.timer = some 1100
    ∧ (ni_dhcp6_release busyDevice none).2.retrans = busyDevice.retrans
    ∧ (ni_dhcp6_release busyDevice none).2.retrans
        ≠ (ni_dhcp6_device_retransmit_disarm busyDevice).retrans := by
  decide

/-- C26 (as amended): the function `ni_dhcp6_release` returns 0 and changes
nothing on the device, with or without a lease uuid: an armed timer stays
armed, the retransmission state stays as it was, the socket stays open. -/
theorem release_does_nothing (dev : ni_dhcp6_device_t) (lease_uuid : Option (List Nat)) :
    ni_dhcp6_release dev lease_uuid = (0, dev)
    ∧ (ni_dhcp6_release dev lease_uuid).2.fsm.timer = dev.fsm.timer
    ∧ (ni_dhcp6_release dev lease_uuid).2.retrans = dev.retrans
    ∧ (ni_dhcp6_release dev lease_uuid).2.sock = dev.sock :=
  ⟨rfl, rfl, rfl, rfl⟩

/-- C26 (as amended), on sample values: the busy device after a release for
the lease uuid of the sample request. -/
theorem release_does_nothing_witness :
    ni_dhcp6_release busyDevice (some sampleRequest.uuid) = (0, busyDevice) :=
  (release_does_nothing busyDevice (some sampleRequest.uuid)).1

/-! ## Socket and FSM state -/

/-- The function `ni_dhcp6_device_refresh` in terms of the address it picks:
the first address of the interface that is of family `AF_INET6` and
link-local, whatever its flags. -/
theorem refresh_result (env : Env) (dev : ni_dhcp6_device_t) :
    ((ni_dhcp6_device_refresh env dev).1 = 0
      ↔ ∃ addrs, env.netdev_addrs dev.link.ifindex = some addrs
          ∧ ∃ a ∈ addrs, a.family = AF_INET6
              ∧ IN6_IS_ADDR_LINKLOCAL a.local_addr.sin6_addr = true)
    ∧ ((ni_dhcp6_device_refresh env dev).1 = 0 →
        ∃ addrs a, env.netdev_addrs dev.link.ifindex = some addrs ∧ a ∈ addrs
          ∧ a.family = AF_INET6 ∧ IN6_IS_ADDR_LINKLOCAL a.local_addr.sin6_addr = true
          ∧ (ni_dhcp6_device_refresh env dev).2.client_addr = a.local_addr)
    ∧ ((ni_dhcp6_device_refresh env dev).1 ≠ 0 → ni_dhcp6_device_refresh env dev = (-1, dev)) := by
  unfold ni_dhcp6_device_refresh
  cases hn : env.netdev_addrs dev.link.ifindex with
  | none => simp
  | some addrs =>
    cases hf : addrs.find? (fun addr => addr.family == AF_INET6
        && IN6_IS_ADDR_LINKLOCAL addr.local_addr.sin6_addr) with
    | none =>
      simp only [hf]
      rw [List.find?_eq_none] at hf
      refine ⟨?_, ?_, fun _ => trivial⟩
      · constructor
        · intro h
          simp at h
        · rintro ⟨addrs1, h1, a, ha, hfam, hll⟩
          simp only [Option.some.injEq] at h1
          subst h1
          have := hf a ha
          simp [hfam, hll] at this
      · intro h
        simp at h
    | some a =>
      simp only [hf]
      have hmem := List.mem_of_find?_eq_some hf
      have hp := List.find?_some hf
      simp only [Bool.and_eq_true, beq_iff_eq] at hp
      refine ⟨?_, ?_, ?_⟩
      · constructor
        · intro _
          exact ⟨addrs, rfl, a, hmem, hp.1, hp.2⟩
        · intro _
          trivial
      · intro _
        exact ⟨addrs, a, rfl, hmem, hp.1, hp.2, rfl⟩
      · intro h
        exact absurd rfl h

/-- The address `ni_dhcp6_device_refresh` picks from a list has the same
`local_addr` when the flags of the addresses are replaced. -/
theorem refresh_pick_ignores_flags (f : ni_address_t → Nat) :
    ∀ addrs : List ni_address_t,
      ((addrs.map (fun a => { a with flags := f a })).find? (fun addr => addr.family == AF_INET6
          && IN6_IS_ADDR_LINKLOCAL addr.local_addr.sin6_addr)).map (fun a => a.local_addr)
        = (addrs.find? (fun addr => addr.family == AF_INET6
          && IN6_IS_ADDR_LINKLOCAL addr.local_addr.sin6_addr)).map (fun a => a.local_addr) := by
  intro addrs
  induction addrs with
  | nil => rfl
  | cons a rest ih =>
    simp only [List.map_cons, List.find?_cons]
    cases hp : (a.family == AF_INET6 && IN6_IS_ADDR_LINKLOCAL a.local_addr.sin6_addr) with
    | true => rfl
    | false => exact ih

/-- The function `ni_dhcp6_device_refresh` in terms of the `local_addr` of the
address it picks. -/
theorem refresh_by_pick (env : Env) (dev : ni_dhcp6_device_t) :
    ni_dhcp6_device_refresh env dev
      = match (env.netdev_addrs dev.link.ifindex).bind (fun addrs =>
          (addrs.find? (fun addr => addr.family == AF_INET6
            && IN6_IS_ADDR_LINKLOCAL addr.local_addr.sin6_addr)).map (fun a => a.local_addr)) with
        | some sa => (0, { dev with client_addr := sa })
        | none => (-1, dev) := by
  unfold ni_dhcp6_device_refresh
  cases env.netdev_addrs dev.link.ifindex with
  | none => rfl
  | some addrs =>
    simp only [Option.some_bind]
    cases addrs.find? (fun addr => addr.family == AF_INET6
        && IN6_IS_ADDR_LINKLOCAL addr.local_addr.sin6_addr) <;> rfl

/-- The function `ni_dhcp6_device_refresh` does not read the flags of the
addresses: with other flags on the same addresses the result is the same. -/
theorem refresh_ignores_flags (env : Env) (f : ni_address_t → Nat) (dev : ni_dhcp6_device_t) :
    ni_dhcp6_device_refresh
        { env with
          netdev_addrs := fun i =>
            (env.netdev_addrs i).map (List.map (fun a => { a with flags := f a })) } dev
      = ni_dhcp6_device_refresh env dev := by
  rw [refresh_by_pick, refresh_by_pick]
  cases hn : env.netdev_addrs dev.link.ifindex with
  | none => simp [hn]
  | some addrs =>
    simp only [hn, Option.map_some', Option.some_bind]
    rw [refresh_pick_ignores_flags f addrs]

/-- C28: while the only IPv6 link-local address of the interface is tentative,
`ni_dhcp6_device_refresh` returns 0 and caches that address as the client
source address; the flags of an address are never read. -/
theorem refresh_caches_tentative_address :
    tentativeEnv.netdev_addrs sampleDevice.link.ifindex
      = some [{ family := AF_INET6, flags := IFA_F_TENTATIVE, local_addr := sampleLinkLocal }]
    ∧ ni_dhcp6_device_refresh tentativeEnv sampleDevice
        = (0, { sampleDevice with client_addr := sampleLinkLocal })
    ∧ ni_dhcp6_device_refresh tentativeEnv sampleDevice
        = ni_dhcp6_device_refresh sampleEnv sampleDevice := by
  decide

/-! ## Configuration: vendor class and ignored servers -/

/-- C29: the function `ni_dhcp6_config_vendor_class` always returns 0; when
the configured enterprise number is 0 it yields 7075 and the one string
`<package-name>/<version>`, whatever the output array held, and otherwise the
configured enterprise number with the configured strings. -/
theorem config_vendor_class_result (env : Env) (vclass_data : List String) :
    (ni_dhcp6_config_vendor_class env vclass_data).1 = 0
    ∧ (env.config.vendor_class_en = 0 →
        (ni_dhcp6_config_vendor_class env vclass_data).2
          = (7075, [NI_DHCP6_PACKAGE_NAME env ++ "/" ++ NI_DHCP6_PACKAGE_VERSION env]))
    ∧ (env.config.vendor_class_en ≠ 0 →
        (ni_dhcp6_config_vendor_class env vclass_data).2
          = (env.config.vendor_class_en, env.config.vendor_class_data)) := by
  unfold ni_dhcp6_config_vendor_class
  by_cases h : env.config.vendor_class_en = 0
  · simp [h, NI_DHCP6_VENDOR_ENTERPRISE_NUMBER, NI_DHCP6_VENDOR_VERSION_STRING]
  · simp [h]

/-- C29, on sample values: without a configured vendor class and with stale
content in the output array the result is 7075 with `wicked-dhcp6/0.0.0`; with
enterprise number 311 configured it is the configured pair. -/
theorem config_vendor_class_result_witness :
    (ni_dhcp6_config_vendor_class sampleEnv ["stale"]).2 = (7075, ["wicked-dhcp6/0.0.0"])
    ∧ (ni_dhcp6_config_vendor_class vendorEnv ["stale"]).2 = (311, ["MSFT 5.0", "x86"]) :=
  ⟨(config_vendor_class_result sampleEnv ["stale"]).2.1 rfl,
   (config_vendor_class_result vendorEnv ["stale"]).2.2 (by decide)⟩

/-- The string `inet_ntop(AF_INET, ...)` prints depends on the first four
bytes only. -/
theorem inet_ntop_first_four (a b : List Nat) (h : a.take 4 = b.take 4) :
    inet_ntop_AF_INET a = inet_ntop_AF_INET b := by
  have hget : ∀ i, i < 4 → a.getD i 0 = b.getD i 0 := by
    intro i hi
    have ha : (a.take 4)[i]? = a[i]? := by rw [List.getElem?_take, if_pos hi]
    have hb : (b.take 4)[i]? = b[i]? := by rw [List.getElem?_take, if_pos hi]
    rw [List.getD_eq_getElem?_getD, List.getD_eq_getElem?_getD, ← ha, ← hb, h]
  unfold inet_ntop_AF_INET
  rw [hget 0 (by omega), hget 1 (by omega), hget 2 (by omega), hget 3 (by omega)]

/-- The function `ni_dhcp6_config_ignore_server` gives the same answer for two
addresses with the same first four bytes. -/
theorem ignore_server_first_four (env : Env) (a b : List Nat) (h : a.take 4 = b.take 4) :
    ni_dhcp6_config_ignore_server env a = ni_dhcp6_config_ignore_server env b := by
  unfold ni_dhcp6_config_ignore_server
  rw [inet_ntop_first_four a b h]

/-- C30: with `fe80::1` on the ignore-server list, the function
`ni_dhcp6_config_ignore_server` returns 0 for the address `fe80::1`: it looks
up the string `254.128.0.0`, the first four bytes printed as an IPv4 address.
With that string on the list, `fe80::1` and `fe80::2` are both ignored. -/
theorem ignore_server_misses_listed_address :
    inet_ntop_AF_INET sampleLinkLocal.sin6_addr = "254.128.0.0"
    ∧ ni_dhcp6_config_ignore_server ignoreEnv sampleLinkLocal.sin6_addr = 0
    ∧ ni_dhcp6_config_ignore_server ignoreQuadEnv sampleLinkLocal.sin6_addr = 1
    ∧ ni_dhcp6_config_ignore_server ignoreQuadEnv otherLinkLocal = 1
    ∧ sampleLinkLocal.sin6_addr ≠ otherLinkLocal := by
  decide

/-! ## Transmission and retransmission: return values -/

/-- The flags `ni_dhcp6_device_transmit` hands to `sendto`. -/
theorem transmit_flags (b : Bool) :
    ((if b = true then MSG_DONTROUTE else 0) = MSG_DONTROUTE ↔ b = true)
    ∧ ((if b = true then MSG_DONTROUTE else 0) = MSG_DONTROUTE
        ∨ (if b = true then MSG_DONTROUTE else 0) = 0) := by
  cases b <;> simp [MSG_DONTROUTE]

/-- The function `ni_dhcp6_device_transmit` on a device with a socket and a
message: one call of `sendto`, and 0 exactly when all bytes were sent. -/
theorem transmit_eq (env : Env) (dev : ni_dhcp6_device_t) (fd : Nat)
    (hne : dev.message ≠ []) (hsock : dev.sock = some fd) :
    ni_dhcp6_device_transmit env dev
      = some
          (if env.sendto (transmit_packet dev fd) = (dev.message.length : Int) then 0 else -1,
           [transmit_packet dev fd]) := by
  have hlen : dev.message.length ≠ 0 := by
    intro h
    exact hne (List.length_eq_zero.mp h)
  unfold ni_dhcp6_device_transmit
  simp only [beq_iff_eq, hlen, if_false, hsock]
  show (if env.sendto (transmit_packet dev fd) < 0 then some (-1, [transmit_packet dev fd])
      else if env.sendto (transmit_packet dev fd) = (dev.message.length : Int)
        then some (0, [transmit_packet dev fd])
        else some (-1, [transmit_packet dev fd])) = _
  generalize env.sendto (transmit_packet dev fd) = n
  by_cases hneg : n < 0
  · have hn : ¬ n = (dev.message.length : Int) := by omega
    rw [if_pos hneg, if_neg hn]
  · by_cases heq : n = (dev.message.length : Int)
    · rw [if_neg hneg, if_pos heq, if_pos heq]
    · rw [if_neg hneg, if_neg heq, if_neg heq]

/-- C31: the function `ni_dhcp6_device_transmit` returns -1 without sending
when the message buffer is empty; otherwise it hands the whole buffer once to
`sendto`, for `server_addr` on the device's socket, with `MSG_DONTROUTE` set
exactly when the destination is multicast or link-local, and returns 0 exactly
when the number of bytes sent is the length of the buffer, -1 otherwise.  The
function has no access to the device but to read it. -/
theorem transmit_result (env : Env) (dev : ni_dhcp6_device_t) :
    (dev.message = [] → ni_dhcp6_device_transmit env dev = some (-1, []))
    ∧ (∀ fd, dev.message ≠ [] → dev.sock = some fd →
        ∃ rv pkt, ni_dhcp6_device_transmit env dev = some (rv, [pkt])
          ∧ pkt.fd = fd ∧ pkt.data = dev.message ∧ pkt.dest = dev.server_addr
          ∧ (pkt.flags = MSG_DONTROUTE ↔
              (IN6_IS_ADDR_MULTICAST dev.server_addr.sin6_addr = true
                ∨ IN6_IS_ADDR_LINKLOCAL dev.server_addr.sin6_addr = true))
          ∧ (pkt.flags = MSG_DONTROUTE ∨ pkt.flags = 0)
          ∧ (rv = 0 ↔ env.sendto pkt = (dev.message.length : Int))
          ∧ (rv = 0 ∨ rv = -1)) := by
  constructor
  · intro h
    simp [ni_dhcp6_device_transmit, h]
  · intro fd hne hsock
    refine ⟨_, _, transmit_eq env dev fd hne hsock, rfl, rfl, rfl, ?_, ?_, ?_, ?_⟩
    · show (if _ then MSG_DONTROUTE else 0) = MSG_DONTROUTE ↔ _
      rw [(transmit_flags _).1]
      simp
    · exact (transmit_flags _).2
    · split <;> simp_all
    · split
      · exact Or.inl rfl
      · exact Or.inr rfl

/-- C31, on sample values: the first Solicit of the sample device goes once
to `ff02::1:2` on socket 7 with `MSG_DONTROUTE`, and the result is 0. -/
theorem transmit_result_witness :
    ∃ rv pkt, ni_dhcp6_device_transmit sampleEnv
          (acquireResult sampleEnv sampleDevice sampleRequest).dev = some (rv, [pkt])
      ∧ pkt.fd = 7 ∧ rv = 0 ∧ pkt.flags = MSG_DONTROUTE := by
  obtain ⟨rv, pkt, h, hfd, _, hdest, hflags, _, hrv, _⟩ :=
    (transmit_result sampleEnv (acquireResult sampleEnv sampleDevice sampleRequest).dev).2 7
      (by decide!) (by decide!)
  refine ⟨rv, pkt, h, hfd, ?_, ?_⟩
  · have h2 : ni_dhcp6_device_transmit sampleEnv
        (acquireResult sampleEnv sampleDevice sampleRequest).dev
          = some (0, [{ fd := 7, data := [1, 0xab, 0xcd, 0xef], flags := MSG_DONTROUTE,
                        dest := (acquireResult sampleEnv sampleDevice sampleRequest).dev.server_addr }]) := by
      decide!
    rw [h2] at h
    simp only [Option.some.injEq, Prod.mk.injEq] at h
    exact h.1.symm
  · exact hflags.mpr (Or.inl (by decide!))

/-- C32: when `ni_dhcp6_device_retransmit_advance` does not expire and the
doubling stays within `unsigned long`, the value handed to the timeout helper
is `2·RT` if MRT = 0 or `2·RT ≤ MRT` and MRT otherwise, with the jitter bounds
`max_jitter` on both sides; the helper's result is the new `retrans.timeout`,
its deadline the new `retrans.deadline`, nothing else changes.  Without a
deadline set the function returns FALSE and changes nothing. -/
theorem retransmit_advance_base (env : Env) (dev : ni_dhcp6_device_t)
    (hw : 2 * dev.retrans.timeout < ULONG_SIZE) :
    ((ni_dhcp6_device_retransmit_advance env dev).1 = true →
      (ni_dhcp6_device_retransmit_advance env dev).2
        = { dev with retrans := { dev.retrans with
            timeout := (ni_dhcp6_timeout_arm_msec env
              (if dev.retrans.params.max_timeout = 0
                  ∨ 2 * dev.retrans.timeout ≤ dev.retrans.params.max_timeout
                then 2 * dev.retrans.timeout else dev.retrans.params.max_timeout)
              dev.retrans.params.max_jitter dev.retrans.params.max_jitter).1,
            deadline := (ni_dhcp6_timeout_arm_msec env
              (if dev.retrans.params.max_timeout = 0
                  ∨ 2 * dev.retrans.timeout ≤ dev.retrans.params.max_timeout
                then 2 * dev.retrans.timeout else dev.retrans.params.max_timeout)
              dev.retrans.params.max_jitter dev.retrans.params.max_jitter).2 } })
    ∧ (timerisset dev.retrans.deadline = false →
        ni_dhcp6_device_retransmit_advance env dev = (false, dev)) := by
  have hbase : (if dev.retrans.params.max_timeout != 0
        && decide ((dev.retrans.timeout * 2) % ULONG_SIZE > dev.retrans.params.max_timeout)
      then dev.retrans.params.max_timeout
      else (dev.retrans.timeout * 2) % ULONG_SIZE)
      = (if dev.retrans.params.max_timeout = 0
          ∨ 2 * dev.retrans.timeout ≤ dev.retrans.params.max_timeout
        then 2 * dev.retrans.timeout else dev.retrans.params.max_timeout) := by
    rw [Nat.mod_eq_of_lt (by omega)]
    by_cases h0 : dev.retrans.params.max_timeout = 0
    · simp [h0]
      omega
    · by_cases h1 : 2 * dev.retrans.timeout ≤ dev.retrans.params.max_timeout
      · have h2 : ¬ dev.retrans.timeout * 2 > dev.retrans.params.max_timeout := by omega
        simp [h0, h1, h2]
        omega
      · have h2 : dev.retrans.timeout * 2 > dev.retrans.params.max_timeout := by omega
        simp [h0, h1, h2]
  constructor
  · intro hadv
    rw [← hbase]
    unfold ni_dhcp6_device_retransmit_advance at hadv ⊢
    split at hadv
    · simp at hadv
    · split at hadv
      · rename_i h1 h2
        simp only [h1, h2, if_true, if_false]
        rfl
      · simp at hadv
  · intro hdl
    unfold ni_dhcp6_device_retransmit_advance
    split
    · rfl
    · simp [hdl]

/-- C32, on sample values: RT 900 ms against MRT 120 s gives the base 1800 ms;
RT 70 s gives the base 120 s. -/
theorem retransmit_advance_base_witness :
    (ni_dhcp6_device_retransmit_advance sampleEnv lowRtDevice).2.retrans.timeout
        = (ni_dhcp6_timeout_arm_msec sampleEnv 1800 100 100).1
    ∧ (ni_dhcp6_device_retransmit_advance sampleEnv highRtDevice).2.retrans.timeout
        = (ni_dhcp6_timeout_arm_msec sampleEnv 120000 100 100).1 := by
  constructor
  · rw [(retransmit_advance_base sampleEnv lowRtDevice (by decide)).1 (by decide)]
    rfl
  · rw [(retransmit_advance_base sampleEnv highRtDevice (by decide)).1 (by decide)]
    rfl
/-- The function `ni_dhcp6_device_retransmit_advance` writes the
retransmission state only. -/
theorem retransmit_advance_frame (env : Env) (dev : ni_dhcp6_device_t) :
    (ni_dhcp6_device_retransmit_advance env dev).2
      = { dev with retrans := (ni_dhcp6_device_retransmit_advance env dev).2.retrans } := by
  unfold ni_dhcp6_device_retransmit_advance
  split
  · rfl
  · split <;> rfl

/-- The function `ni_dhcp6_device_retransmit_advance` leaves the device as it
was when it returns FALSE. -/
theorem retransmit_advance_false (env : Env) (dev : ni_dhcp6_device_t)
    (h : (ni_dhcp6_device_retransmit_advance env dev).1 = false) :
    ni_dhcp6_device_retransmit_advance env dev = (false, dev) := by
  unfold ni_dhcp6_device_retransmit_advance at h ⊢
  split
  · rfl
  · rename_i h1
    simp only [h1] at h
    split
    · rename_i h2
      simp [h2] at h
    · rfl

/-- The function `ni_dhcp6_device_transmit` returns 0 or -1. -/
theorem transmit_rv (env : Env) (dev : ni_dhcp6_device_t) (rv : Int) (sent : List Sendto)
    (ht : ni_dhcp6_device_transmit env dev = some (rv, sent)) : rv = 0 ∨ rv = -1 := by
  by_cases hm : dev.message = []
  · simp [ni_dhcp6_device_transmit, hm] at ht
    exact Or.inr ht.1.symm
  · cases hs : dev.sock with
    | none =>
      have hlen : dev.message.length ≠ 0 := fun h => hm (List.length_eq_zero.mp h)
      simp [ni_dhcp6_device_transmit, hlen, hs] at ht
    | some fd =>
      rw [transmit_eq env dev fd hm hs] at ht
      simp only [Option.some.injEq, Prod.mk.injEq] at ht
      obtain ⟨h1, _⟩ := ht
      rw [← h1]
      split
      · exact Or.inl rfl
      · exact Or.inr rfl

/-- The results of `ni_dhcp6_device_retransmit`: -1, or the nonzero result of
the message builder. -/
theorem retransmit_cases (env : Env) (dev : ni_dhcp6_device_t)
    (r : Int × ni_dhcp6_device_t × List Sendto)
    (h : ni_dhcp6_device_retransmit env dev = some r) :
    r.1 = -1
    ∨ (r.1 ≠ 0 ∧ ∃ d code lease, r.1 = (env.build_message d code lease).1) := by
  unfold ni_dhcp6_device_retransmit at h
  dsimp only at h
  repeat' split at h
  all_goals first
    | (simp at h; done)
    | (simp only [Option.some.injEq] at h
       subst h
       exact Or.inl rfl)
    | (simp only [Option.some.injEq] at h
       subst h
       rename_i hb
       exact Or.inr ⟨by simpa using hb, _, _, _, rfl⟩)
    | (simp only [Option.some.injEq] at h
       subst h
       rename_i ht hrv
       rcases transmit_rv _ _ _ _ ht with h0 | h1
       · simp [h0] at hrv
       · exact Or.inl h1)

/-- C33: the function `ni_dhcp6_device_retransmit` never returns 0.  When the
exchange has expired it returns -1 with the retransmission state zeroed; when
the message was rebuilt (builder result 0) and sent (transmit result 0) it
returns -1 as well, with the retransmission state advanced.  With a builder
that returns 0 or a negative value every result is negative. -/
theorem retransmit_never_zero (env : Env) (dev : ni_dhcp6_device_t) :
    (∀ r, ni_dhcp6_device_retransmit env dev = some r → r.1 ≠ 0)
    ∧ ((ni_dhcp6_device_retransmit_advance env dev).1 = false →
        ni_dhcp6_device_retransmit env dev
          = some (-1, { dev with retrans := ni_dhcp6_retrans_t.zero }, []))
    ∧ (∀ config sent,
        (ni_dhcp6_device_retransmit_advance env dev).1 = true →
        dev.config = some config →
        (env.build_message (ni_dhcp6_device_retransmit_advance env dev).2
          (if config.info_only then NI_DHCP6_INFO_REQUEST else NI_DHCP6_SOLICIT)
          (if config.info_only then none else dev.lease)).1 = 0 →
        ni_dhcp6_device_transmit env
          { (ni_dhcp6_device_retransmit_advance env dev).2 with
            message := (env.build_message (ni_dhcp6_device_retransmit_advance env dev).2
              (if config.info_only then NI_DHCP6_INFO_REQUEST else NI_DHCP6_SOLICIT)
              (if config.info_only then none else dev.lease)).2 } = some (0, sent) →
        ni_dhcp6_device_retransmit env dev
          = some (-1,
              { (ni_dhcp6_device_retransmit_advance env dev).2 with
                message := (env.build_message (ni_dhcp6_device_retransmit_advance env dev).2
                  (if config.info_only then NI_DHCP6_INFO_REQUEST else NI_DHCP6_SOLICIT)
                  (if config.info_only then none else dev.lease)).2 },
              sent))
    ∧ ((∀ d code lease, (env.build_message d code lease).1 ≤ 0) →
        ∀ r, ni_dhcp6_device_retransmit env dev = some r → r.1 < 0) := by
  refine ⟨?_, ?_, ?_, ?_⟩
  · intro r h
    rcases retransmit_cases env dev r h with h1 | ⟨h0, _⟩
    · rw [h1]
      decide
    · exact h0
  · intro hadv
    have h := retransmit_advance_false env dev hadv
    simp [ni_dhcp6_device_retransmit, h, ni_dhcp6_device_retransmit_disarm]
  · intro config sent hadv hc
    have hkey : ni_dhcp6_device_retransmit_advance env dev
        = (true, { dev with retrans := (ni_dhcp6_device_retransmit_advance env dev).2.retrans }) := by
      rw [← retransmit_advance_frame, ← hadv]
    generalize (ni_dhcp6_device_retransmit_advance env dev).2.retrans = rt at hkey
    unfold ni_dhcp6_device_retransmit
    rw [hkey]
    intro hb ht
    cases hio : config.info_only
    · simp only [hio, hc, Bool.false_eq_true, if_false] at hb ht
      simp [hc, hio, hb, ht]
    · simp only [hio, hc, if_true] at hb ht
      simp [hc, hio, hb, ht]
  · intro hbuild r h
    rcases retransmit_cases env dev r h with h1 | ⟨h0, d, code, lease, hr⟩
    · rw [h1]
      decide
    · have := hbuild d code lease
      rw [← hr] at this
      omega

/-- C33, on sample values: the expired exchange and the successful
retransmission of the device with RT 900 ms both give -1; the first with the
retransmission state zeroed, the second with RT advanced to 1900 ms and one
datagram sent. -/
theorem retransmit_never_zero_witness :
    ni_dhcp6_device_retransmit sampleEnv expiredDevice
        = some (-1, { expiredDevice with retrans := ni_dhcp6_retrans_t.zero }, [])
    ∧ (ni_dhcp6_device_retransmit sampleEnv lowRtDevice).map
          (fun r => (r.1, r.2.1.retrans.timeout, r.2.2.length)) = some (-1, 1900, 1) :=
  ⟨(retransmit_never_zero sampleEnv expiredDevice).2.1 (by decide), by decide!⟩

end Dhcp6

namespace Wireless

/-! ## Printing an SSID -/

set_option maxRecDepth 100000 in
/-- The conversion `%03o` of a byte: its three octal digits. -/
theorem sprintf_03o_byte : ∀ cc, cc < 256 →
    sprintf_03o cc = [48 + cc / 64, 48 + cc / 8 % 8, 48 + cc % 8] := by
  decide!
/-- The loop of `ni_wireless_print_ssid` on bytes: each byte gives itself or a
backslash and its three octal digits. -/
theorem print_ssid_loop_eq (isalnum : Nat → Bool) :
    ∀ l : List Nat, (∀ b ∈ l, b < 256) →
      print_ssid_loop isalnum l
        = l.flatMap (fun cc =>
            if (isalnum cc || cc == 45 || cc == 95 || cc == 32) = true then [cc]
            else [92, 48 + cc / 64, 48 + cc / 8 % 8, 48 + cc % 8]) := by
  intro l
  induction l with
  | nil => intro _; rfl
  | cons cc rest ih =>
    intro h
    have hcc : cc < 256 := h cc (List.mem_cons_self _ _)
    have hrest : ∀ b ∈ rest, b < 256 := fun b hb => h b (List.mem_cons_of_mem _ hb)
    simp only [print_ssid_loop, List.flatMap_cons, ih hrest, ssid_plain, sprintf_03o_byte cc hcc]

/-- The length of what the loop of `ni_wireless_print_ssid` writes. -/
theorem print_ssid_loop_length (isalnum : Nat → Bool) :
    ∀ l : List Nat, (∀ b ∈ l, b < 256) →
      (print_ssid_loop isalnum l).length
        = l.countP (fun cc => isalnum cc || cc == 45 || cc == 95 || cc == 32)
          + 4 * l.countP (fun cc => !(isalnum cc || cc == 45 || cc == 95 || cc == 32)) := by
  intro l
  induction l with
  | nil => intro _; rfl
  | cons cc rest ih =>
    intro h
    have hcc : cc < 256 := h cc (List.mem_cons_self _ _)
    have hrest : ∀ b ∈ rest, b < 256 := fun b hb => h b (List.mem_cons_of_mem _ hb)
    simp only [print_ssid_loop, List.length_append, ih hrest, ssid_plain, sprintf_03o_byte cc hcc,
      List.countP_cons]
    cases hp : (isalnum cc || cc == 45 || cc == 95 || cc == 32)
    · simp
      omega
    · simp
      omega

/-- No NUL is written by the loop of `ni_wireless_print_ssid` when NUL is not
alphanumeric. -/
theorem print_ssid_loop_no_nul (isalnum : Nat → Bool) (h0 : isalnum 0 = false) :
    ∀ l : List Nat, (∀ b ∈ l, b < 256) → 0 ∉ print_ssid_loop isalnum l := by
  intro l
  induction l with
  | nil => intro _; simp [print_ssid_loop]
  | cons cc rest ih =>
    intro h
    have hcc : cc < 256 := h cc (List.mem_cons_self _ _)
    have hrest : ∀ b ∈ rest, b < 256 := fun b hb => h b (List.mem_cons_of_mem _ hb)
    simp only [print_ssid_loop, List.mem_append, not_or]
    refine ⟨?_, ih hrest⟩
    cases hp : ssid_plain isalnum cc
    · simp only [Bool.false_eq_true, if_false, sprintf_03o_byte cc hcc]
      simp
      omega
    · simp only [if_true, List.mem_singleton]
      intro hz
      subst hz
      simp [ssid_plain, h0] at hp

/-- C34: for an SSID of length at most `sizeof(ssid->data)`, the function
`ni_wireless_print_ssid` writes, byte by byte in order, the byte itself if it
is alphanumeric, `-`, `_` or a space, and otherwise a backslash and the three
octal digits of its value.  The length of the output is the number of plain
bytes plus four times the number of escaped bytes, at most four times the
length of the SSID, and the output with its NUL fits the result buffer of
`4 * sizeof(ssid->data) + 1` bytes. -/
theorem print_ssid_output (isalnum : Nat → Bool) (sizeof_data : Nat) (ssid : ni_wireless_ssid_t)
    (hlen : ssid.len ≤ sizeof_data) (hdata : ssid.data.length = sizeof_data)
    (hbytes : ∀ b ∈ ssid.data, b < 256) :
    ∃ out, ni_wireless_print_ssid isalnum sizeof_data ssid = some out
      ∧ out = (ssid.data.take ssid.len).flatMap (fun cc =>
          if (isalnum cc || cc == 45 || cc == 95 || cc == 32) = true then [cc]
          else [92, 48 + cc / 64, 48 + cc / 8 % 8, 48 + cc % 8])
      ∧ out.length
          = (ssid.data.take ssid.len).countP
              (fun cc => isalnum cc || cc == 45 || cc == 95 || cc == 32)
            + 4 * (ssid.data.take ssid.len).countP
              (fun cc => !(isalnum cc || cc == 45 || cc == 95 || cc == 32))
      ∧ out.length ≤ 4 * ssid.len
      ∧ out.length + 1 ≤ 4 * sizeof_data + 1
      ∧ (isalnum 0 = false → 0 ∉ out) := by
  have htake : ∀ b ∈ ssid.data.take ssid.len, b < 256 :=
    fun b hb => hbytes b (List.mem_of_mem_take hb)
  have hl := print_ssid_loop_length isalnum _ htake
  have hcount : (ssid.data.take ssid.len).countP
        (fun cc => isalnum cc || cc == 45 || cc == 95 || cc == 32)
      + (ssid.data.take ssid.len).countP
        (fun cc => !(isalnum cc || cc == 45 || cc == 95 || cc == 32))
      = ssid.len := by
    have h1 := List.length_eq_countP_add_countP
      (fun cc => isalnum cc || cc == 45 || cc == 95 || cc == 32) (ssid.data.take ssid.len)
    have h2 : (ssid.data.take ssid.len).length = ssid.len := by
      rw [List.length_take]
      omega
    simp only [Bool.not_eq_true, Bool.decide_eq_false] at h1
    omega
  refine ⟨print_ssid_loop isalnum (ssid.data.take ssid.len), ?_,
    print_ssid_loop_eq isalnum _ htake, hl, ?_, ?_, ?_⟩
  · simp [ni_wireless_print_ssid, hlen]
  · omega
  · omega
  · intro h0
    exact print_ssid_loop_no_nul isalnum h0 _ htake
/-- C34, on sample values: the SSID `hi !` followed by the byte 0xc3 is
printed as `hi \041\303`, eleven bytes. -/
theorem print_ssid_output_witness :
    ∃ out, ni_wireless_print_ssid isalnum_C 32 sampleSsid = some out
      ∧ out = [104, 105, 32, 92, 48, 52, 49, 92, 51, 48, 51]
      ∧ out.length = 1 * 3 + 4 * 2 := by
  obtain ⟨out, h1, h2, h3, _⟩ :=
    print_ssid_output isalnum_C 32 sampleSsid (by decide) (by decide) (by decide)
  refine ⟨out, h1, ?_, ?_⟩
  · rw [h2]
    decide
  · rw [h3]
    decide

theorem parse_ssid_cons_ne (x : Nat) (t : List Nat) (h : x ≠ 92) :
    parse_ssid (x :: t) = x :: parse_ssid t := by
  rcases t with _ | ⟨a, _ | ⟨b, _ | ⟨c, rest⟩⟩⟩ <;> simp [parse_ssid, h]

theorem parse_ssid_escape (a b c : Nat) (t : List Nat) :
    parse_ssid (92 :: a :: b :: c :: t)
      = ((a - 48) * 64 + (b - 48) * 8 + (c - 48)) :: parse_ssid t := by
  simp [parse_ssid]

/-- Reading back what the loop of `ni_wireless_print_ssid` wrote gives the
bytes printed, when the backslash is not alphanumeric. -/
theorem parse_print_ssid_loop (isalnum : Nat → Bool) (h92 : isalnum 92 = false) :
    ∀ l : List Nat, (∀ b ∈ l, b < 256) → parse_ssid (print_ssid_loop isalnum l) = l := by
  intro l
  induction l with
  | nil => intro _; rfl
  | cons cc rest ih =>
    intro h
    have hcc : cc < 256 := h cc (List.mem_cons_self _ _)
    have hrest : ∀ b ∈ rest, b < 256 := fun b hb => h b (List.mem_cons_of_mem _ hb)
    simp only [print_ssid_loop]
    cases hp : ssid_plain isalnum cc
    · simp only [Bool.false_eq_true, if_false, sprintf_03o_byte cc hcc, List.cons_append,
        List.nil_append, parse_ssid_escape, ih hrest]
      congr 1
      omega
    · have hne : cc ≠ 92 := by
        intro hz
        subst hz
        simp [ssid_plain, h92] at hp
      simp only [if_true, List.cons_append, List.nil_append, parse_ssid_cons_ne _ _ hne, ih hrest]

/-- C38: with a classification `isalnum` for which the backslash is not
alphanumeric, two SSIDs of length at most `sizeof(ssid->data)` that differ in
length or in a byte are printed as different strings by
`ni_wireless_print_ssid`; the printed form is read back to the SSID by taking
each backslash with the three octal digits after it as one byte. -/
theorem print_ssid_injective (isalnum : Nat → Bool) (sizeof_data : Nat)
    (s1 s2 : ni_wireless_ssid_t) (h92 : isalnum 92 = false)
    (hlen1 : s1.len ≤ sizeof_data) (hdata1 : s1.data.length = sizeof_data)
    (hbytes1 : ∀ b ∈ s1.data, b < 256)
    (hlen2 : s2.len ≤ sizeof_data) (hdata2 : s2.data.length = sizeof_data)
    (hbytes2 : ∀ b ∈ s2.data, b < 256)
    (hdiff : s1.len ≠ s2.len ∨ s1.data.take s1.len ≠ s2.data.take s2.len) :
    ni_wireless_print_ssid isalnum sizeof_data s1 ≠ ni_wireless_print_ssid isalnum sizeof_data s2
    ∧ ∃ out, ni_wireless_print_ssid isalnum sizeof_data s1 = some out
        ∧ parse_ssid out = s1.data.take s1.len := by
  have ht1 : ∀ b ∈ s1.data.take s1.len, b < 256 :=
    fun b hb => hbytes1 b (List.mem_of_mem_take hb)
  have ht2 : ∀ b ∈ s2.data.take s2.len, b < 256 :=
    fun b hb => hbytes2 b (List.mem_of_mem_take hb)
  have hp1 : ni_wireless_print_ssid isalnum sizeof_data s1
      = some (print_ssid_loop isalnum (s1.data.take s1.len)) := by
    simp [ni_wireless_print_ssid, hlen1]
  have hp2 : ni_wireless_print_ssid isalnum sizeof_data s2
      = some (print_ssid_loop isalnum (s2.data.take s2.len)) := by
    simp [ni_wireless_print_ssid, hlen2]
  refine ⟨?_, _, hp1, parse_print_ssid_loop isalnum h92 _ ht1⟩
  intro heq
  rw [hp1, hp2, Option.some.injEq] at heq
  have htake : s1.data.take s1.len = s2.data.take s2.len := by
    rw [← parse_print_ssid_loop isalnum h92 _ ht1, ← parse_print_ssid_loop isalnum h92 _ ht2, heq]
  rcases hdiff with hl | hd
  · apply hl
    have h1 : (s1.data.take s1.len).length = s1.len := by
      rw [List.length_take]
      omega
    have h2 : (s2.data.take s2.len).length = s2.len := by
      rw [List.length_take]
      omega
    rw [← h1, ← h2, htake]
  · exact hd htake

/-- C38, on sample values: the byte 0x01 is printed as `\001`, the four
characters backslash, `0`, `0`, `1` as `\134001`. -/
theorem print_ssid_injective_witness :
    ni_wireless_print_ssid isalnum_C 32 controlSsid = some [92, 48, 48, 49]
    ∧ ni_wireless_print_ssid isalnum_C 32 backslashSsid = some [92, 49, 51, 52, 48, 48, 49]
    ∧ ni_wireless_print_ssid isalnum_C 32 controlSsid
        ≠ ni_wireless_print_ssid isalnum_C 32 backslashSsid :=
  ⟨by decide, by decide,
   (print_ssid_injective isalnum_C 32 controlSsid backslashSsid (by decide) (by decide)
      (by decide) (by decide) (by decide) (by decide) (by decide) (Or.inl (by decide))).1⟩

/-! ## Information elements -/

/-- The function `__ni_wireless_process_ie` on a buffer too short for a
header. -/
theorem process_ie_short (hdr : WirelessHeader) (fuel : Nat) (net : ni_wireless_network_t)
    (tail : List Nat) (h : tail.length ≤ 1) :
    __ni_wireless_process_ie hdr fuel net tail = some (0, net) := by
  rcases tail with _ | ⟨a, _ | ⟨b, rest⟩⟩
  · unfold __ni_wireless_process_ie
    rfl
  · unfold __ni_wireless_process_ie
    rfl
  · simp only [List.length_cons] at h
    omega

/-- The function `__ni_wireless_process_ie` on a header that declares more
bytes than remain. -/
theorem process_ie_truncated (hdr : WirelessHeader) (fuel : Nat) (net : ni_wireless_network_t)
    (type len : Nat) (rest : List Nat) (h : rest.length < len) :
    __ni_wireless_process_ie hdr (fuel + 1) net (type :: len :: rest) = some (-1, net) := by
  simp [__ni_wireless_process_ie, ni_buffer_count, h]

/-- One round of `__ni_wireless_process_ie` on an element that is neither WPA
nor RSN: the element is skipped. -/
theorem process_ie_skip (hdr : WirelessHeader) (fuel : Nat) (net : ni_wireless_network_t)
    (type : Nat) (payload rest : List Nat) (h1 : type ≠ 0xdd) (h2 : type ≠ 0x30) :
    __ni_wireless_process_ie hdr (fuel + 1) net (type :: payload.length :: (payload ++ rest))
      = __ni_wireless_process_ie hdr fuel net rest := by
  rw [__ni_wireless_process_ie]
  simp [ni_buffer_count, h1, h2]

theorem encode_elements_length (es : List (Nat × List Nat)) :
    2 * es.length ≤ (encode_elements es).length := by
  induction es with
  | nil => simp [encode_elements]
  | cons e rest ih =>
    simp only [encode_elements, List.length_cons, List.length_append]
    omega

/-- C36: on a buffer that consists of information elements whose type is
neither 0xdd nor 0x30, with enough fuel for one round per two bytes,
`__ni_wireless_process_ie` has a result and leaves the network unchanged: it
returns 0 when at most one stray byte follows the last element, also for the
empty buffer, and -1 when the elements are followed by a header that declares
more bytes than remain after it. -/
theorem process_ie_skips_unsupported (hdr : WirelessHeader) (net : ni_wireless_network_t)
    (es : List (Nat × List Nat)) (hes : ∀ e ∈ es, e.1 ≠ 0xdd ∧ e.1 ≠ 0x30) :
    (∀ fuel tail, tail.length ≤ 1 → (encode_elements es ++ tail).length / 2 < fuel →
      __ni_wireless_process_ie hdr fuel net (encode_elements es ++ tail) = some (0, net))
    ∧ (∀ fuel type len rest, rest.length < len →
        (encode_elements es ++ type :: len :: rest).length / 2 < fuel →
        __ni_wireless_process_ie hdr fuel net (encode_elements es ++ type :: len :: rest)
          = some (-1, net)) := by
  induction es with
  | nil =>
    constructor
    · intro fuel tail ht _
      exact process_ie_short hdr fuel net tail ht
    · intro fuel type len rest hlt hfuel
      obtain ⟨fuel1, rfl⟩ : ∃ f, fuel = f + 1 := ⟨fuel - 1, by omega⟩
      exact process_ie_truncated hdr fuel1 net type len rest hlt
  | cons e es1 ih =>
    have he := hes e (List.mem_cons_self _ _)
    have ih1 := ih (fun x hx => hes x (List.mem_cons_of_mem _ hx))
    constructor
    · intro fuel tail ht hfuel
      simp only [encode_elements, List.cons_append, List.append_assoc, List.length_cons,
        List.length_append] at hfuel ⊢
      obtain ⟨fuel1, rfl⟩ : ∃ f, fuel = f + 1 := ⟨fuel - 1, by omega⟩
      rw [process_ie_skip hdr fuel1 net e.1 e.2 _ he.1 he.2]
      apply ih1.1 fuel1 tail ht
      simp only [List.length_append]
      omega
    · intro fuel type len rest hlt hfuel
      simp only [encode_elements, List.cons_append, List.append_assoc, List.length_cons,
        List.length_append] at hfuel ⊢
      obtain ⟨fuel1, rfl⟩ : ∃ f, fuel = f + 1 := ⟨fuel - 1, by omega⟩
      rw [process_ie_skip hdr fuel1 net e.1 e.2 _ he.1 he.2]
      apply ih1.2 fuel1 type len rest hlt
      simp only [List.length_append, List.length_cons]
      omega

/-- C36, on sample values: two unsupported elements followed by a stray byte
give 0; the same elements with the second one declaring five bytes where one
remains give -1. -/
theorem process_ie_skips_unsupported_witness :
    __ni_wireless_process_ie sampleHeader 5 { supported_auth_modes := [] }
        [0, 2, 65, 66, 1, 1, 130, 7] = some (0, { supported_auth_modes := [] })
    ∧ __ni_wireless_process_ie sampleHeader 5 { supported_auth_modes := [] }
        [0, 2, 65, 66, 1, 5, 130] = some (-1, { supported_auth_modes := [] }) :=
  ⟨(process_ie_skips_unsupported sampleHeader { supported_auth_modes := [] }
      [(0, [65, 66]), (1, [130])] (by decide)).1 5 [7] (by decide) (by decide),
   (process_ie_skips_unsupported sampleHeader { supported_auth_modes := [] }
      [(0, [65, 66])] (by decide)).2 5 1 5 [130] (by decide) (by decide)⟩

/-- Every buffer is a sequence of complete elements of unsupported type,
followed by at most one stray byte, or by a header that declares more bytes than
remain, or by a complete element of type 0xdd or 0x30. -/
theorem buffer_shape : ∀ (n : Nat) (buf : List Nat), buf.length ≤ n →
    ∃ es : List (Nat × List Nat), (∀ e ∈ es, e.1 ≠ 0xdd ∧ e.1 ≠ 0x30)
      ∧ ((∃ tail, tail.length ≤ 1 ∧ buf = encode_elements es ++ tail)
        ∨ (∃ type len rest, rest.length < len ∧ buf = encode_elements es ++ type :: len :: rest)
        ∨ (∃ type len rest, (type = 0xdd ∨ type = 0x30) ∧ len ≤ rest.length
            ∧ buf = encode_elements es ++ type :: len :: rest)) := by
  intro n
  induction n with
  | zero =>
    intro buf h
    refine ⟨[], by simp, Or.inl ⟨buf, by omega, rfl⟩⟩
  | succ n ih =>
    intro buf h
    rcases buf with _ | ⟨type, _ | ⟨len, rest⟩⟩
    · exact ⟨[], by simp, Or.inl ⟨[], by simp, rfl⟩⟩
    · exact ⟨[], by simp, Or.inl ⟨[type], by simp, rfl⟩⟩
    · by_cases hlt : rest.length < len
      · exact ⟨[], by simp, Or.inr (Or.inl ⟨type, len, rest, hlt, rfl⟩)⟩
      · by_cases hw : type = 0xdd ∨ type = 0x30
        · exact ⟨[], by simp, Or.inr (Or.inr ⟨type, len, rest, hw, by omega, rfl⟩)⟩
        · have hdrop : (rest.drop len).length ≤ n := by
            simp only [List.length_cons, List.length_drop] at h ⊢
            omega
          obtain ⟨es, hes, hshape⟩ := ih (rest.drop len) hdrop
          have htake : (rest.take len).length = len := by
            rw [List.length_take]
            omega
          have hbuf : ∀ t, rest.drop len = encode_elements es ++ t →
              type :: len :: rest = encode_elements ((type, rest.take len) :: es) ++ t := by
            intro t ht
            simp only [encode_elements, htake, List.cons_append, List.append_assoc, ← ht,
              List.take_append_drop]
          refine ⟨(type, rest.take len) :: es, ?_, ?_⟩
          · intro e he
            rcases List.mem_cons.mp he with rfl | he1
            · exact ⟨fun h1 => hw (Or.inl h1), fun h2 => hw (Or.inr h2)⟩
            · exact hes e he1
          · rcases hshape with ⟨tail, ht, hb⟩ | ⟨t, l, r, hl, hb⟩ | ⟨t, l, r, hw1, hl, hb⟩
            · exact Or.inl ⟨tail, ht, hbuf _ hb⟩
            · exact Or.inr (Or.inl ⟨t, l, r, hl, hbuf _ hb⟩)
            · exact Or.inr (Or.inr ⟨t, l, r, hw1, hl, hbuf _ hb⟩)

/-! ## Kernel values and wicked values -/

/-- The function `__ni_kernel_to_wicked` reads past the array when the value
is not a kernel value of an array whose wicked values are not negative, the
last entry among them. -/
theorem kernel_to_wicked_unknown (value : Int) :
    ∀ map : List __ni_kernel_map_t,
      (∀ entry ∈ map, 0 ≤ entry.wicked_value ∧ entry.kernel_value ≠ value) →
      __ni_kernel_to_wicked map value = none := by
  intro map
  induction map with
  | nil => intro _; rfl
  | cons entry rest ih =>
    intro h
    have he := h entry (List.mem_cons_self _ _)
    have hrest := ih (fun x hx => h x (List.mem_cons_of_mem _ hx))
    simp [__ni_kernel_to_wicked, he.1, he.2, hrest]

/-- The function `__ni_kernel_to_wicked` stops at an entry with a negative
wicked value and returns -1, when no entry before it has the kernel value. -/
theorem kernel_to_wicked_sentinel (value : Int) (last : __ni_kernel_map_t)
    (hlast : last.wicked_value < 0) (after : List __ni_kernel_map_t) :
    ∀ map : List __ni_kernel_map_t,
      (∀ entry ∈ map, 0 ≤ entry.wicked_value ∧ entry.kernel_value ≠ value) →
      __ni_kernel_to_wicked (map ++ last :: after) value = some (-1) := by
  intro map
  induction map with
  | nil =>
    intro _
    have : ¬ last.wicked_value ≥ 0 := by omega
    simp [__ni_kernel_to_wicked, this]
  | cons entry rest ih =>
    intro h
    have he := h entry (List.mem_cons_self _ _)
    have hrest := ih (fun x hx => h x (List.mem_cons_of_mem _ hx))
    simp [__ni_kernel_to_wicked, he.1, he.2, hrest]

/-- The function `__ni_kernel_to_wicked` returns the wicked value paired with
each kernel value of the cipher map and of the key management map. -/
theorem kernel_to_wicked_known (hdr : WirelessHeader) :
    __ni_kernel_to_wicked (__ni_wireless_cipher_map hdr) IW_IE_CIPHER_NONE
        = some (hdr.NI_WIRELESS_CIPHER_NONE : Int)
    ∧ __ni_kernel_to_wicked (__ni_wireless_cipher_map hdr) IW_IE_CIPHER_WEP40
        = some (hdr.NI_WIRELESS_CIPHER_WEP40 : Int)
    ∧ __ni_kernel_to_wicked (__ni_wireless_cipher_map hdr) IW_IE_CIPHER_TKIP
        = some (hdr.NI_WIRELESS_CIPHER_TKIP : Int)
    ∧ __ni_kernel_to_wicked (__ni_wireless_cipher_map hdr) IW_IE_CIPHER_WRAP
        = some (hdr.NI_WIRELESS_CIPHER_WRAP : Int)
    ∧ __ni_kernel_to_wicked (__ni_wireless_cipher_map hdr) IW_IE_CIPHER_CCMP
        = some (hdr.NI_WIRELESS_CIPHER_CCMP : Int)
    ∧ __ni_kernel_to_wicked (__ni_wireless_cipher_map hdr) IW_IE_CIPHER_WEP104
        = some (hdr.NI_WIRELESS_CIPHER_WEP104 : Int)
    ∧ __ni_kernel_to_wicked (__ni_wireless_key_mgmt_map hdr) IW_IE_KEY_MGMT_NONE
        = some (hdr.NI_WIRELESS_KEY_MGMT_NONE : Int)
    ∧ __ni_kernel_to_wicked (__ni_wireless_key_mgmt_map hdr) IW_IE_KEY_MGMT_802_1X
        = some (hdr.NI_WIRELESS_KEY_MGMT_802_1X : Int)
    ∧ __ni_kernel_to_wicked (__ni_wireless_key_mgmt_map hdr) IW_IE_KEY_MGMT_PSK
        = some (hdr.NI_WIRELESS_KEY_MGMT_PSK : Int) := by
  simp [__ni_kernel_to_wicked, __ni_wireless_cipher_map, __ni_wireless_key_mgmt_map,
    IW_IE_CIPHER_NONE, IW_IE_CIPHER_WEP40, IW_IE_CIPHER_TKIP, IW_IE_CIPHER_WRAP,
    IW_IE_CIPHER_CCMP, IW_IE_CIPHER_WEP104, IW_IE_KEY_MGMT_NONE, IW_IE_KEY_MGMT_802_1X,
    IW_IE_KEY_MGMT_PSK]

/-- The function `__ni_kernel_to_wicked` on the two maps of `wireless.c` for a
byte that is not a kernel value: the entry `{ -1 }` that ends each array has
the wicked value 0, the loop does not stop there, and the next entry is read
past the end of the array. -/
theorem kernel_to_wicked_maps_unknown (hdr : WirelessHeader) (value : Int) :
    (5 < value → __ni_kernel_to_wicked (__ni_wireless_cipher_map hdr) value = none)
    ∧ (2 < value → __ni_kernel_to_wicked (__ni_wireless_key_mgmt_map hdr) value = none) := by
  constructor
  · intro h
    apply kernel_to_wicked_unknown
    intro entry he
    simp only [__ni_wireless_cipher_map, List.mem_cons, List.mem_singleton, List.mem_nil_iff,
      or_false] at he
    rcases he with rfl | rfl | rfl | rfl | rfl | rfl | rfl <;>
      simp [IW_IE_CIPHER_NONE, IW_IE_CIPHER_WEP40, IW_IE_CIPHER_TKIP, IW_IE_CIPHER_WRAP,
        IW_IE_CIPHER_CCMP, IW_IE_CIPHER_WEP104] <;> omega
  · intro h
    apply kernel_to_wicked_unknown
    intro entry he
    simp only [__ni_wireless_key_mgmt_map, List.mem_cons, List.mem_singleton, List.mem_nil_iff,
      or_false] at he
    rcases he with rfl | rfl | rfl | rfl <;>
      simp [IW_IE_KEY_MGMT_NONE, IW_IE_KEY_MGMT_802_1X, IW_IE_KEY_MGMT_PSK] <;> omega

/-- C39: for the type byte 6 the function `__ni_kernel_to_wicked` on the
cipher map does not stop at the entry `{ -1 }` that ends the array (its
`wicked_value` is 0, and the loop tests `wicked_value >= 0`): it goes on to
read past the end of the array, and so does the key management map for the
type byte 3; no -1 is returned.  With an array ended by an entry of negative
wicked value the result would be -1. -/
theorem kernel_to_wicked_misses_sentinel (hdr : WirelessHeader) :
    (__ni_wireless_cipher_map hdr).getLast? = some { kernel_value := -1, wicked_value := 0 }
    ∧ (__ni_wireless_key_mgmt_map hdr).getLast? = some { kernel_value := -1, wicked_value := 0 }
    ∧ __ni_kernel_to_wicked (__ni_wireless_cipher_map hdr) 6 = none
    ∧ __ni_kernel_to_wicked (__ni_wireless_key_mgmt_map hdr) 3 = none
    ∧ __ni_kernel_to_wicked
        ((__ni_wireless_cipher_map hdr).dropLast ++ [{ kernel_value := -1, wicked_value := -1 }]) 6
        = some (-1) := by
  refine ⟨rfl, rfl, (kernel_to_wicked_maps_unknown hdr 6).1 (by decide),
    (kernel_to_wicked_maps_unknown hdr 3).2 (by decide), ?_⟩
  simp [__ni_kernel_to_wicked, __ni_wireless_cipher_map, IW_IE_CIPHER_NONE, IW_IE_CIPHER_WEP40,
    IW_IE_CIPHER_TKIP, IW_IE_CIPHER_WRAP, IW_IE_CIPHER_CCMP, IW_IE_CIPHER_WEP104]

/-- The function `__ni_wireless_process_ie_cipher` on a suite selector with
the OUI asked for and the type byte 6 has no result: the lookup reads past the
cipher map. -/
theorem process_ie_cipher_unknown_type (hdr : WirelessHeader) (rest : List Nat) (result : Nat) :
    __ni_wireless_process_ie_cipher hdr (0x00 :: 0x0f :: 0xac :: 6 :: rest) [0x00, 0x0f, 0xac]
      result = none := by
  have h := (kernel_to_wicked_maps_unknown hdr 6).1 (by decide)
  have hget : ni_buffer_get (0x00 :: 0x0f :: 0xac :: 6 :: rest) 4
      = (0, [0x00, 0x0f, 0xac, 6], rest) := by
    have hlen : ¬ (rest.length + 1 + 1 + 1 + 1 < 4) := by omega
    simp [ni_buffer_get, hlen]
  unfold __ni_wireless_process_ie_cipher
  rw [hget]
  simp [h]

end Wireless

namespace DBusXml

/-! ## Registration of the schema methods -/

/-- The second loop of `ni_dbus_xml_register_methods` when every public method
has a signature: the entries from `method` on are written one per schema
method, a private method leaving its entry null. -/
theorem register_methods_loop_eq :
    ∀ (methods : List ni_xs_method_t) (pre : List ni_dbus_method_t) (k : Nat),
      methods.length ≤ k →
      (∀ m ∈ methods, is_private m = false →
        ∃ sig, build_signature m.arguments "" = some (some sig)) →
      register_methods_loop methods pre.length (pre ++ List.replicate k ni_dbus_method_t.zero)
        = some (0, pre ++ methods.map method_entry
            ++ List.replicate (k - methods.length) ni_dbus_method_t.zero) := by
  intro methods
  induction methods with
  | nil =>
    intro pre k _ _
    simp [register_methods_loop]
  | cons m rest ih =>
    intro pre k hk hsig
    obtain ⟨k1, rfl⟩ : ∃ k1, k = k1 + 1 := ⟨k - 1, by simp at hk; omega⟩
    have hk1 : rest.length ≤ k1 := by simpa using hk
    have hrest : ∀ m1 ∈ rest, is_private m1 = false →
        ∃ sig, build_signature m1.arguments "" = some (some sig) :=
      fun m1 h1 => hsig m1 (List.mem_cons_of_mem _ h1)
    have hstep : ∀ e : ni_dbus_method_t,
        pre ++ e :: List.replicate k1 ni_dbus_method_t.zero
          = (pre ++ [e]) ++ List.replicate k1 ni_dbus_method_t.zero := by
      intro e
      simp
    have hlen : ∀ e : ni_dbus_method_t, (pre ++ [e]).length = pre.length + 1 := by
      intro e
      simp
    cases hp : is_private m
    · obtain ⟨sig, hs⟩ := hsig m (List.mem_cons_self _ _) hp
      have hset : (pre ++ List.replicate (k1 + 1) ni_dbus_method_t.zero).set pre.length
            { name := m.name, call_signature := some sig, handler := none, user_data := some m }
          = (pre ++ [{ name := m.name, call_signature := some sig, handler := none,
                       user_data := some m }])
              ++ List.replicate k1 ni_dbus_method_t.zero := by
        rw [List.replicate_succ, List.set_append_right _ _ (le_refl _)]
        simp
      have hentry : method_entry m
          = { name := m.name, call_signature := some sig, handler := none,
              user_data := some m } := by
        simp [method_entry, hp, hs]
      rw [register_methods_loop]
      simp only [hp, Bool.false_eq_true, if_false, hs, hset]
      rw [← hlen, ih _ k1 hk1 hrest, List.map_cons, hentry]
      simp
    · have hentry : method_entry m = ni_dbus_method_t.zero := by
        simp [method_entry, hp]
      rw [register_methods_loop]
      simp only [hp, if_true]
      rw [List.replicate_succ, hstep, ← hlen, ih _ k1 hk1 hrest, List.map_cons, hentry]
      simp

/-- The function `ni_dbus_xml_register_methods` when every public method has
a signature: the array holds one entry per schema method, in schema order,
null at the place of each private method, and a null entry at the end. -/
theorem register_methods_eq (service : ni_dbus_service_t) (xs_service : ni_xs_service_t)
    (hne : xs_service.methods ≠ [])
    (hsig : ∀ m ∈ xs_service.methods, is_private m = false →
      ∃ sig, build_signature m.arguments "" = some (some sig)) :
    ni_dbus_xml_register_methods service xs_service
      = some (0, { service with
          methods := some (xs_service.methods.map method_entry ++ [ni_dbus_method_t.zero]) }) := by
  have h := register_methods_loop_eq xs_service.methods [] (xs_service.methods.length + 1)
    (by omega) hsig
  simp only [List.length_nil, List.nil_append] at h
  have hemp : xs_service.methods.isEmpty = false := by
    cases hm : xs_service.methods with
    | nil => exact absurd hm hne
    | cons a b => rfl
  unfold ni_dbus_xml_register_methods
  simp only [hemp, Bool.false_eq_true, if_false, h]
  have : xs_service.methods.length + 1 - xs_service.methods.length = 1 := by omega
  rw [this]
  rfl

/-- The entries before the first null name, in an array of method entries
followed by a null entry: those of the schema methods before the first private
one. -/
theorem visible_before_private :
    ∀ methods : List ni_xs_method_t,
      (methods.map method_entry ++ [ni_dbus_method_t.zero]).takeWhile
          (fun method => method.name.isSome)
        = (methods.takeWhile (fun m => !is_private m)).map method_entry := by
  intro methods
  induction methods with
  | nil => rfl
  | cons m rest ih =>
    cases hp : is_private m
    · have hname : (method_entry m).name.isSome = true := by
        unfold is_private at hp
        cases hn : m.name with
        | none => simp [hn] at hp
        | some name => simp [method_entry, is_private, hn] at hp ⊢
                       simp [hp]
      simp only [List.map_cons, List.cons_append, List.takeWhile_cons, hname, if_true, hp,
        Bool.not_false, ih]
    · have hname : (method_entry m).name.isSome = false := by
        simp [method_entry, hp, ni_dbus_method_t.zero]
      simp [List.takeWhile_cons, hname, hp]

/-- The methods a reader finds after `ni_dbus_xml_register_methods`, when
every public method has a signature: the schema methods before the first
private one. -/
theorem register_methods_visible (service : ni_dbus_service_t) (xs_service : ni_xs_service_t)
    (hne : xs_service.methods ≠ [])
    (hsig : ∀ m ∈ xs_service.methods, is_private m = false →
      ∃ sig, build_signature m.arguments "" = some (some sig)) :
    (ni_dbus_xml_register_methods service xs_service).map (fun r => visible_methods r.2)
      = some ((xs_service.methods.takeWhile (fun m => !is_private m)).map method_entry) := by
  rw [register_methods_eq service xs_service hne hsig]
  simp only [Option.map_some', visible_methods, visible_before_private]

/-- The function `ni_dbus_xml_register_methods` returns -1 at the first public
method with an argument whose type has no signature, when the methods before
it are private or have one. -/
theorem register_methods_loop_bad_signature :
    ∀ (before : List ni_xs_method_t) (m : ni_xs_method_t) (after : List ni_xs_method_t)
      (idx : Nat) (method_array : List ni_dbus_method_t),
      (∀ m1 ∈ before, is_private m1 = true
        ∨ ∃ sig, build_signature m1.arguments "" = some (some sig)) →
      is_private m = false → build_signature m.arguments "" = some none →
      ∃ method_array1,
        register_methods_loop (before ++ m :: after) idx method_array
          = some (-1, method_array1) := by
  intro before
  induction before with
  | nil =>
    intro m after idx method_array _ hp hs
    exact ⟨method_array, by simp [register_methods_loop, hp, hs]⟩
  | cons b rest ih =>
    intro m after idx method_array hb hp hs
    have hrest : ∀ m1 ∈ rest, is_private m1 = true
        ∨ ∃ sig, build_signature m1.arguments "" = some (some sig) :=
      fun m1 h1 => hb m1 (List.mem_cons_of_mem _ h1)
    rcases hb b (List.mem_cons_self _ _) with hpb | ⟨sig, hsb⟩
    · obtain ⟨arr1, h1⟩ := ih m after (idx + 1) method_array hrest hp hs
      exact ⟨arr1, by simp [register_methods_loop, hpb, h1]⟩
    · cases hpb : is_private b
      · obtain ⟨arr1, h1⟩ := ih m after (idx + 1)
          (method_array.set idx
            { name := b.name, call_signature := some sig, handler := none, user_data := some b })
          hrest hp hs
        exact ⟨arr1, by simp [register_methods_loop, hpb, hsb, h1]⟩
      · obtain ⟨arr1, h1⟩ := ih m after (idx + 1) method_array hrest hp hs
        exact ⟨arr1, by simp [register_methods_loop, hpb, h1]⟩

/-- C35: for a schema service that lists the private method `__newlink`
before its public methods `linkUp` and `configure`, the function
`ni_dbus_xml_register_methods` returns 0 and leaves a null entry at the place
of the private method, at the head of the array: the public methods are
written after it, with their names and signatures, and no method stands before
the first entry with a null name. -/
theorem register_methods_hides_public_methods :
    ni_dbus_xml_register_methods sampleService sampleSchema
      = some (0, { sampleService with
          methods := some
            [ ni_dbus_method_t.zero,
              { name := some "linkUp", call_signature := some "say", handler := none,
                user_data := some linkUpMethod },
              { name := some "configure", call_signature := some "a\x7bsv\x7d", handler := none,
                user_data := some configureMethod },
              ni_dbus_method_t.zero ] })
    ∧ (ni_dbus_xml_register_methods sampleService sampleSchema).map
          (fun r => visible_methods r.2) = some []
    ∧ is_private linkUpMethod = false ∧ is_private configureMethod = false := by
  decide

/-- An argument of a class without signature makes the registration fail. -/
theorem register_methods_bad_signature_sample :
    (ni_dbus_xml_register_methods sampleService { methods := [linkUpMethod, brokenMethod] }).map
      (fun r => r.1) = some (-1) := by
  decide

end DBusXml

namespace Process

/-! ## Setting environment variables -/

/-- The test of the loop in `__ni_process_setenv` holds exactly for the
entries that begin with `name` and `=`. -/
theorem setenv_matches_iff (oldvar name : List Char) :
    setenv_matches oldvar name = true ↔ (name ++ ['=']) <+: oldvar := by
  unfold setenv_matches
  simp only [Bool.and_eq_true, beq_iff_eq]
  constructor
  · rintro ⟨htake, hget⟩
    have hlt : name.length < oldvar.length := by
      rw [List.get?_eq_getElem?] at hget
      exact (List.getElem?_eq_some.mp hget).1
    have hdrop : oldvar.drop name.length = '=' :: oldvar.drop (name.length + 1) := by
      rw [List.get?_eq_getElem?] at hget
      have hg := (List.getElem?_eq_some.mp hget).2
      rw [List.drop_eq_getElem_cons hlt, hg]
    refine ⟨oldvar.drop (name.length + 1), ?_⟩
    calc name ++ ['='] ++ oldvar.drop (name.length + 1)
        = oldvar.take name.length ++ oldvar.drop name.length := by
          rw [htake, hdrop]
          simp
      _ = oldvar := List.take_append_drop _ _
  · rintro ⟨rest, rfl⟩
    constructor
    · simp
    · rw [List.get?_eq_getElem?, List.append_assoc,
        List.getElem?_append_right (le_refl _)]
      simp

theorem setenv_matches_new (name value : List Char) :
    setenv_matches (name ++ '=' :: value) name = true := by
  rw [setenv_matches_iff]
  exact ⟨value, by simp⟩

/-- The function `__ni_process_setenv` when no entry matches: the new string
is appended. -/
theorem setenv_append (name value : List Char) :
    ∀ env : List (List Char), (∀ e ∈ env, setenv_matches e name = false) →
      __ni_process_setenv env name value = env ++ [name ++ '=' :: value] := by
  intro env
  induction env with
  | nil => intro _; rfl
  | cons e rest ih =>
    intro h
    have he := h e (List.mem_cons_self _ _)
    have hrest := ih (fun x hx => h x (List.mem_cons_of_mem _ hx))
    simp [__ni_process_setenv, he, hrest]

/-- The function `__ni_process_setenv` when an entry matches: the first such
entry is replaced in place. -/
theorem setenv_replace (name value old : List Char) (post : List (List Char))
    (hold : setenv_matches old name = true) :
    ∀ pre : List (List Char), (∀ e ∈ pre, setenv_matches e name = false) →
      __ni_process_setenv (pre ++ old :: post) name value
        = pre ++ (name ++ '=' :: value) :: post := by
  intro pre
  induction pre with
  | nil =>
    intro _
    simp [__ni_process_setenv, hold]
  | cons e rest ih =>
    intro h
    have he := h e (List.mem_cons_self _ _)
    have hrest := ih (fun x hx => h x (List.mem_cons_of_mem _ hx))
    simp [__ni_process_setenv, he, hrest]

/-- Either no entry of a list matches, or there is a first one that does. -/
theorem setenv_cases (name : List Char) :
    ∀ env : List (List Char),
      (∀ e ∈ env, setenv_matches e name = false)
      ∨ ∃ pre old post, env = pre ++ old :: post
          ∧ (∀ e ∈ pre, setenv_matches e name = false) ∧ setenv_matches old name = true := by
  intro env
  induction env with
  | nil => exact Or.inl (by simp)
  | cons e rest ih =>
    cases he : setenv_matches e name
    · rcases ih with hno | ⟨pre, old, post, hsplit, hpre, hold⟩
      · left
        intro x hx
        rcases List.mem_cons.mp hx with rfl | hx1
        · exact he
        · exact hno x hx1
      · right
        refine ⟨e :: pre, old, post, by rw [hsplit]; rfl, ?_, hold⟩
        intro x hx
        rcases List.mem_cons.mp hx with rfl | hx1
        · exact he
        · exact hpre x hx1
    · exact Or.inr ⟨[], e, rest, rfl, by simp, he⟩

/-- An entry that begins with `name` and `=` sets the variable `name`, when
`name` has no `=`. -/
theorem var_name_of_begin (name rest : List Char) (hname : '=' ∉ name) :
    var_name (name ++ '=' :: rest) = some name := by
  unfold var_name
  have hmem : '=' ∈ name ++ '=' :: rest := by simp
  rw [if_pos hmem]
  congr 1
  induction name with
  | nil => simp [List.takeWhile]
  | cons c cs ih =>
    have hc : c ≠ '=' := fun h => hname (by rw [h]; exact List.mem_cons_self _ _)
    have hcs : '=' ∉ cs := fun h => hname (List.mem_cons_of_mem _ h)
    simp only [List.cons_append, List.takeWhile_cons]
    have : (c != '=') = true := by simpa using hc
    rw [this, if_pos rfl, ih hcs (by simp)]

/-- An entry that sets the variable `name` begins with `name` and `=`. -/
theorem begin_of_var_name (entry name : List Char) (h : var_name entry = some name) :
    (name ++ ['=']) <+: entry := by
  unfold var_name at h
  split at h
  · rename_i hmem
    simp only [Option.some.injEq] at h
    subst h
    have hsplit := List.takeWhile_append_dropWhile (fun c => c != '=') entry
    have hdrop : ∃ rest, entry.dropWhile (fun c => c != '=') = '=' :: rest := by
      cases hd : entry.dropWhile (fun c => c != '=') with
      | nil =>
        rw [List.dropWhile_eq_nil_iff] at hd
        have := hd '=' hmem
        simp at this
      | cons c rest =>
        have hc := List.head_dropWhile_not (fun c => c != '=') entry
          (by rw [hd]; exact List.cons_ne_nil _ _)
        simp only [hd, List.head_cons] at hc
        have : c = '=' := by simpa using hc
        exact ⟨rest, by rw [this]⟩
    obtain ⟨rest, hrest⟩ := hdrop
    refine ⟨rest, ?_⟩
    rw [hrest] at hsplit
    simpa using hsplit
  · simp at h

/-- C37 (counterexample): with the name `A=B`, which holds a `=`, the list
`A=1` has no entry that begins with `A=B=`; the string `A=B=c` is appended,
and the variable `A` is set twice. -/
theorem setenv_duplicates_variable :
    __ni_process_setenv ["A=1".toList] "A=B".toList "c".toList = ["A=1".toList, "A=B=c".toList]
    ∧ NoDuplicates ["A=1".toList]
    ∧ ¬ NoDuplicates (__ni_process_setenv ["A=1".toList] "A=B".toList "c".toList) := by
  decide

/-- C37 (as amended): after `__ni_process_setenv(env, name, value)` the list
holds the entry `name=value`.  If an entry began with `name=`, the first such
entry is replaced in place, the count and every other entry unchanged;
otherwise the entry is appended.  Setting the same name twice leaves the list
as after setting the second value only.  For a name without `=`, a list in
which no variable is set twice stays so. -/
theorem setenv_result (env : List (List Char)) (name value : List Char) :
    (name ++ '=' :: value) ∈ __ni_process_setenv env name value
    ∧ (∀ pre old post, env = pre ++ old :: post →
        (∀ e ∈ pre, ¬ (name ++ ['=']) <+: e) → (name ++ ['=']) <+: old →
        __ni_process_setenv env name value = pre ++ (name ++ '=' :: value) :: post
        ∧ (__ni_process_setenv env name value).length = env.length)
    ∧ ((∀ e ∈ env, ¬ (name ++ ['=']) <+: e) →
        __ni_process_setenv env name value = env ++ [name ++ '=' :: value])
    ∧ (∀ value1, __ni_process_setenv (__ni_process_setenv env name value1) name value
        = __ni_process_setenv env name value)
    ∧ ('=' ∉ name → NoDuplicates env → NoDuplicates (__ni_process_setenv env name value)) := by
  have hfalse : ∀ l : List (List Char), (∀ e ∈ l, ¬ (name ++ ['=']) <+: e) →
      ∀ e ∈ l, setenv_matches e name = false := by
    intro l h e he
    cases hm : setenv_matches e name
    · rfl
    · exact absurd ((setenv_matches_iff e name).mp hm) (h e he)
  have hrepl : ∀ pre old post, env = pre ++ old :: post →
      (∀ e ∈ pre, setenv_matches e name = false) → setenv_matches old name = true →
      ∀ v, __ni_process_setenv env name v = pre ++ (name ++ '=' :: v) :: post := by
    intro pre old post hsplit hpre hold v
    rw [hsplit]
    exact setenv_replace name v old post hold pre hpre
  refine ⟨?_, ?_, ?_, ?_, ?_⟩
  · rcases setenv_cases name env with hno | ⟨pre, old, post, hsplit, hpre, hold⟩
    · rw [setenv_append name value env hno]
      simp
    · rw [hrepl pre old post hsplit hpre hold value]
      simp
  · intro pre old post hsplit hpre hold
    have h := hrepl pre old post hsplit (hfalse pre hpre) ((setenv_matches_iff old name).mpr hold)
      value
    refine ⟨h, ?_⟩
    rw [h, hsplit]
    simp
  · intro hno
    exact setenv_append name value env (hfalse env hno)
  · intro value1
    rcases setenv_cases name env with hno | ⟨pre, old, post, hsplit, hpre, hold⟩
    · rw [setenv_append name value1 env hno, setenv_append name value env hno]
      exact setenv_replace name value _ [] (setenv_matches_new name value1) env hno
    · rw [hrepl pre old post hsplit hpre hold value1, hrepl pre old post hsplit hpre hold value]
      exact setenv_replace name value _ post (setenv_matches_new name value1) pre hpre
  · intro hname hnodup
    unfold NoDuplicates at hnodup ⊢
    rcases setenv_cases name env with hno | ⟨pre, old, post, hsplit, hpre, hold⟩
    · rw [setenv_append name value env hno, List.filterMap_append]
      simp only [List.filterMap_cons, var_name_of_begin name value hname, List.filterMap_nil]
      refine List.Nodup.append hnodup (List.nodup_singleton _) ?_
      intro x hx hx1
      simp only [List.mem_singleton] at hx1
      subst hx1
      obtain ⟨e, he, hv⟩ := List.mem_filterMap.mp hx
      have hm := (setenv_matches_iff e x).mpr (begin_of_var_name e x hv)
      rw [hno e he] at hm
      cases hm
    · obtain ⟨rest, hrest⟩ := (setenv_matches_iff old name).mp hold
      have hold1 : var_name old = some name := by
        rw [← hrest]
        simpa using var_name_of_begin name rest hname
      rw [hrepl pre old post hsplit hpre hold value]
      rw [hsplit] at hnodup
      simpa [List.filterMap_append, List.filterMap_cons, hold1,
        var_name_of_begin name value hname] using hnodup

/-- C37 (as amended), on sample values: setting `LANG` replaces the second
entry, setting `TERM` appends a third one, and no variable is set twice
afterwards. -/
theorem setenv_result_witness :
    __ni_process_setenv sampleEnviron "LANG".toList "de_DE".toList
        = ["PATH=/sbin:/bin".toList, "LANG=de_DE".toList]
    ∧ __ni_process_setenv sampleEnviron "TERM".toList "vt100".toList
        = ["PATH=/sbin:/bin".toList, "LANG=C".toList, "TERM=vt100".toList]
    ∧ NoDuplicates (__ni_process_setenv sampleEnviron "TERM".toList "vt100".toList) :=
  ⟨by decide, by decide,
   (setenv_result sampleEnviron "TERM".toList "vt100".toList).2.2.2.2 (by decide) (by decide)⟩

end Process
